import Mathlib

/-!
Windowing and monitor core of `internal/glfwwin`.

A shallow embedding of `monitor_windows.go` and `win32window_windows.go`:
video-mode catalog and matcher, window style derivation, full-window-size
computation and the aspect-ratio constraint.

* Go's `int` and `uint` are `Int`/`Nat` reduced explicitly to the word of the
  target architecture (`Arch`); `int32` is `Int` reduced to 32 bits.
* Go's `float32` is modelled exactly: a sign, a significand and an exponent,
  with round-to-nearest-even at 24 bits after every operation.
* Calls that leave the package are explicit parameters: the platform
  enumeration of video modes, the rectangle adjustments and DPI query of the
  OS (`Platform`), and `sort.Slice` with the contract its documentation gives.
* `DONT_CARE`, `VidMode`, `Monitor` and `Window` are declared in a file that is
  not among the sources: the sentinel is a parameter, the structures hold the
  fields the sources read.
-/

namespace Glfwwin

/-! ## Machine integers -/

/-- The two word sizes Go gives `int` and `uint` on its Windows targets. -/
inductive Arch
  | bits32
  | bits64
  deriving DecidableEq, Repr

/-- Width in bits of `uint` (and of `int`) on the architecture. -/
def Arch.uintBits : Arch → Nat
  | .bits32 => 32
  | .bits64 => 64

/-- Reduce a mathematical integer to the two's-complement `int` of the architecture. -/
def wrapInt (a : Arch) (x : Int) : Int :=
  (x + 2 ^ (a.uintBits - 1)) % 2 ^ a.uintBits - 2 ^ (a.uintBits - 1)

/-- Reduce a mathematical integer to the `uint` of the architecture (the conversion `uint(x)`). -/
def wrapUint (a : Arch) (x : Int) : Nat :=
  (x % 2 ^ a.uintBits).toNat

/-- A value an `int` variable can hold. -/
def IsInt (a : Arch) (x : Int) : Prop :=
  -(2 ^ (a.uintBits - 1)) ≤ x ∧ x < 2 ^ (a.uintBits - 1)

instance (a : Arch) (x : Int) : Decidable (IsInt a x) := by
  unfold IsInt; infer_instance

/-- Reduce a mathematical integer to a two's-complement `int32`. -/
def wrapInt32 (x : Int) : Int :=
  (x + 2 ^ 31) % 2 ^ 32 - 2 ^ 31

/-- A value an `int32` variable can hold. -/
def IsInt32 (x : Int) : Prop := -(2 ^ 31) ≤ x ∧ x < 2 ^ 31

instance (x : Int) : Decidable (IsInt32 x) := by
  unfold IsInt32; infer_instance

/-- Source: `func abs(x int) uint`. The negation is the machine negation, so
`abs` of the least `int` is `2^(w-1)`. -/
def abs (a : Arch) (x : Int) : Nat :=
  if x < 0 then wrapUint a (wrapInt a (-x)) else wrapUint a x

/-! ## Video modes and monitors -/

/-- A video mode; the fields are the ones the sources read, each a Go `int`. -/
structure VidMode where
  Width : Int
  Height : Int
  RedBits : Int
  GreenBits : Int
  BlueBits : Int
  RefreshRate : Int
  deriving DecidableEq, Repr

/-- Source: `func (v *VidMode) equals(other *VidMode) bool`. -/
def VidMode.equals (a : Arch) (v other : VidMode) : Bool :=
  if wrapInt a (wrapInt a (v.RedBits + v.GreenBits) + v.BlueBits) ≠
      wrapInt a (wrapInt a (other.RedBits + other.GreenBits) + other.BlueBits) then false
  else if v.Width ≠ other.Width then false
  else if v.Height ≠ other.Height then false
  else if v.RefreshRate ≠ other.RefreshRate then false
  else true

/-- The comparison closure handed to `sort.Slice` in `refreshVideoModes`,
on the two elements `a := modes[i]`, `b := modes[j]`. -/
def modeLess (ar : Arch) (a b : VidMode) : Bool :=
  let abpp := wrapInt ar (wrapInt ar (a.RedBits + a.GreenBits) + a.BlueBits)
  let bbpp := wrapInt ar (wrapInt ar (b.RedBits + b.GreenBits) + b.BlueBits)
  if abpp ≠ bbpp then decide (abpp < bbpp)
  else
    let aarea := wrapInt ar (a.Width * a.Height)
    let barea := wrapInt ar (b.Width * b.Height)
    if aarea ≠ barea then decide (aarea < barea)
    else if a.Width ≠ b.Width then decide (a.Width < b.Width)
    else decide (a.RefreshRate < b.RefreshRate)

/-- The sort key the comparison closure orders by: bit-depth sum, area, width,
refresh rate, each as the closure computes it. -/
def sortKey (ar : Arch) (v : VidMode) : Int × Int × Int × Int :=
  (wrapInt ar (wrapInt ar (v.RedBits + v.GreenBits) + v.BlueBits),
   wrapInt ar (v.Width * v.Height), v.Width, v.RefreshRate)

/-- Lexicographic "at most" on sort keys. -/
def keyLe (k l : Int × Int × Int × Int) : Prop :=
  k.1 < l.1 ∨ (k.1 = l.1 ∧ (k.2.1 < l.2.1 ∨ (k.2.1 = l.2.1 ∧
    (k.2.2.1 < l.2.2.1 ∨ (k.2.2.1 = l.2.2.1 ∧ k.2.2.2 ≤ l.2.2.2)))))

instance (k l : Int × Int × Int × Int) : Decidable (keyLe k l) := by
  unfold keyLe; infer_instance

/-- Strict lexicographic order on sort keys. -/
def keyLt (k l : Int × Int × Int × Int) : Prop :=
  k.1 < l.1 ∨ (k.1 = l.1 ∧ (k.2.1 < l.2.1 ∨ (k.2.1 = l.2.1 ∧
    (k.2.2.1 < l.2.2.1 ∨ (k.2.2.1 = l.2.2.1 ∧ k.2.2.2 < l.2.2.2)))))

instance (k l : Int × Int × Int × Int) : Decidable (keyLt k l) := by
  unfold keyLt; infer_instance

/-- Errors reported by calls into the platform. -/
abbrev Error := String

/-- A monitor: its native identity and the attributes the sources read. -/
structure Monitor where
  handle : Nat
  name : String
  widthMM : Int
  heightMM : Int
  modes : List VidMode
  currentMode : Option VidMode
  window : Option Nat
  deriving DecidableEq, Repr

/-! ## `sort.Slice` -/

/-- What Go's documentation asks of a `less` function: a strict transitive
ordering (`less` is irreflexive and transitive, and so is its negation). -/
def LessIsOrdering {α : Type} (less : α → α → Bool) : Prop :=
  (∀ x, less x x = false) ∧
  (∀ x y z, less x y = true → less y z = true → less x z = true) ∧
  (∀ x y z, less x y = false → less y z = false → less x z = false)

/-- What `sort.Slice` promises for such a `less`: the slice afterwards holds the
same elements and no element is `less` than the one before it. The order of
elements neither of which is `less` than the other is not promised. -/
def SortSliceContract {α : Type} (sortSlice : (α → α → Bool) → List α → List α) : Prop :=
  ∀ less, LessIsOrdering less → ∀ l,
    (sortSlice less l).Perm l ∧ (sortSlice less l).Chain' (fun x y => less y x = false)

/-- Insertion of `x` at the end of a sorted run held in reverse (last element
first): `x` moves towards the front of the slice while it is `less` than the
element before it, as in the inner loop of Go's `insertionSort_func`. -/
def insertBack {α : Type} (less : α → α → Bool) (x : α) : List α → List α
  | [] => [x]
  | p :: ps => if less x p then p :: insertBack less x ps else x :: p :: ps

/-- Go's `insertionSort_func`: every element in turn is moved towards the front
while it is `less` than its predecessor. This is all `sort.Slice` runs on a
slice of at most 12 elements from Go 1.19 on. -/
def insertionSortFunc {α : Type} (less : α → α → Bool) (l : List α) : List α :=
  (l.foldl (fun run x => insertBack less x run) []).reverse

/-- One shell pass with gap `pending.length`: `pending` holds the elements at
the positions `i - gap .. i - 1`, the second list starts at position `i`;
`if less(i, i-gap) then swap(i, i-gap)` for every `i` in turn. -/
def shellPassFrom {α : Type} (less : α → α → Bool) : List α → List α → List α
  | pending, [] => pending
  | [], x :: xs => x :: xs
  | p :: ps, x :: xs =>
    if less x p then x :: shellPassFrom less (ps ++ [p]) xs
    else p :: shellPassFrom less (ps ++ [x]) xs

/-- The tail of `quickSort_func`, which is all `sort.Slice` runs on a slice of
at most 12 elements in the Go releases 1.6 to 1.18: a shell pass with gap 6,
then insertion sort. -/
def shellInsertionSortFunc {α : Type} (less : α → α → Bool) (l : List α) : List α :=
  insertionSortFunc less (shellPassFrom less (l.take 6) (l.drop 6))

/-! ## The video-mode catalog and the matcher -/

/-- Source: `func (m *Monitor) refreshVideoModes() error`. The platform
enumeration `platformAppendVideoModes` and `sort.Slice` are parameters; the
result is the monitor afterwards and the error, if any. -/
def Monitor.refreshVideoModes (ar : Arch)
    (sortSlice : (VidMode → VidMode → Bool) → List VidMode → List VidMode)
    (platformAppendVideoModes : Monitor → List VidMode → Except Error (List VidMode))
    (m : Monitor) : Monitor × Option Error :=
  let m := { m with modes := m.modes.take 0 }
  match platformAppendVideoModes m m.modes with
  | .error err => (m, some err)
  | .ok modes =>
    let modes := sortSlice (modeLess ar) modes
    ({ m with modes := modes }, none)

/-- Source: `intSize = 32 << (^uint(0) >> 63)`. -/
def intSize (a : Arch) : Nat := 32 <<< ((2 ^ a.uintBits - 1) >>> 63)

/-- Source: `maxUint = 1<<intSize - 1`. -/
def maxUint (a : Arch) : Nat := 1 <<< intSize a - 1

/-- The loop variables of `chooseVideoMode`. -/
structure ChooseState where
  closest : Option VidMode
  leastColorDiff : Nat
  leastSizeDiff : Nat
  leastRateDiff : Nat
  deriving DecidableEq, Repr

/-- The `colorDiff` the loop body of `chooseVideoMode` computes for candidate `v`:
a `uint` sum of `abs` of `int` differences. -/
def colorDiff (a : Arch) (DONT_CARE : Int) (desired v : VidMode) : Nat :=
  let c := 0
  let c := if desired.RedBits ≠ DONT_CARE then
    (c + abs a (wrapInt a (v.RedBits - desired.RedBits))) % 2 ^ a.uintBits else c
  let c := if desired.GreenBits ≠ DONT_CARE then
    (c + abs a (wrapInt a (v.GreenBits - desired.GreenBits))) % 2 ^ a.uintBits else c
  let c := if desired.BlueBits ≠ DONT_CARE then
    (c + abs a (wrapInt a (v.BlueBits - desired.BlueBits))) % 2 ^ a.uintBits else c
  c

/-- The `sizeDiff` the loop body of `chooseVideoMode` computes for candidate `v`:
`abs` of an `int` sum of squares. -/
def sizeDiff (a : Arch) (desired v : VidMode) : Nat :=
  let dw := wrapInt a (v.Width - desired.Width)
  let dh := wrapInt a (v.Height - desired.Height)
  abs a (wrapInt a (wrapInt a (dw * dw) + wrapInt a (dh * dh)))

/-- The `rateDiff` the loop body of `chooseVideoMode` computes for candidate `v`:
`abs` of the `int` difference, or `maxUint - uint(v.RefreshRate)`. -/
def rateDiff (a : Arch) (DONT_CARE : Int) (desired v : VidMode) : Nat :=
  if desired.RefreshRate ≠ DONT_CARE then
    abs a (wrapInt a (v.RefreshRate - desired.RefreshRate))
  else
    wrapUint a ((maxUint a : Int) - (wrapUint a v.RefreshRate : Int))

/-- The score tuple the loop compares: colour, then size, then rate. -/
def score (a : Arch) (DONT_CARE : Int) (desired v : VidMode) : Nat × Nat × Nat :=
  (colorDiff a DONT_CARE desired v, sizeDiff a desired v, rateDiff a DONT_CARE desired v)

/-- Strict lexicographic order on score tuples, as the loop tests it. -/
def scoreLt (s t : Nat × Nat × Nat) : Prop :=
  s.1 < t.1 ∨ (s.1 = t.1 ∧ s.2.1 < t.2.1) ∨ (s.1 = t.1 ∧ s.2.1 = t.2.1 ∧ s.2.2 < t.2.2)

instance (s t : Nat × Nat × Nat) : Decidable (scoreLt s t) := by
  unfold scoreLt; infer_instance

/-- One iteration of the loop of `chooseVideoMode`. -/
def chooseStep (a : Arch) (DONT_CARE : Int) (desired : VidMode) (st : ChooseState)
    (v : VidMode) : ChooseState :=
  let colorDiff := colorDiff a DONT_CARE desired v
  let sizeDiff := sizeDiff a desired v
  let rateDiff := rateDiff a DONT_CARE desired v
  if colorDiff < st.leastColorDiff ∨
      (colorDiff = st.leastColorDiff ∧ sizeDiff < st.leastSizeDiff) ∨
      (colorDiff = st.leastColorDiff ∧ sizeDiff = st.leastSizeDiff ∧
        rateDiff < st.leastRateDiff) then
    { closest := some v, leastColorDiff := colorDiff, leastSizeDiff := sizeDiff,
      leastRateDiff := rateDiff }
  else st

/-- Source: `func (m *Monitor) chooseVideoMode(desired *VidMode) (*VidMode, error)`.
The result is the monitor afterwards (its catalog is refreshed) and the
returned pair; a nil `*VidMode` is `none`. -/
def Monitor.chooseVideoMode (a : Arch) (DONT_CARE : Int)
    (sortSlice : (VidMode → VidMode → Bool) → List VidMode → List VidMode)
    (platformAppendVideoModes : Monitor → List VidMode → Except Error (List VidMode))
    (m : Monitor) (desired : VidMode) : Monitor × Except Error (Option VidMode) :=
  match m.refreshVideoModes a sortSlice platformAppendVideoModes with
  | (m, some err) => (m, .error err)
  | (m, none) =>
    let st := m.modes.foldl (chooseStep a DONT_CARE desired)
      { closest := none, leastColorDiff := maxUint a, leastSizeDiff := maxUint a,
        leastRateDiff := maxUint a }
    (m, .ok st.closest)

/-! ## The scores in exact integers -/

/-- The colour score in exact integers: the sum over red, green, blue of
`|candidate.bits - desired.bits|`, a channel skipped when its desired value is
the don't-care value. -/
def exactColorScore (DONT_CARE : Int) (desired v : VidMode) : Int :=
  (if desired.RedBits ≠ DONT_CARE then |v.RedBits - desired.RedBits| else 0) +
  (if desired.GreenBits ≠ DONT_CARE then |v.GreenBits - desired.GreenBits| else 0) +
  (if desired.BlueBits ≠ DONT_CARE then |v.BlueBits - desired.BlueBits| else 0)

/-- The size score in exact integers: the squared Euclidean distance. -/
def exactSizeScore (desired v : VidMode) : Int :=
  (v.Width - desired.Width) ^ 2 + (v.Height - desired.Height) ^ 2

/-- The rate score in exact integers: the distance to the desired rate, or
`maxUint` less the candidate's rate when the desired rate is the don't-care
value. -/
def exactRateScore (a : Arch) (DONT_CARE : Int) (desired v : VidMode) : Int :=
  if desired.RefreshRate ≠ DONT_CARE then |v.RefreshRate - desired.RefreshRate|
  else (maxUint a : Int) - v.RefreshRate

/-- Every field of the mode lies in `[-2^14, 2^14)`, where the arithmetic of
the matcher overflows on neither word size. -/
def VidMode.IsSmall (v : VidMode) : Prop :=
  (-(2 ^ 14) ≤ v.Width ∧ v.Width < 2 ^ 14) ∧ (-(2 ^ 14) ≤ v.Height ∧ v.Height < 2 ^ 14) ∧
  (-(2 ^ 14) ≤ v.RedBits ∧ v.RedBits < 2 ^ 14) ∧
  (-(2 ^ 14) ≤ v.GreenBits ∧ v.GreenBits < 2 ^ 14) ∧
  (-(2 ^ 14) ≤ v.BlueBits ∧ v.BlueBits < 2 ^ 14) ∧
  (-(2 ^ 14) ≤ v.RefreshRate ∧ v.RefreshRate < 2 ^ 14)

instance (v : VidMode) : Decidable v.IsSmall := by
  unfold VidMode.IsSmall; infer_instance

/-- The score tuple in exact integers: colour, then size, then rate. -/
def exactScore (a : Arch) (DONT_CARE : Int) (desired v : VidMode) : Int × Int × Int :=
  (exactColorScore DONT_CARE desired v, exactSizeScore desired v,
    exactRateScore a DONT_CARE desired v)

/-- Strict lexicographic order on exact score tuples. -/
def exactScoreLt (s t : Int × Int × Int) : Prop :=
  s.1 < t.1 ∨ (s.1 = t.1 ∧ s.2.1 < t.2.1) ∨ (s.1 = t.1 ∧ s.2.1 = t.2.1 ∧ s.2.2 < t.2.2)

instance (s t : Int × Int × Int) : Decidable (exactScoreLt s t) := by
  unfold exactScoreLt; infer_instance

/-! ## Single-precision floating point -/

/-- A value of Go's `float32` (IEEE 754 binary32): not-a-number, an infinity, or
the finite value `(-1)^neg * mant * 2^exp` (a zero when `mant = 0`). -/
inductive Float32
  | nan
  | inf (neg : Bool)
  | finite (neg : Bool) (mant : Nat) (exp : Int)
  deriving DecidableEq, Repr

/-- The number of binary digits of `n`, by halving; `fuel` bounds the number of
halvings and `n` itself is always enough. -/
def bitLength : Nat → Nat → Nat
  | 0, _ => 0
  | fuel + 1, n => if n = 0 then 0 else bitLength fuel (n / 2) + 1

/-- Round the non-negative rational `num / den` (`den > 0`) to the nearest
`float32`, ties to the even significand, and attach the sign: 24 significant
bits, least exponent of the last place `-149`, overflow to infinity from
`2^128` on. -/
def Float32.round (neg : Bool) (num den : Nat) : Float32 :=
  if num = 0 then .finite neg 0 0
  else
    -- `2^(e0-1) < num/den < 2^(e0+1)`
    let e0 : Int := (bitLength num num : Int) - (bitLength den den : Int)
    -- `e` is the exponent of the leading bit: `2^e ≤ num/den < 2^(e+1)`
    let e : Int := if den * 2 ^ e0.toNat ≤ num * 2 ^ (-e0).toNat then e0 else e0 - 1
    -- exponent of the unit in the last place
    let qe : Int := max e (-126) - 23
    let n := num * 2 ^ (-qe).toNat
    let d := den * 2 ^ qe.toNat
    let q := n / d
    let r := n % d
    let m := if d < 2 * r ∨ (2 * r = d ∧ q % 2 = 1) then q + 1 else q
    if 104 < qe ∨ (qe = 104 ∧ 2 ^ 24 ≤ m) then .inf neg else .finite neg m qe

/-- The conversion `float32(x)` of an integer. -/
def Float32.ofInt (x : Int) : Float32 :=
  Float32.round (decide (x < 0)) x.natAbs 1

/-- The quotient `x / y` of two `float32` values. -/
def Float32.div : Float32 → Float32 → Float32
  | .nan, _ => .nan
  | _, .nan => .nan
  | .inf _, .inf _ => .nan
  | .inf s, .finite t _ _ => .inf (xor s t)
  | .finite s _ _, .inf t => .finite (xor s t) 0 0
  | .finite s m e, .finite t n f =>
    if n = 0 then (if m = 0 then .nan else .inf (xor s t))
    else Float32.round (xor s t) (m * 2 ^ (e - f).toNat) (n * 2 ^ (f - e).toNat)

/-- The product `x * y` of two `float32` values. -/
def Float32.mul : Float32 → Float32 → Float32
  | .nan, _ => .nan
  | _, .nan => .nan
  | .inf s, .inf t => .inf (xor s t)
  | .inf s, .finite t n _ => if n = 0 then .nan else .inf (xor s t)
  | .finite s m _, .inf t => if m = 0 then .nan else .inf (xor s t)
  | .finite s m e, .finite t n f =>
    Float32.round (xor s t) (m * n * 2 ^ (e + f).toNat) (2 ^ (-(e + f)).toNat)

/-- The conversion `int32(x)` of a `float32`: the value truncated toward zero
when that is an `int32`; otherwise Go leaves the result to the implementation,
here `unrepresentable x` reduced to an `int32`. -/
def Float32.toInt32 (unrepresentable : Float32 → Int) (x : Float32) : Int :=
  match x with
  | .finite s m e =>
    let t : Int := (m * 2 ^ e.toNat / 2 ^ (-e).toNat : Nat)
    let v : Int := if s then -t else t
    if -(2 ^ 31) ≤ v ∧ v < 2 ^ 31 then v else wrapInt32 (unrepresentable x)
  | _ => wrapInt32 (unrepresentable x)

/-! ## Windows: styles and geometry -/

/-- Source constant `_USER_DEFAULT_SCREEN_DPI`. -/
def _USER_DEFAULT_SCREEN_DPI : Nat := 96

/-- Source constant `_WMSZ_BOTTOM`. -/
def _WMSZ_BOTTOM : Int := 6

/-- Source constant `_WMSZ_BOTTOMLEFT`. -/
def _WMSZ_BOTTOMLEFT : Int := 7

/-- Source constant `_WMSZ_BOTTOMRIGHT`. -/
def _WMSZ_BOTTOMRIGHT : Int := 8

/-- Source constant `_WMSZ_LEFT`. -/
def _WMSZ_LEFT : Int := 1

/-- Source constant `_WMSZ_RIGHT`. -/
def _WMSZ_RIGHT : Int := 2

/-- Source constant `_WMSZ_TOP`. -/
def _WMSZ_TOP : Int := 3

/-- Source constant `_WMSZ_TOPLEFT`. -/
def _WMSZ_TOPLEFT : Int := 4

/-- Source constant `_WMSZ_TOPRIGHT`. -/
def _WMSZ_TOPRIGHT : Int := 5

/-- Source constant `_WS_BORDER`. -/
def _WS_BORDER : Nat := 0x00800000

/-- Source constant `_WS_DLGFRAME`. -/
def _WS_DLGFRAME : Nat := 0x00400000

/-- Source constant `_WS_CAPTION = _WS_BORDER | _WS_DLGFRAME`. -/
def _WS_CAPTION : Nat := _WS_BORDER ||| _WS_DLGFRAME

/-- Source constant `_WS_CLIPSIBLINGS`. -/
def _WS_CLIPSIBLINGS : Nat := 0x04000000

/-- Source constant `_WS_CLIPCHILDREN`. -/
def _WS_CLIPCHILDREN : Nat := 0x02000000

/-- Source constant `_WS_EX_APPWINDOW`. -/
def _WS_EX_APPWINDOW : Nat := 0x00040000

/-- Source constant `_WS_EX_TOPMOST`. -/
def _WS_EX_TOPMOST : Nat := 0x00000008

/-- Source constant `_WS_MAXIMIZEBOX`. -/
def _WS_MAXIMIZEBOX : Nat := 0x00010000

/-- Source constant `_WS_MINIMIZEBOX`. -/
def _WS_MINIMIZEBOX : Nat := 0x00020000

/-- Source constant `_WS_POPUP`. -/
def _WS_POPUP : Nat := 0x80000000

/-- Source constant `_WS_SYSMENU`. -/
def _WS_SYSMENU : Nat := 0x00080000

/-- Source constant `_WS_THICKFRAME`. -/
def _WS_THICKFRAME : Nat := 0x00040000

/-- Source: `type _RECT struct`, four `int32` coordinates. -/
structure _RECT where
  left : Int
  top : Int
  right : Int
  bottom : Int
  deriving DecidableEq, Repr

/-- A window: the attributes the modelled functions read. `monitor` is the
full-screen monitor (by its handle), absent for a windowed window; `handle` is
`win32.handle`; `numer` and `denom` are Go `int`s. -/
structure Window where
  handle : Nat
  monitor : Option Nat
  decorated : Bool
  resizable : Bool
  floating : Bool
  numer : Int
  denom : Int
  deriving DecidableEq, Repr

/-- What the window functions consume from outside the package: the two
rectangle adjustments of the OS with the availability probe of the DPI-aware
one, the DPI query with its probe, and the result of a float-to-`int32`
conversion whose value is not an `int32`. An adjustment takes the rectangle,
the style, the menu flag, the extended style (and the DPI) and yields the
adjusted rectangle or an error. -/
structure Platform where
  adjustWindowRectExForDpiAvailable : Bool
  adjustWindowRectExForDpi : _RECT → Nat → Bool → Nat → Nat → Except Error _RECT
  adjustWindowRectEx : _RECT → Nat → Bool → Nat → Except Error _RECT
  getDpiForWindowAvailable : Bool
  getDpiForWindow : Nat → Nat
  unrepresentable : Float32 → Int

/-- Source: `func (w *Window) getWindowStyle() uint32`. -/
def Window.getWindowStyle (w : Window) : Nat :=
  let style := _WS_CLIPSIBLINGS ||| _WS_CLIPCHILDREN
  if w.monitor ≠ none then
    style ||| _WS_POPUP
  else
    let style := style ||| (_WS_SYSMENU ||| _WS_MINIMIZEBOX)
    if w.decorated then
      let style := style ||| _WS_CAPTION
      if w.resizable then
        style ||| (_WS_MAXIMIZEBOX ||| _WS_THICKFRAME)
      else style
    else
      style ||| _WS_POPUP

/-- Source: `func (w *Window) getWindowExStyle() uint32`. -/
def Window.getWindowExStyle (w : Window) : Nat :=
  let style := _WS_EX_APPWINDOW
  if w.floating then style ||| _WS_EX_TOPMOST else style

/-- Source: `func getFullWindowSize(style, exStyle uint32, contentWidth,
contentHeight int, dpi uint32) (fullWidth, fullHeight int, err error)`. -/
def getFullWindowSize (p : Platform) (style exStyle : Nat) (contentWidth contentHeight : Int)
    (dpi : Nat) : Int × Int × Option Error :=
  let rect : _RECT :=
    { left := 0, top := 0, right := wrapInt32 contentWidth, bottom := wrapInt32 contentHeight }
  let adjusted :=
    if p.adjustWindowRectExForDpiAvailable then
      p.adjustWindowRectExForDpi rect style false exStyle dpi
    else
      p.adjustWindowRectEx rect style false exStyle
  match adjusted with
  | .error err => (0, 0, some err)
  | .ok rect => (wrapInt32 (rect.right - rect.left), wrapInt32 (rect.bottom - rect.top), none)

/-- Source: `func (w *Window) applyAspectRatio(edge int, area *_RECT) error`.
The result is the rectangle afterwards and the error, if any. -/
def Window.applyAspectRatio (p : Platform) (w : Window) (edge : Int) (area : _RECT) :
    _RECT × Option Error :=
  let ratio := Float32.div (Float32.ofInt w.numer) (Float32.ofInt w.denom)
  let dpi := if p.getDpiForWindowAvailable then p.getDpiForWindow w.handle
    else _USER_DEFAULT_SCREEN_DPI
  match getFullWindowSize p w.getWindowStyle w.getWindowExStyle 0 0 dpi with
  | (_, _, some err) => (area, some err)
  | (xoff, yoff, none) =>
    if edge = _WMSZ_LEFT ∨ edge = _WMSZ_BOTTOMLEFT ∨ edge = _WMSZ_RIGHT ∨
        edge = _WMSZ_BOTTOMRIGHT then
      ({ area with bottom := wrapInt32 (wrapInt32 (area.top + wrapInt32 yoff) +
          Float32.toInt32 p.unrepresentable (Float32.div (Float32.ofInt
            (wrapInt32 (wrapInt32 (area.right - area.left) - wrapInt32 xoff))) ratio)) }, none)
    else if edge = _WMSZ_TOPLEFT ∨ edge = _WMSZ_TOPRIGHT then
      ({ area with top := wrapInt32 (wrapInt32 (area.bottom - wrapInt32 yoff) -
          Float32.toInt32 p.unrepresentable (Float32.div (Float32.ofInt
            (wrapInt32 (wrapInt32 (area.right - area.left) - wrapInt32 xoff))) ratio)) }, none)
    else if edge = _WMSZ_TOP ∨ edge = _WMSZ_BOTTOM then
      ({ area with right := wrapInt32 (wrapInt32 (area.left + wrapInt32 xoff) +
          Float32.toInt32 p.unrepresentable (Float32.mul (Float32.ofInt
            (wrapInt32 (wrapInt32 (area.bottom - area.top) - wrapInt32 yoff))) ratio)) }, none)
    else (area, none)

/-- The non-client overhead as `applyAspectRatio` obtains it: `getFullWindowSize`
at zero client size with the styles of the window and the DPI it looks up. -/
def Window.overhead (p : Platform) (w : Window) : Int × Int × Option Error :=
  getFullWindowSize p w.getWindowStyle w.getWindowExStyle 0 0
    (if p.getDpiForWindowAvailable then p.getDpiForWindow w.handle
      else _USER_DEFAULT_SCREEN_DPI)

/-- The `ratio` of `applyAspectRatio`: `float32(w.numer) / float32(w.denom)`. -/
def Window.ratio (w : Window) : Float32 :=
  Float32.div (Float32.ofInt w.numer) (Float32.ofInt w.denom)

/-- The adjustment in exact arithmetic, as the specification words it: with
`ratio = numer/denom` a rational number, the client width divided by it or the
client height multiplied by it, truncated toward zero, and no wrap-around. -/
def exactAspectRect (w : Window) (xoff yoff : Int) (edge : Int) (area : _RECT) : _RECT :=
  if edge = _WMSZ_LEFT ∨ edge = _WMSZ_BOTTOMLEFT ∨ edge = _WMSZ_RIGHT ∨
      edge = _WMSZ_BOTTOMRIGHT then
    { area with bottom := area.top + yoff +
        Int.tdiv ((area.right - area.left - xoff) * w.denom) w.numer }
  else if edge = _WMSZ_TOPLEFT ∨ edge = _WMSZ_TOPRIGHT then
    { area with top := area.bottom - yoff -
        Int.tdiv ((area.right - area.left - xoff) * w.denom) w.numer }
  else if edge = _WMSZ_TOP ∨ edge = _WMSZ_BOTTOM then
    { area with right := area.left + xoff +
        Int.tdiv ((area.bottom - area.top - yoff) * w.numer) w.denom }
  else area

/-! ## Images, icons and cursors -/

/-- An image: width, height (Go `int`s) and the packed RGBA bytes. -/
structure Image where
  Width : Int
  Height : Int
  Pixels : List Nat
  deriving DecidableEq, Repr

/-- Go's `math.MaxUint32`. -/
def MaxUint32 : Nat := 4294967295

/-- The `currDiff` the loop body of `chooseImage` computes for `image`:
`abs(image.Width*image.Height - width*height)`. -/
def currDiff (a : Arch) (width height : Int) (image : Image) : Nat :=
  abs a (wrapInt a (wrapInt a (image.Width * image.Height) - wrapInt a (width * height)))

/-- One iteration of the loop of `chooseImage` on the pair `(closest, leastDiff)`. -/
def chooseImageStep (a : Arch) (width height : Int) (st : Option Image × Nat) (image : Image) :
    Option Image × Nat :=
  let currDiff := currDiff a width height image
  if currDiff < st.2 then (some image, currDiff) else st

/-- Source: `func chooseImage(images []*Image, width, height int) *Image`;
a nil result is `none`. -/
def chooseImage (a : Arch) (images : List Image) (width height : Int) : Option Image :=
  (images.foldl (chooseImageStep a width height) (none, MaxUint32)).1

/-- What a Go `panic` carries here: the string of `panic("...")`, the value
`NotInitialized`, the run-time error of an index out of range, or the error
value of `panic(err)`. -/
inductive Panic
  | message (text : String)
  | NotInitialized
  | indexOutOfRange (index length : Int)
  | error (err : Error)
  deriving DecidableEq, Repr

/-- Source constant `_BI_BITFIELDS`. -/
def _BI_BITFIELDS : Nat := 3

/-- Source constant `_DIB_RGB_COLORS`. -/
def _DIB_RGB_COLORS : Nat := 0

/-- Source: `type _BITMAPV5HEADER struct`, the fields `createIcon` sets; all
others stay zero. -/
structure _BITMAPV5HEADER where
  bV5Size : Nat
  bV5Width : Int
  bV5Height : Int
  bV5Planes : Nat
  bV5BitCount : Nat
  bV5Compression : Nat
  bV5RedMask : Nat
  bV5GreenMask : Nat
  bV5BlueMask : Nat
  bV5AlphaMask : Nat
  deriving DecidableEq, Repr

/-- Source: `type _ICONINFO struct`. -/
structure _ICONINFO where
  fIcon : Int
  xHotspot : Nat
  yHotspot : Nat
  hbmMask : Nat
  hbmColor : Nat
  deriving DecidableEq, Repr

/-- The calls of `createIcon` that create something and can fail, as results
of the OS: `_GetDC`, `_CreateDIBSection` (the bitmap and the bytes its
`*byte` points at), `_CreateBitmap`, and `_CreateIconIndirect`, which reads the
colour bits as they are when it is called. -/
structure Gdi where
  getDC : Nat → Except Error Nat
  createDIBSection : Nat → _BITMAPV5HEADER → Nat → Nat → Nat → Except Error (Nat × List Nat)
  createBitmap : Int → Int → Nat → Nat → Except Error Nat
  createIconIndirect : _ICONINFO → List Nat → Except Error Nat

/-- A call into the OS made by `createIcon`, with its arguments. -/
inductive GdiCall
  | GetDC (hWnd : Nat)
  | ReleaseDC (hWnd hDC : Nat)
  | CreateDIBSection (hdc : Nat) (pbmi : _BITMAPV5HEADER)
  | CreateBitmap (nWidth nHeight : Int)
  | CreateIconIndirect (piconinfo : _ICONINFO) (colorBits : List Nat)
  | DeleteObject (ho : Nat)
  deriving DecidableEq, Repr

/-- One run of `createIcon`: the calls into the OS in the order they are made,
deferred ones included, and how the function ends: a panic, or the returned
pair of handle and error. -/
structure CreateIconRun where
  calls : List GdiCall
  result : Except Panic (Nat × Option Error)

/-- The read `source[index]`, checked against the length of the slice. -/
def loadByte (source : List Nat) (index : Int) : Except Panic Nat :=
  if 0 ≤ index ∧ index < source.length then .ok (source.getD index.toNat 0)
  else .error (.indexOutOfRange index source.length)

/-- The write `target[index] = value` on a slice whose header says length `len`
over the bytes `bits`. The bounds check is Go's, the unsigned comparison
`uint(index) < uint(len)`, so a header with a negative length lets every index
through. A write past the bytes of `bits` is outside what is modelled and
leaves them as they are. -/
def storeByte (a : Arch) (len : Int) (bits : List Nat) (index : Int) (value : Nat) :
    Except Panic (List Nat) :=
  if wrapUint a index < wrapUint a len then .ok (bits.set index.toNat value)
  else .error (.indexOutOfRange index len)

/-- The body of the copy loop of `createIcon` for one `i`: four assignments
`target[..] = source[..]`, each reading before it writes. -/
def copyPixel (a : Arch) (source : List Nat) (len : Int) (bits : List Nat) (i : Nat) :
    Except Panic (List Nat) :=
  match loadByte source (4 * i + 2) with
  | .error p => .error p
  | .ok v =>
  match storeByte a len bits (4 * i) v with
  | .error p => .error p
  | .ok bits =>
  match loadByte source (4 * i + 1) with
  | .error p => .error p
  | .ok v =>
  match storeByte a len bits (4 * i + 1) v with
  | .error p => .error p
  | .ok bits =>
  match loadByte source (4 * i + 0) with
  | .error p => .error p
  | .ok v =>
  match storeByte a len bits (4 * i + 2) v with
  | .error p => .error p
  | .ok bits =>
  match loadByte source (4 * i + 3) with
  | .error p => .error p
  | .ok v => storeByte a len bits (4 * i + 3) v

/-- The iterations `is` of the copy loop in turn, stopping at a panic. -/
def copyPixelsFrom (a : Arch) (source : List Nat) (len : Int) :
    List Nat → List Nat → Except Panic (List Nat)
  | bits, [] => .ok bits
  | bits, i :: is =>
    match copyPixel a source len bits i with
    | .error p => .error p
    | .ok bits => copyPixelsFrom a source len bits is

/-- The copy loop of `createIcon`: `for i := 0; i < len(source)/4; i++`. -/
def copyPixels (a : Arch) (source : List Nat) (len : Int) (bits : List Nat) :
    Except Panic (List Nat) :=
  copyPixelsFrom a source len bits (List.range (source.length / 4))

/-- The header `bi` that `createIcon` fills in for `image`; `unsafe.Sizeof(bi)`
is 124, the size of the header. -/
def iconHeader (ar : Arch) (image : Image) : _BITMAPV5HEADER :=
  { bV5Size := 124
    bV5Width := wrapInt32 image.Width
    bV5Height := wrapInt32 (wrapInt ar (-image.Height))
    bV5Planes := 1
    bV5BitCount := 32
    bV5Compression := _BI_BITFIELDS
    bV5RedMask := 0x00ff0000
    bV5GreenMask := 0x0000ff00
    bV5BlueMask := 0x000000ff
    bV5AlphaMask := 0xff000000 }

/-- The `ii` that `createIcon` hands to `_CreateIconIndirect`. -/
def iconInfo (xhot yhot : Int) (icon : Bool) (mask color : Nat) : _ICONINFO :=
  { fIcon := if icon then 1 else 0
    xHotspot := (xhot % 2 ^ 32).toNat
    yHotspot := (yhot % 2 ^ 32).toNat
    hbmMask := mask
    hbmColor := color }

/-- Source: `func createIcon(image *Image, xhot, yhot int, icon bool) (_HICON, error)`.
A deferred call is made when the function ends, last deferred first, also when
it ends in a panic. -/
def createIcon (ar : Arch) (gdi : Gdi) (image : Image) (xhot yhot : Int) (icon : Bool) :
    CreateIconRun :=
  let bi := iconHeader ar image
  match gdi.getDC 0 with
  | .error err => { calls := [.GetDC 0], result := .ok (0, some err) }
  | .ok dc =>
  match gdi.createDIBSection dc bi _DIB_RGB_COLORS 0 0 with
  | .error err =>
    { calls := [.GetDC 0, .CreateDIBSection dc bi, .ReleaseDC 0 dc], result := .ok (0, some err) }
  | .ok (color, targetPtr) =>
  match gdi.createBitmap (wrapInt32 image.Width) (wrapInt32 image.Height) 1 1 with
  | .error err =>
    { calls := [.GetDC 0, .CreateDIBSection dc bi,
        .CreateBitmap (wrapInt32 image.Width) (wrapInt32 image.Height),
        .DeleteObject color, .ReleaseDC 0 dc],
      result := .ok (0, some err) }
  | .ok mask =>
  match copyPixels ar image.Pixels (wrapInt ar (image.Width * image.Height)) targetPtr with
  | .error p =>
    { calls := [.GetDC 0, .CreateDIBSection dc bi,
        .CreateBitmap (wrapInt32 image.Width) (wrapInt32 image.Height),
        .DeleteObject mask, .DeleteObject color, .ReleaseDC 0 dc],
      result := .error p }
  | .ok target =>
  let ii := iconInfo xhot yhot icon mask color
  match gdi.createIconIndirect ii target with
  | .error err =>
    { calls := [.GetDC 0, .CreateDIBSection dc bi,
        .CreateBitmap (wrapInt32 image.Width) (wrapInt32 image.Height),
        .CreateIconIndirect ii target,
        .DeleteObject mask, .DeleteObject color, .ReleaseDC 0 dc],
      result := .ok (0, some err) }
  | .ok handle =>
    { calls := [.GetDC 0, .CreateDIBSection dc bi,
        .CreateBitmap (wrapInt32 image.Width) (wrapInt32 image.Height),
        .CreateIconIndirect ii target,
        .DeleteObject mask, .DeleteObject color, .ReleaseDC 0 dc],
      result := .ok (handle, none) }

/-! ## The monitor registry -/

/-- The constants `inputMonitor` switches on. Their declarations are not among
the sources, so their values are parameters; the constants of one `switch` are
distinct, as Go requires of the case constants of a `switch`. -/
structure Constants where
  Connected : Int
  Disconnected : Int
  _GLFW_INSERT_FIRST : Int
  _GLFW_INSERT_LAST : Int
  connected_ne_disconnected : Connected ≠ Disconnected
  insert_first_ne_insert_last : _GLFW_INSERT_FIRST ≠ _GLFW_INSERT_LAST

/-- The part of the package state `_glfw` that the monitor functions use. A
`*Monitor` is an `Option Nat`, `none` for nil, as in `Window.monitor`; the
monitor callback is known by an identifier. -/
structure Library where
  initialized : Bool
  monitors : List (Option Nat)
  windows : List Window
  monitorCallback : Option Nat
  deriving DecidableEq, Repr

/-- Source: `func (w *Window) platformSetWindowPos(xpos, ypos int)`, which panics. -/
def Window.platformSetWindowPos (_w : Window) (_xpos _ypos : Int) : Except Panic Window :=
  .error (.message "platformSetWindowPos is not implemented")

/-- Source: `func (w *Window) platformGetWindowSize() (width, height int)`, which
panics. -/
def Window.platformGetWindowSize (_w : Window) : Except Panic (Int × Int) :=
  .error (.message "platformGetWindowSize is not implemented")

/-- Source: `func (w *Window) platformGetWindowFrameSize() (left, top, right,
bottom int)`, which panics. -/
def Window.platformGetWindowFrameSize (_w : Window) : Except Panic (Int × Int × Int × Int) :=
  .error (.message "platformGetWindowFrameSize is not implemented")

/-- Source: `func (w *Window) platformSetWindowMonitor(monitor *Monitor, xpos,
ypos, width, height, refreshRate int)`, which panics. -/
def Window.platformSetWindowMonitor (_w : Window) (_monitor : Option Nat)
    (_xpos _ypos _width _height _refreshRate : Int) : Except Panic Window :=
  .error (.message "platformSetWindowMonitor is not implemented")

/-- Source: `func (m *Monitor) inputMonitorWindow(window *Window)`; the window
is known by its handle. -/
def Monitor.inputMonitorWindow (m : Monitor) (window : Option Nat) : Monitor :=
  { m with window := window }

/-- Go's `copy(dst, src)`: the first `min(len(dst), len(src))` elements of `dst`
become those of `src` as they were before the call; the result is `dst`
afterwards. -/
def copySlice {α : Type} (dst src : List α) : List α :=
  src.take dst.length ++ dst.drop src.length

/-- The three statements of `inputMonitor` for `_GLFW_INSERT_FIRST`, on
`_glfw.monitors`. -/
def insertFirst (monitors : List (Option Nat)) (monitor : Option Nat) : List (Option Nat) :=
  let monitors := monitors ++ [none]
  let monitors := monitors.take 1 ++ copySlice (monitors.drop 1) monitors
  monitors.set 0 monitor

/-- The body of `if window.monitor == monitor` in `inputMonitor`: the window
afterwards and the panic, if one of the four calls panics. -/
def releaseFullscreen (window : Window) : Window × Option Panic :=
  match window.platformGetWindowSize with
  | .error p => (window, some p)
  | .ok (width, height) =>
  match window.platformSetWindowMonitor none 0 0 width height 0 with
  | .error p => (window, some p)
  | .ok window =>
  match window.platformGetWindowFrameSize with
  | .error p => (window, some p)
  | .ok (xoff, yoff, _, _) =>
  match window.platformSetWindowPos xoff yoff with
  | .error p => (window, some p)
  | .ok window => (window, none)

/-- The loop `for _, window := range _glfw.windows` of `inputMonitor`: the
windows afterwards and the panic that stopped the loop, if any. -/
def releaseFullscreenWindows (monitor : Option Nat) : List Window → List Window × Option Panic
  | [] => ([], none)
  | window :: rest =>
    if window.monitor = monitor then
      match releaseFullscreen window with
      | (window, some p) => (window :: rest, some p)
      | (window, none) =>
        match releaseFullscreenWindows monitor rest with
        | (rest, p) => (window :: rest, p)
    else
      match releaseFullscreenWindows monitor rest with
      | (rest, p) => (window :: rest, p)

/-- The loop `for i, m := range _glfw.monitors` of `inputMonitor` from index `i`
on, `rest` being the elements from there: at the first `m == monitor` the tail
is copied one place down, the slice is shortened by one and the loop ends. -/
def removeMonitorFrom (monitor : Option Nat) (monitors : List (Option Nat)) :
    List (Option Nat) → Nat → List (Option Nat)
  | [], _ => monitors
  | m :: rest, i =>
    if m = monitor then
      (monitors.take i ++ copySlice (monitors.drop i) (monitors.drop (i + 1))).take
        (monitors.length - 1)
    else removeMonitorFrom monitor monitors rest (i + 1)

/-- One call of the monitor callback: which callback, its two arguments, and
`_glfw` as it is at that moment. -/
structure MonitorCallbackCall where
  callback : Nat
  monitor : Option Nat
  action : Int
  state : Library
  deriving DecidableEq, Repr

/-- One run of `inputMonitor`: `_glfw` afterwards, the calls of the monitor
callback it made, and the panic that ended it, if any. -/
structure InputMonitorRun where
  state : Library
  calls : List MonitorCallbackCall
  panic : Option Panic
  deriving DecidableEq, Repr

/-- Source: `func inputMonitor(monitor *Monitor, action PeripheralEvent,
placement int)`. The callback is recorded, not run: what it does itself is
outside the function. -/
def inputMonitor (c : Constants) (monitor : Option Nat) (action placement : Int)
    (g : Library) : InputMonitorRun :=
  let switched : Library × Option Panic :=
    if action = c.Connected then
      if placement = c._GLFW_INSERT_FIRST then
        ({ g with monitors := insertFirst g.monitors monitor }, none)
      else if placement = c._GLFW_INSERT_LAST then
        ({ g with monitors := g.monitors ++ [monitor] }, none)
      else (g, none)
    else if action = c.Disconnected then
      match releaseFullscreenWindows monitor g.windows with
      | (windows, some p) => ({ g with windows := windows }, some p)
      | (windows, none) =>
        ({ g with windows := windows,
                  monitors := removeMonitorFrom monitor g.monitors g.monitors 0 }, none)
    else (g, none)
  match switched with
  | (g, some p) => { state := g, calls := [], panic := some p }
  | (g, none) =>
    match g.monitorCallback with
    | some callback =>
      { state := g,
        calls := [{ callback := callback, monitor := monitor, action := action, state := g }],
        panic := none }
    | none => { state := g, calls := [], panic := none }

/-- Source: `func SetMonitorCallback(cbfun MonitorCallback) MonitorCallback`: the
returned callback and `_glfw` afterwards, or the panic. -/
def SetMonitorCallback (cbfun : Option Nat) (g : Library) :
    Except Panic (Option Nat × Library) :=
  if !g.initialized then .error .NotInitialized
  else
    let old := g.monitorCallback
    .ok (old, { g with monitorCallback := cbfun })

/-- A monitor event as `inputMonitor` receives it. -/
structure MonitorEvent where
  monitor : Option Nat
  action : Int
  placement : Int
  deriving DecidableEq, Repr

/-- The events handled by `inputMonitor` one after another, up to the first
that ends in a panic; the calls of the callback are collected in order. -/
def inputMonitorEvents (c : Constants) : List MonitorEvent → Library → InputMonitorRun
  | [], g => { state := g, calls := [], panic := none }
  | e :: es, g =>
    let r := inputMonitor c e.monitor e.action e.placement g
    match r.panic with
    | some _ => r
    | none =>
      let later := inputMonitorEvents c es r.state
      { state := later.state, calls := r.calls ++ later.calls, panic := later.panic }

/-- Every window's non-nil monitor reference is an element of the registry. -/
def Library.Consistent (g : Library) : Prop :=
  ∀ w ∈ g.windows, w.monitor ≠ none → w.monitor ∈ g.monitors

instance (g : Library) : Decidable g.Consistent := by
  unfold Library.Consistent; infer_instance

/-! ## Bits per pixel -/

/-- Source: `func splitBPP(bpp int) (red, green, blue int)`. Go's `/` on `int`
truncates toward zero. -/
def splitBPP (a : Arch) (bpp : Int) : Int × Int × Int :=
  let bpp := if bpp = 32 then 24 else bpp
  let red := Int.tdiv bpp 3
  let green := Int.tdiv bpp 3
  let blue := Int.tdiv bpp 3
  let delta := wrapInt a (bpp - wrapInt a (red * 3))
  let green := if delta ≥ 1 then wrapInt a (green + 1) else green
  let red := if delta = 2 then wrapInt a (red + 1) else red
  (red, green, blue)

/-! ## The public monitor functions -/

/-- The calls into the platform that the monitor getters make. Their bodies are
not among the sources, so they are parameters. -/
structure MonitorPlatform where
  platformGetMonitorPos : Monitor → Int × Int × Bool
  platformGetMonitorWorkarea : Monitor → Int × Int × Int × Int
  platformGetMonitorContentScale : Monitor → Except Error (Float32 × Float32)

/-- Source: `func GetMonitors() []*Monitor`. It reads `_glfw` and assigns
nothing. -/
def GetMonitors (g : Library) : Except Panic (List (Option Nat)) :=
  if !g.initialized then .error .NotInitialized
  else .ok g.monitors

/-- Source: `func GetPrimaryMonitor() *Monitor`. -/
def GetPrimaryMonitor (g : Library) : Except Panic (Option Nat) :=
  if !g.initialized then .error .NotInitialized
  else if g.monitors.length = 0 then .ok none
  else .ok (g.monitors.getD 0 none)

/-- Source: `func (m *Monitor) GetPos() (xpos, ypos int)`. -/
def Monitor.GetPos (m : Monitor) (p : MonitorPlatform) (g : Library) :
    Except Panic (Int × Int) :=
  if !g.initialized then .error .NotInitialized
  else
    match p.platformGetMonitorPos m with
    | (xpos, ypos, ok) => if !ok then .ok (0, 0) else .ok (xpos, ypos)

/-- Source: `func (m *Monitor) GetWorkarea() (xpos, ypos, width, height int)`. -/
def Monitor.GetWorkarea (m : Monitor) (p : MonitorPlatform) (g : Library) :
    Except Panic (Int × Int × Int × Int) :=
  if !g.initialized then .error .NotInitialized
  else .ok (p.platformGetMonitorWorkarea m)

/-- Source: `func (m *Monitor) GetPhysicalSize() (widthMM, heightMM int)`. -/
def Monitor.GetPhysicalSize (m : Monitor) (g : Library) : Except Panic (Int × Int) :=
  if !g.initialized then .error .NotInitialized
  else .ok (m.widthMM, m.heightMM)

/-- Source: `func (m *Monitor) GetContentScale() (xscale, yscale float32)`. -/
def Monitor.GetContentScale (m : Monitor) (p : MonitorPlatform) (g : Library) :
    Except Panic (Float32 × Float32) :=
  if !g.initialized then .error .NotInitialized
  else
    match p.platformGetMonitorContentScale m with
    | .error err => .error (.error err)
    | .ok (xscale, yscale) => .ok (xscale, yscale)

/-- Source: `func (m *Monitor) GetName() string`. -/
def Monitor.GetName (m : Monitor) (g : Library) : Except Panic String :=
  if !g.initialized then .error .NotInitialized
  else .ok m.name

/-- Source: `func (m *Monitor) GetVideoModes() []*VidMode`. -/
def Monitor.GetVideoModes (m : Monitor) (g : Library) : Except Panic (List VidMode) :=
  if !g.initialized then .error .NotInitialized
  else .ok m.modes

/-- Source: `func (m *Monitor) GetVideoMode() *VidMode`. -/
def Monitor.GetVideoMode (m : Monitor) (g : Library) : Except Panic (Option VidMode) :=
  if !g.initialized then .error .NotInitialized
  else .ok m.currentMode

/-! ## Data of the worked examples -/

/-- A monitor with an empty catalog, for the worked examples. -/
def sampleMonitor : Monitor :=
  { handle := 1, name := "Generic PnP Monitor", widthMM := 527, heightMM := 296, modes := [],
    currentMode := none, window := none }

/-- A platform enumeration that succeeds with the given modes. -/
def enumerateModes (modes : List VidMode) :
    Monitor → List VidMode → Except Error (List VidMode) :=
  fun _ l => .ok (l ++ modes)

/-- The candidate 800x600 at 60 Hz. -/
def mode800x600at60 : VidMode :=
  { Width := 800, Height := 600, RedBits := 8, GreenBits := 8, BlueBits := 8, RefreshRate := 60 }

/-- The candidate 800x600 at 120 Hz. -/
def mode800x600at120 : VidMode :=
  { Width := 800, Height := 600, RedBits := 8, GreenBits := 8, BlueBits := 8, RefreshRate := 120 }

/-- The two candidates 800x600 at 60 Hz and at 120 Hz. -/
def modes800x600 : List VidMode :=
  [mode800x600at60, mode800x600at120]

/-- The candidate 1920x1080 at 75 Hz. -/
def mode1920x1080at75 : VidMode :=
  { Width := 1920, Height := 1080, RedBits := 8, GreenBits := 8, BlueBits := 8,
    RefreshRate := 75 }

/-- The candidate 640x480 at 60 Hz. -/
def mode640x480at60 : VidMode :=
  { Width := 640, Height := 480, RedBits := 8, GreenBits := 8, BlueBits := 8, RefreshRate := 60 }

/-- The two candidates 640x480 at 60 Hz and 1920x1080 at 75 Hz. -/
def modesWide : List VidMode :=
  [mode640x480at60, mode1920x1080at75]

/-- Desired mode 48000x1080 with 8-8-8 bits and the given refresh rate. -/
def desired48000x1080 (rate : Int) : VidMode :=
  { Width := 48000, Height := 1080, RedBits := 8, GreenBits := 8, BlueBits := 8,
    RefreshRate := rate }

/-- The candidate 800x600 with the refresh rate reported as -2. -/
def mode800x600atMinus2 : VidMode :=
  { Width := 800, Height := 600, RedBits := 8, GreenBits := 8, BlueBits := 8, RefreshRate := -2 }

/-- Desired mode 800x600 with bit depths and refresh rate unconstrained (`-1`). -/
def desired800x600 : VidMode :=
  { Width := 800, Height := 600, RedBits := -1, GreenBits := -1, BlueBits := -1,
    RefreshRate := -1 }

/-- Desired mode 800x600 at 60 Hz with bit depths unconstrained (`-1`). -/
def desired800x600at60 : VidMode :=
  { Width := 800, Height := 600, RedBits := -1, GreenBits := -1, BlueBits := -1,
    RefreshRate := 60 }

/-- A mode of the given size at 60 Hz with the given channel depths. -/
def modeAt60 (width height red green blue : Int) : VidMode :=
  { Width := width, Height := height, RedBits := red, GreenBits := green, BlueBits := blue,
    RefreshRate := 60 }

/-- The enumeration `[{24,640,480,60},{16,640,480,60},{24,640,480,60}]`. -/
def modes640x480 : List VidMode :=
  [modeAt60 640 480 8 8 8, modeAt60 640 480 5 6 5, modeAt60 640 480 8 8 8]

/-- An enumeration of seven modes: its first two entries, 640x480 with 16 bits
split 5-6-5 and 6-5-5, have the same sort key; its last entry sorts first. -/
def sevenModes : List VidMode :=
  [modeAt60 640 480 5 6 5, modeAt60 640 480 6 5 5, modeAt60 800 600 5 6 5,
   modeAt60 1024 768 5 6 5, modeAt60 1280 720 5 6 5, modeAt60 1920 1080 5 6 5,
   modeAt60 320 240 5 6 5]

/-- A decorated, resizable window with the given full-screen monitor and
floating flag and the aspect ratio `numer:denom`. -/
def sampleWindow (monitor : Option Nat) (floating : Bool) (numer denom : Int) : Window :=
  { handle := 7, monitor := monitor, decorated := true, resizable := true,
    floating := floating, numer := numer, denom := denom }

/-- A platform whose rectangle adjustments succeed and add a frame of 8 pixels
left, right and below and 31 pixels above (overhead 16 by 39), with both
DPI-aware entry points present and 96 DPI; an unrepresentable conversion
yields the least `int32`. -/
def samplePlatform : Platform :=
  { adjustWindowRectExForDpiAvailable := true
    adjustWindowRectExForDpi := fun r _ _ _ _ =>
      .ok { left := r.left - 8, top := r.top - 31, right := r.right + 8, bottom := r.bottom + 8 }
    adjustWindowRectEx := fun r _ _ _ =>
      .ok { left := r.left - 8, top := r.top - 31, right := r.right + 8, bottom := r.bottom + 8 }
    getDpiForWindowAvailable := true
    getDpiForWindow := fun _ => 96
    unrepresentable := fun _ => -2147483648 }

/-- A proposed rectangle at the origin with the given right and bottom. -/
def rectAtOrigin (right bottom : Int) : _RECT :=
  { left := 0, top := 0, right := right, bottom := bottom }

/-- A platform whose rectangle adjustments fail. -/
def failingPlatform : Platform :=
  { samplePlatform with
    adjustWindowRectExForDpi := fun _ _ _ _ _ => .error "glfwwin: AdjustWindowRectExForDpi failed"
    adjustWindowRectEx := fun _ _ _ _ => .error "glfwwin: AdjustWindowRectEx failed" }

/-- An image of the given size with no pixel data attached. -/
def blankImage (width height : Int) : Image :=
  { Width := width, Height := height, Pixels := [] }

/-- An OS whose calls all succeed: device context 11, colour bitmap 21 over
zeroed bytes (four for every pixel of the header), mask bitmap 22, icon 31. -/
def sampleGdi : Gdi :=
  { getDC := fun _ => .ok 11
    createDIBSection := fun _ bi _ _ _ =>
      .ok (21, List.replicate (4 * (bi.bV5Width * bi.bV5Height).natAbs) 0)
    createBitmap := fun _ _ _ _ => .ok 22
    createIconIndirect := fun _ _ => .ok 31 }

/-- The image of one orange pixel: red 255, green 128, blue 0, alpha 255. -/
def onePixelImage : Image :=
  { Width := 1, Height := 1, Pixels := [255, 128, 0, 255] }

/-- The values GLFW gives the four constants. -/
def glfwConstants : Constants :=
  { Connected := 0x00040001
    Disconnected := 0x00040002
    _GLFW_INSERT_FIRST := 0
    _GLFW_INSERT_LAST := 1
    connected_ne_disconnected := by decide
    insert_first_ne_insert_last := by decide }

/-- An initialized state with the monitors 1, 2, 3 registered, no window and
the callback 5 subscribed. -/
def sampleLibrary : Library :=
  { initialized := true, monitors := [some 1, some 2, some 3], windows := [],
    monitorCallback := some 5 }

/-- A state in which monitor 2 is registered twice and the only window is
full-screen on monitor 3. -/
def duplicateLibrary : Library :=
  { initialized := true, monitors := [some 1, some 2, some 3, some 2],
    windows := [sampleWindow (some 3) false 16 9], monitorCallback := some 5 }

/-- The sample state with two windows full-screen on monitor 2, the first
decorated and the second not. -/
def fullscreenLibrary : Library :=
  { sampleLibrary with
    windows := [sampleWindow (some 2) false 16 9,
      { sampleWindow (some 2) false 16 9 with handle := 8, decorated := false }] }

/-- A platform that places every monitor at (0, 0) with the work area
1920 by 1040 and the content scale 1. -/
def sampleMonitorPlatform : MonitorPlatform :=
  { platformGetMonitorPos := fun _ => (0, 0, true)
    platformGetMonitorWorkarea := fun _ => (0, 0, 1920, 1040)
    platformGetMonitorContentScale := fun _ => .ok (Float32.ofInt 1, Float32.ofInt 1) }

/-- The image of two by two pixels, sixteen bytes. -/
def fourPixelImage : Image :=
  { Width := 2, Height := 2,
    Pixels := [255, 0, 0, 255, 0, 255, 0, 255, 0, 0, 255, 255, 255, 255, 255, 255] }

/-! # Theorems -/

/-! ## Machine integers: basic facts -/

theorem maxUint_eq (a : Arch) : maxUint a = 2 ^ a.uintBits - 1 := by
  cases a <;> rfl

theorem wrapInt_isInt (a : Arch) (x : Int) : IsInt a (wrapInt a x) := by
  cases a <;> simp only [IsInt, wrapInt, Arch.uintBits] <;> omega

theorem wrapInt_of_isInt (a : Arch) (x : Int) (h : IsInt a x) : wrapInt a x = x := by
  cases a <;> simp only [IsInt, wrapInt, Arch.uintBits] at * <;> omega

theorem wrapUint_lt (a : Arch) (x : Int) : wrapUint a x < 2 ^ a.uintBits := by
  cases a <;> simp only [wrapUint, Arch.uintBits] <;> omega

theorem abs_le (a : Arch) (x : Int) (h : IsInt a x) : abs a x ≤ 2 ^ (a.uintBits - 1) := by
  cases a <;> simp only [IsInt, abs, wrapInt, wrapUint, Arch.uintBits] at * <;> split <;> omega

theorem abs_eq_natAbs (a : Arch) (x : Int) (h : IsInt a x) (hmin : x ≠ -(2 ^ (a.uintBits - 1))) :
    abs a x = x.natAbs := by
  cases a <;> simp only [IsInt, abs, wrapInt, wrapUint, Arch.uintBits] at * <;> split <;> omega

theorem colorDiff_le (a : Arch) (DONT_CARE : Int) (desired v : VidMode) :
    colorDiff a DONT_CARE desired v ≤ maxUint a := by
  rw [maxUint_eq]
  have hpos : 0 < 2 ^ a.uintBits := Nat.two_pow_pos _
  have key : ∀ (c : Nat) (p : Prop) [Decidable p] (k : Nat), c < 2 ^ a.uintBits →
      (if p then (c + k) % 2 ^ a.uintBits else c) < 2 ^ a.uintBits := by
    intro c p _ k hc
    split
    · exact Nat.mod_lt _ hpos
    · exact hc
  have h := key _ (desired.BlueBits ≠ DONT_CARE)
    (abs a (wrapInt a (v.BlueBits - desired.BlueBits)))
    (key _ (desired.GreenBits ≠ DONT_CARE) (abs a (wrapInt a (v.GreenBits - desired.GreenBits)))
      (key 0 (desired.RedBits ≠ DONT_CARE) (abs a (wrapInt a (v.RedBits - desired.RedBits))) hpos))
  have h' : colorDiff a DONT_CARE desired v < 2 ^ a.uintBits := h
  omega

theorem sizeDiff_lt (a : Arch) (desired v : VidMode) : sizeDiff a desired v < maxUint a := by
  rw [maxUint_eq]
  have h := abs_le a _ (wrapInt_isInt a (wrapInt a (wrapInt a (v.Width - desired.Width) *
    wrapInt a (v.Width - desired.Width)) + wrapInt a (wrapInt a (v.Height - desired.Height) *
    wrapInt a (v.Height - desired.Height))))
  unfold sizeDiff
  cases a <;> simp only [Arch.uintBits] at * <;> omega

theorem chooseStep_eq (a : Arch) (DONT_CARE : Int) (desired : VidMode) (st : ChooseState)
    (v : VidMode) :
    chooseStep a DONT_CARE desired st v =
      if scoreLt (score a DONT_CARE desired v)
          (st.leastColorDiff, st.leastSizeDiff, st.leastRateDiff) then
        { closest := some v, leastColorDiff := (score a DONT_CARE desired v).1,
          leastSizeDiff := (score a DONT_CARE desired v).2.1,
          leastRateDiff := (score a DONT_CARE desired v).2.2 }
      else st := rfl

/-- Loop invariant of `chooseVideoMode`: once a candidate is held, the loop ends
holding the earliest candidate of least score. -/
theorem foldl_chooseStep_best (a : Arch) (DONT_CARE : Int) (desired : VidMode)
    (l pre : List VidMode) (r : VidMode) (mid : List VidMode)
    (hpre : ∀ x ∈ pre, scoreLt (score a DONT_CARE desired r) (score a DONT_CARE desired x))
    (hmid : ∀ x ∈ mid, ¬ scoreLt (score a DONT_CARE desired x) (score a DONT_CARE desired r)) :
    ∃ pre' r' post', pre ++ r :: mid ++ l = pre' ++ r' :: post' ∧
      (l.foldl (chooseStep a DONT_CARE desired)
        { closest := some r, leastColorDiff := (score a DONT_CARE desired r).1,
          leastSizeDiff := (score a DONT_CARE desired r).2.1,
          leastRateDiff := (score a DONT_CARE desired r).2.2 }).closest = some r' ∧
      (∀ x ∈ pre', scoreLt (score a DONT_CARE desired r') (score a DONT_CARE desired x)) ∧
      (∀ x ∈ post', ¬ scoreLt (score a DONT_CARE desired x) (score a DONT_CARE desired r')) := by
  induction l generalizing pre r mid with
  | nil => exact ⟨pre, r, mid, by simp, rfl, hpre, hmid⟩
  | cons v l ih =>
    rw [List.foldl_cons, chooseStep_eq]
    by_cases hlt : scoreLt (score a DONT_CARE desired v) (score a DONT_CARE desired r)
    · rw [if_pos hlt]
      obtain ⟨pre', r', post', heq, hcl, h1, h2⟩ := ih (pre ++ r :: mid) v [] (by
        intro x hx
        rcases List.mem_append.1 hx with hx | hx
        · have := hpre x hx
          unfold scoreLt at *; omega
        · rcases List.mem_cons.1 hx with hx | hx
          · subst hx; exact hlt
          · have := hmid x hx
            unfold scoreLt at *; omega) (by simp)
      exact ⟨pre', r', post', by rw [← heq]; simp, hcl, h1, h2⟩
    · rw [if_neg hlt]
      obtain ⟨pre', r', post', heq, hcl, h1, h2⟩ := ih pre r (mid ++ [v]) hpre (by
        intro x hx
        rcases List.mem_append.1 hx with hx | hx
        · exact hmid x hx
        · rw [List.mem_singleton] at hx; subst hx; exact hlt)
      exact ⟨pre', r', post', by rw [← heq]; simp, hcl, h1, h2⟩

/-- The loop of `chooseVideoMode` over a non-empty catalog ends holding the
earliest candidate of least score. -/
theorem foldl_chooseStep_init (a : Arch) (DONT_CARE : Int) (desired : VidMode)
    (l : List VidMode) (hne : l ≠ []) :
    ∃ pre r post, l = pre ++ r :: post ∧
      (l.foldl (chooseStep a DONT_CARE desired)
        { closest := none, leastColorDiff := maxUint a, leastSizeDiff := maxUint a,
          leastRateDiff := maxUint a }).closest = some r ∧
      (∀ x ∈ pre, scoreLt (score a DONT_CARE desired r) (score a DONT_CARE desired x)) ∧
      (∀ x ∈ post, ¬ scoreLt (score a DONT_CARE desired x) (score a DONT_CARE desired r)) := by
  cases l with
  | nil => exact absurd rfl hne
  | cons v l =>
    rw [List.foldl_cons, chooseStep_eq]
    have hc := colorDiff_le a DONT_CARE desired v
    have hs := sizeDiff_lt a desired v
    have hlt : scoreLt (score a DONT_CARE desired v) (maxUint a, maxUint a, maxUint a) := by
      unfold scoreLt score
      simp only
      omega
    rw [if_pos hlt]
    obtain ⟨pre', r', post', heq, hcl, h1, h2⟩ :=
      foldl_chooseStep_best a DONT_CARE desired l [] v [] (by simp) (by simp)
    exact ⟨pre', r', post', by rw [← heq]; simp, hcl, h1, h2⟩

/-! ## The comparison closure is an ordering by sort key -/

theorem modeLess_iff (ar : Arch) (a b : VidMode) :
    modeLess ar a b = true ↔ keyLt (sortKey ar a) (sortKey ar b) := by
  unfold modeLess keyLt sortKey
  simp only
  split_ifs <;> simp only [decide_eq_true_eq] <;> omega

theorem modeLess_eq_false_iff (ar : Arch) (a b : VidMode) :
    modeLess ar b a = false ↔ keyLe (sortKey ar a) (sortKey ar b) := by
  rw [← Bool.not_eq_true, modeLess_iff]
  unfold keyLt keyLe
  omega

theorem modeLess_isOrdering (ar : Arch) : LessIsOrdering (modeLess ar) := by
  refine ⟨?_, ?_, ?_⟩
  · intro x
    rw [← Bool.not_eq_true, modeLess_iff]
    unfold keyLt; omega
  · intro x y z
    rw [modeLess_iff, modeLess_iff, modeLess_iff]
    unfold keyLt; omega
  · intro x y z
    rw [← Bool.not_eq_true, ← Bool.not_eq_true, ← Bool.not_eq_true, modeLess_iff, modeLess_iff,
      modeLess_iff]
    unfold keyLt; omega

/-! ## The sorting routines meet the contract of `sort.Slice` -/

theorem insertBack_perm {α : Type} (less : α → α → Bool) (x : α) (l : List α) :
    (insertBack less x l).Perm (x :: l) := by
  induction l with
  | nil => exact List.Perm.refl _
  | cons p ps ih =>
    unfold insertBack
    split
    · exact ((List.Perm.cons p ih).trans (List.Perm.swap x p ps))
    · exact List.Perm.refl _

theorem insertBack_chain {α : Type} (less : α → α → Bool) (h : LessIsOrdering less) (x : α)
    (l : List α) (hl : l.Chain' (fun u v => less u v = false)) :
    (insertBack less x l).Chain' (fun u v => less u v = false) := by
  induction l with
  | nil => simp [insertBack]
  | cons p ps ih =>
    unfold insertBack
    split
    · rename_i hxp
      have ih' := ih hl.tail
      have hpx : less p x = false := by
        by_contra hc
        have := h.2.1 x p x hxp (by simpa using hc)
        rw [h.1 x] at this
        exact Bool.noConfusion this
      cases ps with
      | nil => simpa [insertBack] using hpx
      | cons q qs =>
        unfold insertBack at ih' ⊢
        split
        · rename_i hxq
          rw [if_pos hxq] at ih'
          exact List.Chain'.cons (List.chain'_cons.1 hl).1 ih'
        · rename_i hxq
          rw [if_neg hxq] at ih'
          exact List.Chain'.cons hpx ih'
    · rename_i hxp
      exact List.Chain'.cons (by simpa using hxp) hl

theorem foldl_insertBack_perm {α : Type} (less : α → α → Bool) (l run : List α) :
    (l.foldl (fun run x => insertBack less x run) run).Perm (l ++ run) := by
  induction l generalizing run with
  | nil => exact List.Perm.refl _
  | cons x xs ih =>
    rw [List.foldl_cons]
    refine (ih _).trans ?_
    refine (List.Perm.append_left xs (insertBack_perm less x run)).trans ?_
    simp

theorem foldl_insertBack_chain {α : Type} (less : α → α → Bool) (h : LessIsOrdering less)
    (l run : List α) (hrun : run.Chain' (fun u v => less u v = false)) :
    (l.foldl (fun run x => insertBack less x run) run).Chain' (fun u v => less u v = false) := by
  induction l generalizing run with
  | nil => exact hrun
  | cons x xs ih =>
    rw [List.foldl_cons]
    exact ih _ (insertBack_chain less h x run hrun)

theorem insertionSortFunc_contract {α : Type} :
    SortSliceContract (@insertionSortFunc α) := by
  intro less h l
  unfold insertionSortFunc
  constructor
  · refine (List.reverse_perm _).trans ?_
    simpa using foldl_insertBack_perm less l []
  · rw [List.chain'_reverse]
    exact foldl_insertBack_chain less h l [] List.chain'_nil

theorem shellPassFrom_perm {α : Type} (less : α → α → Bool) (xs pending : List α) :
    (shellPassFrom less pending xs).Perm (pending ++ xs) := by
  classical
  induction xs generalizing pending with
  | nil => cases pending <;> simp [shellPassFrom]
  | cons x xs ih =>
    cases pending with
    | nil => simp [shellPassFrom]
    | cons p ps =>
      unfold shellPassFrom
      split
      · refine (List.Perm.cons x (ih (ps ++ [p]))).trans ?_
        rw [List.perm_iff_count]
        intro c
        simp only [List.count_cons, List.count_append, List.count_nil]
        omega
      · refine (List.Perm.cons p (ih (ps ++ [x]))).trans ?_
        rw [List.perm_iff_count]
        intro c
        simp only [List.count_cons, List.count_append, List.count_nil]
        omega

theorem shellInsertionSortFunc_contract {α : Type} :
    SortSliceContract (@shellInsertionSortFunc α) := by
  intro less h l
  unfold shellInsertionSortFunc
  obtain ⟨hp, hc⟩ := insertionSortFunc_contract less h
    (shellPassFrom less (l.take 6) (l.drop 6))
  refine ⟨hp.trans ((shellPassFrom_perm less _ _).trans ?_), hc⟩
  rw [List.take_append_drop]

/-! ## The video-mode matcher -/

theorem refreshVideoModes_ok (ar : Arch)
    (sortSlice : (VidMode → VidMode → Bool) → List VidMode → List VidMode)
    (platformAppendVideoModes : Monitor → List VidMode → Except Error (List VidMode))
    (m : Monitor) (enumerated : List VidMode)
    (henum : platformAppendVideoModes { m with modes := [] } [] = .ok enumerated) :
    m.refreshVideoModes ar sortSlice platformAppendVideoModes =
      ({ m with modes := sortSlice (modeLess ar) enumerated }, none) := by
  simp only [Monitor.refreshVideoModes, List.take_zero, henum]

theorem chooseVideoMode_ok (a : Arch) (DONT_CARE : Int)
    (sortSlice : (VidMode → VidMode → Bool) → List VidMode → List VidMode)
    (platformAppendVideoModes : Monitor → List VidMode → Except Error (List VidMode))
    (m : Monitor) (desired : VidMode)
    (hok : (m.refreshVideoModes a sortSlice platformAppendVideoModes).2 = none) :
    m.chooseVideoMode a DONT_CARE sortSlice platformAppendVideoModes desired =
      ((m.refreshVideoModes a sortSlice platformAppendVideoModes).1,
        .ok ((m.refreshVideoModes a sortSlice platformAppendVideoModes).1.modes.foldl
          (chooseStep a DONT_CARE desired)
          { closest := none, leastColorDiff := maxUint a, leastSizeDiff := maxUint a,
            leastRateDiff := maxUint a }).closest) := by
  unfold Monitor.chooseVideoMode
  generalize m.refreshVideoModes a sortSlice platformAppendVideoModes = r at hok ⊢
  obtain ⟨m', e⟩ := r
  simp only at hok
  subst hok
  rfl

/-- In the loop's own arithmetic: whenever the catalog refresh succeeds with a
non-empty catalog, `chooseVideoMode` returns the earliest entry of the
refreshed catalog whose score tuple (colour, size, rate, each as the loop
computes it, wrapping included) is lexicographically least over the whole
catalog: no entry has a smaller tuple and no earlier entry has the same
tuple. -/
theorem chooseVideoMode_earliest_least_score (a : Arch) (DONT_CARE : Int)
    (sortSlice : (VidMode → VidMode → Bool) → List VidMode → List VidMode)
    (platformAppendVideoModes : Monitor → List VidMode → Except Error (List VidMode))
    (m : Monitor) (desired : VidMode)
    (hok : (m.refreshVideoModes a sortSlice platformAppendVideoModes).2 = none)
    (hne : (m.refreshVideoModes a sortSlice platformAppendVideoModes).1.modes ≠ []) :
    ∃ pre r post,
      (m.refreshVideoModes a sortSlice platformAppendVideoModes).1.modes = pre ++ r :: post ∧
      m.chooseVideoMode a DONT_CARE sortSlice platformAppendVideoModes desired =
        ((m.refreshVideoModes a sortSlice platformAppendVideoModes).1, .ok (some r)) ∧
      (∀ x ∈ pre ++ r :: post,
        ¬ scoreLt (score a DONT_CARE desired x) (score a DONT_CARE desired r)) ∧
      (∀ x ∈ pre, score a DONT_CARE desired x ≠ score a DONT_CARE desired r) := by
  obtain ⟨pre, r, post, heq, hcl, h1, h2⟩ := foldl_chooseStep_init a DONT_CARE desired _ hne
  refine ⟨pre, r, post, heq, ?_, ?_, ?_⟩
  · rw [chooseVideoMode_ok a DONT_CARE sortSlice platformAppendVideoModes m desired hok, hcl]
  · intro x hx
    rcases List.mem_append.1 hx with hx | hx
    · have := h1 x hx
      unfold scoreLt at *; omega
    · rcases List.mem_cons.1 hx with hx | hx
      · subst hx; unfold scoreLt; omega
      · exact h2 x hx
  · intro x hx heq'
    have := h1 x hx
    rw [heq'] at this
    unfold scoreLt at this; omega

theorem chooseVideoMode_earliest_least_score_witness :
    (sampleMonitor.refreshVideoModes .bits64 insertionSortFunc
      (enumerateModes modes800x600)).2 = none ∧
    (sampleMonitor.refreshVideoModes .bits64 insertionSortFunc
      (enumerateModes modes800x600)).1.modes ≠ [] ∧
    ∃ pre r post,
      (sampleMonitor.refreshVideoModes .bits64 insertionSortFunc
        (enumerateModes modes800x600)).1.modes = pre ++ r :: post ∧
      sampleMonitor.chooseVideoMode .bits64 (-1) insertionSortFunc
          (enumerateModes modes800x600) desired800x600 =
        ((sampleMonitor.refreshVideoModes .bits64 insertionSortFunc
          (enumerateModes modes800x600)).1, .ok (some r)) ∧
      (∀ x ∈ pre ++ r :: post,
        ¬ scoreLt (score .bits64 (-1) desired800x600 x) (score .bits64 (-1) desired800x600 r)) ∧
      (∀ x ∈ pre, score .bits64 (-1) desired800x600 x ≠ score .bits64 (-1) desired800x600 r) :=
  ⟨by rfl, by decide,
    chooseVideoMode_earliest_least_score .bits64 (-1) insertionSortFunc
      (enumerateModes modes800x600) sampleMonitor desired800x600 (by rfl) (by decide)⟩

theorem rateDiff_unconstrained (a : Arch) (DONT_CARE : Int) (desired v : VidMode)
    (hdc : desired.RefreshRate = DONT_CARE) (hint : IsInt a v.RefreshRate)
    (hpos : 0 ≤ v.RefreshRate) :
    (rateDiff a DONT_CARE desired v : Int) = (maxUint a : Int) - v.RefreshRate := by
  unfold rateDiff
  rw [if_neg (by simp [hdc]), maxUint_eq]
  cases a <;> simp only [IsInt, wrapUint, Arch.uintBits] at * <;> omega

/-- In the loop's own arithmetic: when the desired refresh rate is the
don't-care value and the refreshed catalog is non-empty with non-negative
refresh rates, the returned mode attains the least colour score of the
catalog, the least size score among the entries of that colour score, and the
greatest refresh rate among the entries of that colour and size score, the
colour and size scores being the loop's wrapped values. -/
theorem chooseVideoMode_unconstrained_rate_greatest (a : Arch) (DONT_CARE : Int)
    (sortSlice : (VidMode → VidMode → Bool) → List VidMode → List VidMode)
    (platformAppendVideoModes : Monitor → List VidMode → Except Error (List VidMode))
    (m : Monitor) (desired : VidMode)
    (hok : (m.refreshVideoModes a sortSlice platformAppendVideoModes).2 = none)
    (hne : (m.refreshVideoModes a sortSlice platformAppendVideoModes).1.modes ≠ [])
    (hrate : ∀ v ∈ (m.refreshVideoModes a sortSlice platformAppendVideoModes).1.modes,
      IsInt a v.RefreshRate ∧ 0 ≤ v.RefreshRate)
    (hdc : desired.RefreshRate = DONT_CARE) :
    ∃ r, (m.chooseVideoMode a DONT_CARE sortSlice platformAppendVideoModes desired).2 =
        .ok (some r) ∧
      r ∈ (m.refreshVideoModes a sortSlice platformAppendVideoModes).1.modes ∧
      ∀ x ∈ (m.refreshVideoModes a sortSlice platformAppendVideoModes).1.modes,
        colorDiff a DONT_CARE desired r ≤ colorDiff a DONT_CARE desired x ∧
        (colorDiff a DONT_CARE desired x = colorDiff a DONT_CARE desired r →
          sizeDiff a desired r ≤ sizeDiff a desired x) ∧
        (colorDiff a DONT_CARE desired x = colorDiff a DONT_CARE desired r →
          sizeDiff a desired x = sizeDiff a desired r → x.RefreshRate ≤ r.RefreshRate) := by
  obtain ⟨pre, r, post, heq, hcl, h1, h2⟩ := foldl_chooseStep_init a DONT_CARE desired _ hne
  have hr : r ∈ (m.refreshVideoModes a sortSlice platformAppendVideoModes).1.modes := by
    rw [heq]; simp
  refine ⟨r, ?_, hr, ?_⟩
  · rw [chooseVideoMode_ok a DONT_CARE sortSlice platformAppendVideoModes m desired hok, hcl]
  · intro x hx
    have hnlt : ¬ scoreLt (score a DONT_CARE desired x) (score a DONT_CARE desired r) := by
      rw [heq] at hx
      rcases List.mem_append.1 hx with hx | hx
      · have := h1 x hx
        unfold scoreLt at *; omega
      · rcases List.mem_cons.1 hx with hx | hx
        · subst hx; unfold scoreLt; omega
        · exact h2 x hx
    have hrx := rateDiff_unconstrained a DONT_CARE desired x hdc (hrate x hx).1 (hrate x hx).2
    have hrr := rateDiff_unconstrained a DONT_CARE desired r hdc (hrate r hr).1 (hrate r hr).2
    unfold scoreLt score at hnlt
    simp only at hnlt
    omega

theorem chooseVideoMode_unconstrained_rate_greatest_witness :
    (sampleMonitor.refreshVideoModes .bits64 insertionSortFunc
      (enumerateModes modes800x600)).2 = none ∧
    (sampleMonitor.refreshVideoModes .bits64 insertionSortFunc
      (enumerateModes modes800x600)).1.modes ≠ [] ∧
    (∀ v ∈ (sampleMonitor.refreshVideoModes .bits64 insertionSortFunc
        (enumerateModes modes800x600)).1.modes,
      IsInt .bits64 v.RefreshRate ∧ 0 ≤ v.RefreshRate) ∧
    desired800x600.RefreshRate = -1 ∧
    ∃ r, (sampleMonitor.chooseVideoMode .bits64 (-1) insertionSortFunc
        (enumerateModes modes800x600) desired800x600).2 = .ok (some r) ∧
      r ∈ (sampleMonitor.refreshVideoModes .bits64 insertionSortFunc
        (enumerateModes modes800x600)).1.modes ∧
      ∀ x ∈ (sampleMonitor.refreshVideoModes .bits64 insertionSortFunc
          (enumerateModes modes800x600)).1.modes,
        colorDiff .bits64 (-1) desired800x600 r ≤ colorDiff .bits64 (-1) desired800x600 x ∧
        (colorDiff .bits64 (-1) desired800x600 x = colorDiff .bits64 (-1) desired800x600 r →
          sizeDiff .bits64 desired800x600 r ≤ sizeDiff .bits64 desired800x600 x) ∧
        (colorDiff .bits64 (-1) desired800x600 x = colorDiff .bits64 (-1) desired800x600 r →
          sizeDiff .bits64 desired800x600 x = sizeDiff .bits64 desired800x600 r →
          x.RefreshRate ≤ r.RefreshRate) :=
  ⟨by rfl, by decide, by decide, by rfl,
    chooseVideoMode_unconstrained_rate_greatest .bits64 (-1) insertionSortFunc
      (enumerateModes modes800x600) sampleMonitor desired800x600 (by rfl) (by decide)
      (by decide) (by rfl)⟩

/-- The worked example of the matcher: with the rate unconstrained the 120 Hz
mode is returned, with the rate 60 desired the 60 Hz mode, on either word size. -/
theorem chooseVideoMode_800x600 (a : Arch) :
    (sampleMonitor.chooseVideoMode a (-1) insertionSortFunc
        (enumerateModes modes800x600) desired800x600).2 =
      .ok (some mode800x600at120) ∧
    (sampleMonitor.chooseVideoMode a (-1) insertionSortFunc
        (enumerateModes modes800x600) desired800x600at60).2 =
      .ok (some mode800x600at60) := by
  cases a <;> exact ⟨by rfl, by rfl⟩

theorem abs_of_small (a : Arch) (x : Int) (h1 : -(2 ^ 31) < x) (h2 : x < 2 ^ 31) :
    (abs a x : Int) = |x| := by
  have h := abs_eq_natAbs a x (by cases a <;> simp only [IsInt, Arch.uintBits] <;> omega)
    (by cases a <;> simp only [Arch.uintBits] <;> omega)
  rw [h, Int.abs_eq_natAbs]

theorem wrapInt_of_small (a : Arch) (x : Int) (h1 : -(2 ^ 31) ≤ x) (h2 : x < 2 ^ 31) :
    wrapInt a x = x :=
  wrapInt_of_isInt a x (by cases a <;> simp only [IsInt, Arch.uintBits] <;> omega)

theorem mul_self_small (x : Int) (h1 : -(2 ^ 15) < x) (h2 : x < 2 ^ 15) :
    0 ≤ x * x ∧ x * x < 2 ^ 30 := by
  constructor
  · exact mul_self_nonneg x
  · nlinarith

/-- On modes with small fields the scores the loop computes are the exact
integer scores: no operation of the loop body overflows. -/
theorem score_eq_exact (a : Arch) (DONT_CARE : Int) (desired v : VidMode)
    (hd : desired.IsSmall) (hv : v.IsSmall)
    (hrate : desired.RefreshRate = DONT_CARE → 0 ≤ v.RefreshRate) :
    (colorDiff a DONT_CARE desired v : Int) = exactColorScore DONT_CARE desired v ∧
    (sizeDiff a desired v : Int) = exactSizeScore desired v ∧
    (rateDiff a DONT_CARE desired v : Int) = exactRateScore a DONT_CARE desired v := by
  obtain ⟨⟨dw1, dw2⟩, ⟨dh1, dh2⟩, ⟨dr1, dr2⟩, ⟨dg1, dg2⟩, ⟨db1, db2⟩, ⟨df1, df2⟩⟩ := hd
  obtain ⟨⟨vw1, vw2⟩, ⟨vh1, vh2⟩, ⟨vr1, vr2⟩, ⟨vg1, vg2⟩, ⟨vb1, vb2⟩, ⟨vf1, vf2⟩⟩ := hv
  refine ⟨?_, ?_, ?_⟩
  · have hr := abs_of_small a (v.RedBits - desired.RedBits) (by omega) (by omega)
    have hg := abs_of_small a (v.GreenBits - desired.GreenBits) (by omega) (by omega)
    have hb := abs_of_small a (v.BlueBits - desired.BlueBits) (by omega) (by omega)
    have hr' := abs_lt.2 (show -(2 ^ 15 : Int) < v.RedBits - desired.RedBits ∧
      v.RedBits - desired.RedBits < 2 ^ 15 from ⟨by omega, by omega⟩)
    have hg' := abs_lt.2 (show -(2 ^ 15 : Int) < v.GreenBits - desired.GreenBits ∧
      v.GreenBits - desired.GreenBits < 2 ^ 15 from ⟨by omega, by omega⟩)
    have hb' := abs_lt.2 (show -(2 ^ 15 : Int) < v.BlueBits - desired.BlueBits ∧
      v.BlueBits - desired.BlueBits < 2 ^ 15 from ⟨by omega, by omega⟩)
    have hr0 := abs_nonneg (v.RedBits - desired.RedBits)
    have hg0 := abs_nonneg (v.GreenBits - desired.GreenBits)
    have hb0 := abs_nonneg (v.BlueBits - desired.BlueBits)
    unfold colorDiff exactColorScore
    simp only [wrapInt_of_small a (v.RedBits - desired.RedBits) (by omega) (by omega),
      wrapInt_of_small a (v.GreenBits - desired.GreenBits) (by omega) (by omega),
      wrapInt_of_small a (v.BlueBits - desired.BlueBits) (by omega) (by omega)]
    generalize |v.RedBits - desired.RedBits| = R at *
    generalize |v.GreenBits - desired.GreenBits| = G at *
    generalize |v.BlueBits - desired.BlueBits| = B at *
    generalize abs a (v.RedBits - desired.RedBits) = r at *
    generalize abs a (v.GreenBits - desired.GreenBits) = g at *
    generalize abs a (v.BlueBits - desired.BlueBits) = b at *
    cases a <;> simp only [Arch.uintBits] <;> split_ifs <;> omega
  · have hw := mul_self_small (v.Width - desired.Width) (by omega) (by omega)
    have hh := mul_self_small (v.Height - desired.Height) (by omega) (by omega)
    unfold sizeDiff exactSizeScore
    simp only [wrapInt_of_small a (v.Width - desired.Width) (by omega) (by omega),
      wrapInt_of_small a (v.Height - desired.Height) (by omega) (by omega)]
    rw [wrapInt_of_small a ((v.Width - desired.Width) * (v.Width - desired.Width))
        (by omega) (by omega),
      wrapInt_of_small a ((v.Height - desired.Height) * (v.Height - desired.Height))
        (by omega) (by omega),
      wrapInt_of_small a _ (by omega) (by omega), abs_of_small a _ (by omega) (by omega),
      abs_of_nonneg (by omega)]
    ring
  · unfold exactRateScore
    by_cases hdc : desired.RefreshRate = DONT_CARE
    · rw [if_neg (by simp [hdc])]
      exact rateDiff_unconstrained a DONT_CARE desired v hdc
        (by cases a <;> simp only [IsInt, Arch.uintBits] <;> omega) (hrate hdc)
    · unfold rateDiff
      rw [if_pos hdc, if_pos hdc, wrapInt_of_small a _ (by omega) (by omega),
        abs_of_small a _ (by omega) (by omega)]

/-- C1, as stated, fails where the score computation overflows. With 32-bit
`int`, the catalog 640x480 at 60 Hz, 1920x1080 at 75 Hz and the desired mode
48000x1080 at 60 Hz: the squared distance of 640x480 is 2243329600, which the
loop computes as 2051637696 (the square of -47360 wraps), below the 2123366400
of 1920x1080, so `chooseVideoMode` returns 640x480 though the score tuple of
the claim is least at 1920x1080. With 64-bit `int`, the rate unconstrained and
a candidate whose rate is -2: the loop computes `maxUint - uint(-2) = 1`, less
than for 60 Hz, and returns that candidate, though `MAX - rate` is least at
60 Hz. -/
theorem chooseVideoMode_size_score_wraps :
    (sampleMonitor.refreshVideoModes .bits32 insertionSortFunc
      (enumerateModes modesWide)).1.modes = [mode640x480at60, mode1920x1080at75] ∧
    (sampleMonitor.chooseVideoMode .bits32 (-1) insertionSortFunc (enumerateModes modesWide)
      (desired48000x1080 60)).2 = .ok (some mode640x480at60) ∧
    score .bits32 (-1) (desired48000x1080 60) mode640x480at60 = (0, 2051637696, 0) ∧
    score .bits32 (-1) (desired48000x1080 60) mode1920x1080at75 = (0, 2123366400, 15) ∧
    exactScore .bits32 (-1) (desired48000x1080 60) mode640x480at60 = (0, 2243329600, 0) ∧
    exactScore .bits32 (-1) (desired48000x1080 60) mode1920x1080at75 = (0, 2123366400, 15) ∧
    exactScoreLt (exactScore .bits32 (-1) (desired48000x1080 60) mode1920x1080at75)
      (exactScore .bits32 (-1) (desired48000x1080 60) mode640x480at60) ∧
    (sampleMonitor.chooseVideoMode .bits64 (-1) insertionSortFunc
      (enumerateModes [mode800x600atMinus2, mode800x600at60]) desired800x600).2 =
        .ok (some mode800x600atMinus2) ∧
    rateDiff .bits64 (-1) desired800x600 mode800x600atMinus2 = 1 ∧
    exactScoreLt (exactScore .bits64 (-1) desired800x600 mode800x600at60)
      (exactScore .bits64 (-1) desired800x600 mode800x600atMinus2) :=
  ⟨by rfl, by rfl, by rfl, by rfl, by rfl, by rfl, by decide, by rfl, by rfl, by decide⟩

/-- C1, amended. Whenever the catalog refresh succeeds with a non-empty catalog
and every field of the desired mode and of every catalog entry lies in
`[-2^14, 2^14)`, the catalog rates being non-negative if the desired rate is
the don't-care value, `chooseVideoMode` returns the earliest entry of the
refreshed catalog whose exact score tuple (colour: sum over the channels of
`|candidate - desired|`, a don't-care channel skipped; size: squared distance;
rate: `|candidate - desired|`, or `maxUint - candidate` for a don't-care rate)
is lexicographically least over the whole catalog: no entry has a smaller
tuple and no earlier entry has the same tuple. -/
theorem chooseVideoMode_least_exact_score (a : Arch) (DONT_CARE : Int)
    (sortSlice : (VidMode → VidMode → Bool) → List VidMode → List VidMode)
    (platformAppendVideoModes : Monitor → List VidMode → Except Error (List VidMode))
    (m : Monitor) (desired : VidMode)
    (hok : (m.refreshVideoModes a sortSlice platformAppendVideoModes).2 = none)
    (hne : (m.refreshVideoModes a sortSlice platformAppendVideoModes).1.modes ≠ [])
    (hd : desired.IsSmall)
    (hv : ∀ v ∈ (m.refreshVideoModes a sortSlice platformAppendVideoModes).1.modes, v.IsSmall)
    (hrate : desired.RefreshRate = DONT_CARE →
      ∀ v ∈ (m.refreshVideoModes a sortSlice platformAppendVideoModes).1.modes,
        0 ≤ v.RefreshRate) :
    ∃ pre r post,
      (m.refreshVideoModes a sortSlice platformAppendVideoModes).1.modes = pre ++ r :: post ∧
      m.chooseVideoMode a DONT_CARE sortSlice platformAppendVideoModes desired =
        ((m.refreshVideoModes a sortSlice platformAppendVideoModes).1, .ok (some r)) ∧
      (∀ x ∈ pre ++ r :: post,
        ¬ exactScoreLt (exactScore a DONT_CARE desired x) (exactScore a DONT_CARE desired r)) ∧
      (∀ x ∈ pre, exactScore a DONT_CARE desired x ≠ exactScore a DONT_CARE desired r) := by
  obtain ⟨pre, r, post, heq, hres, h1, h2⟩ :=
    chooseVideoMode_earliest_least_score a DONT_CARE sortSlice platformAppendVideoModes m
      desired hok hne
  have hr : r ∈ (m.refreshVideoModes a sortSlice platformAppendVideoModes).1.modes := by
    rw [heq]; simp
  obtain ⟨rc, rs, rr⟩ := score_eq_exact a DONT_CARE desired r hd (hv r hr)
    (fun h => hrate h r hr)
  refine ⟨pre, r, post, heq, hres, ?_, ?_⟩
  · intro x hx
    have hxm : x ∈ (m.refreshVideoModes a sortSlice platformAppendVideoModes).1.modes := by
      rw [heq]; exact hx
    obtain ⟨xc, xs, xr⟩ := score_eq_exact a DONT_CARE desired x hd (hv x hxm)
      (fun h => hrate h x hxm)
    have := h1 x hx
    unfold scoreLt score at this
    unfold exactScoreLt exactScore
    simp only at this ⊢
    omega
  · intro x hx
    have hxm : x ∈ (m.refreshVideoModes a sortSlice platformAppendVideoModes).1.modes := by
      rw [heq]; simp [hx]
    obtain ⟨xc, xs, xr⟩ := score_eq_exact a DONT_CARE desired x hd (hv x hxm)
      (fun h => hrate h x hxm)
    have := h2 x hx
    intro he
    apply this
    unfold exactScore at he
    unfold score
    simp only [Prod.mk.injEq] at he ⊢
    omega

theorem chooseVideoMode_least_exact_score_witness :
    (sampleMonitor.refreshVideoModes .bits32 insertionSortFunc
      (enumerateModes modesWide)).2 = none ∧
    (sampleMonitor.refreshVideoModes .bits32 insertionSortFunc
      (enumerateModes modesWide)).1.modes ≠ [] ∧
    desired800x600at60.IsSmall ∧
    (∀ v ∈ (sampleMonitor.refreshVideoModes .bits32 insertionSortFunc
      (enumerateModes modesWide)).1.modes, v.IsSmall) ∧
    ∃ pre r post,
      (sampleMonitor.refreshVideoModes .bits32 insertionSortFunc
        (enumerateModes modesWide)).1.modes = pre ++ r :: post ∧
      sampleMonitor.chooseVideoMode .bits32 (-1) insertionSortFunc
          (enumerateModes modesWide) desired800x600at60 =
        ((sampleMonitor.refreshVideoModes .bits32 insertionSortFunc
          (enumerateModes modesWide)).1, .ok (some r)) ∧
      (∀ x ∈ pre ++ r :: post,
        ¬ exactScoreLt (exactScore .bits32 (-1) desired800x600at60 x)
          (exactScore .bits32 (-1) desired800x600at60 r)) ∧
      (∀ x ∈ pre, exactScore .bits32 (-1) desired800x600at60 x ≠
        exactScore .bits32 (-1) desired800x600at60 r) :=
  ⟨by rfl, by decide, by decide, by decide,
    chooseVideoMode_least_exact_score .bits32 (-1) insertionSortFunc
      (enumerateModes modesWide) sampleMonitor desired800x600at60 (by rfl) (by decide)
      (by decide) (by decide) (by decide)⟩

/-- C2, as stated, fails where the size score overflows. With 32-bit `int`,
the catalog 640x480 at 60 Hz, 1920x1080 at 75 Hz, both rates non-negative, and
the desired mode 48000x1080 with the rate unconstrained: both entries have
colour score 0 and the squared distance is least at 1920x1080 alone, so the
claim's answer is the 75 Hz mode; `chooseVideoMode` returns the 60 Hz mode,
whose squared distance 2243329600 it computes as 2051637696. -/
theorem chooseVideoMode_unconstrained_rate_wraps :
    (desired48000x1080 (-1)).RefreshRate = -1 ∧
    (∀ v ∈ (sampleMonitor.refreshVideoModes .bits32 insertionSortFunc
      (enumerateModes modesWide)).1.modes, 0 ≤ v.RefreshRate) ∧
    (sampleMonitor.chooseVideoMode .bits32 (-1) insertionSortFunc (enumerateModes modesWide)
      (desired48000x1080 (-1))).2 = .ok (some mode640x480at60) ∧
    exactColorScore (-1) (desired48000x1080 (-1)) mode640x480at60 = 0 ∧
    exactColorScore (-1) (desired48000x1080 (-1)) mode1920x1080at75 = 0 ∧
    exactSizeScore (desired48000x1080 (-1)) mode640x480at60 = 2243329600 ∧
    exactSizeScore (desired48000x1080 (-1)) mode1920x1080at75 = 2123366400 ∧
    sizeDiff .bits32 (desired48000x1080 (-1)) mode640x480at60 = 2051637696 ∧
    mode640x480at60.RefreshRate < mode1920x1080at75.RefreshRate :=
  ⟨by rfl, by decide, by rfl, by rfl, by rfl, by rfl, by rfl, by rfl, by decide⟩

/-- C2, amended. When the desired refresh rate is the don't-care value, the
refreshed catalog is non-empty with non-negative refresh rates, and every
field of the desired mode and of every catalog entry lies in `[-2^14, 2^14)`,
the returned mode attains the least exact colour score of the catalog, the
least exact size score among the entries of that colour score, and the
greatest refresh rate among the entries of that colour and size score. -/
theorem chooseVideoMode_greatest_rate_exact (a : Arch) (DONT_CARE : Int)
    (sortSlice : (VidMode → VidMode → Bool) → List VidMode → List VidMode)
    (platformAppendVideoModes : Monitor → List VidMode → Except Error (List VidMode))
    (m : Monitor) (desired : VidMode)
    (hok : (m.refreshVideoModes a sortSlice platformAppendVideoModes).2 = none)
    (hne : (m.refreshVideoModes a sortSlice platformAppendVideoModes).1.modes ≠ [])
    (hd : desired.IsSmall)
    (hv : ∀ v ∈ (m.refreshVideoModes a sortSlice platformAppendVideoModes).1.modes, v.IsSmall)
    (hrate : ∀ v ∈ (m.refreshVideoModes a sortSlice platformAppendVideoModes).1.modes,
      0 ≤ v.RefreshRate)
    (hdc : desired.RefreshRate = DONT_CARE) :
    ∃ r, (m.chooseVideoMode a DONT_CARE sortSlice platformAppendVideoModes desired).2 =
        .ok (some r) ∧
      r ∈ (m.refreshVideoModes a sortSlice platformAppendVideoModes).1.modes ∧
      ∀ x ∈ (m.refreshVideoModes a sortSlice platformAppendVideoModes).1.modes,
        exactColorScore DONT_CARE desired r ≤ exactColorScore DONT_CARE desired x ∧
        (exactColorScore DONT_CARE desired x = exactColorScore DONT_CARE desired r →
          exactSizeScore desired r ≤ exactSizeScore desired x) ∧
        (exactColorScore DONT_CARE desired x = exactColorScore DONT_CARE desired r →
          exactSizeScore desired x = exactSizeScore desired r →
          x.RefreshRate ≤ r.RefreshRate) := by
  obtain ⟨r, hres, hr, hall⟩ :=
    chooseVideoMode_unconstrained_rate_greatest a DONT_CARE sortSlice platformAppendVideoModes
      m desired hok hne (by
        intro v hvm
        obtain ⟨_, _, _, _, _, hf1, hf2⟩ := hv v hvm
        exact ⟨by cases a <;> simp only [IsInt, Arch.uintBits] <;> omega, hrate v hvm⟩) hdc
  obtain ⟨rc, rs, _⟩ := score_eq_exact a DONT_CARE desired r hd (hv r hr)
    (fun _ => hrate r hr)
  refine ⟨r, hres, hr, ?_⟩
  intro x hx
  obtain ⟨xc, xs, _⟩ := score_eq_exact a DONT_CARE desired x hd (hv x hx)
    (fun _ => hrate x hx)
  obtain ⟨k1, k2, k3⟩ := hall x hx
  refine ⟨by omega, ?_, ?_⟩
  · intro hc
    have := k2 (by omega)
    omega
  · intro hc hs
    exact k3 (by omega) (by omega)

theorem chooseVideoMode_greatest_rate_exact_witness :
    (sampleMonitor.refreshVideoModes .bits64 insertionSortFunc
      (enumerateModes modes800x600)).2 = none ∧
    (sampleMonitor.refreshVideoModes .bits64 insertionSortFunc
      (enumerateModes modes800x600)).1.modes ≠ [] ∧
    desired800x600.IsSmall ∧
    (∀ v ∈ (sampleMonitor.refreshVideoModes .bits64 insertionSortFunc
      (enumerateModes modes800x600)).1.modes, v.IsSmall) ∧
    (∀ v ∈ (sampleMonitor.refreshVideoModes .bits64 insertionSortFunc
      (enumerateModes modes800x600)).1.modes, 0 ≤ v.RefreshRate) ∧
    desired800x600.RefreshRate = -1 ∧
    ∃ r, (sampleMonitor.chooseVideoMode .bits64 (-1) insertionSortFunc
        (enumerateModes modes800x600) desired800x600).2 = .ok (some r) ∧
      r ∈ (sampleMonitor.refreshVideoModes .bits64 insertionSortFunc
        (enumerateModes modes800x600)).1.modes ∧
      ∀ x ∈ (sampleMonitor.refreshVideoModes .bits64 insertionSortFunc
          (enumerateModes modes800x600)).1.modes,
        exactColorScore (-1) desired800x600 r ≤ exactColorScore (-1) desired800x600 x ∧
        (exactColorScore (-1) desired800x600 x = exactColorScore (-1) desired800x600 r →
          exactSizeScore desired800x600 r ≤ exactSizeScore desired800x600 x) ∧
        (exactColorScore (-1) desired800x600 x = exactColorScore (-1) desired800x600 r →
          exactSizeScore desired800x600 x = exactSizeScore desired800x600 r →
          x.RefreshRate ≤ r.RefreshRate) :=
  ⟨by rfl, by decide, by decide, by decide, by decide, by rfl,
    chooseVideoMode_greatest_rate_exact .bits64 (-1) insertionSortFunc
      (enumerateModes modes800x600) sampleMonitor desired800x600 (by rfl) (by decide)
      (by decide) (by decide) (by decide) (by rfl)⟩

/-! ## The video-mode catalog -/

/-- C3. After a successful platform enumeration `refreshVideoModes` reports no
error and leaves as the monitor's cached list a rearrangement of exactly the
enumerated modes in which every entry's sort key (bit-depth sum, area, width,
refresh rate) is lexicographically at most the key of the entry after it. -/
theorem refreshVideoModes_sorted_rearrangement (ar : Arch)
    (sortSlice : (VidMode → VidMode → Bool) → List VidMode → List VidMode)
    (hsort : SortSliceContract sortSlice)
    (platformAppendVideoModes : Monitor → List VidMode → Except Error (List VidMode))
    (m : Monitor) (enumerated : List VidMode)
    (henum : platformAppendVideoModes { m with modes := [] } [] = .ok enumerated) :
    (m.refreshVideoModes ar sortSlice platformAppendVideoModes).2 = none ∧
    (m.refreshVideoModes ar sortSlice platformAppendVideoModes).1.modes.Perm enumerated ∧
    (m.refreshVideoModes ar sortSlice platformAppendVideoModes).1.modes.Chain'
      (fun x y => keyLe (sortKey ar x) (sortKey ar y)) := by
  rw [refreshVideoModes_ok ar sortSlice platformAppendVideoModes m enumerated henum]
  obtain ⟨hp, hc⟩ := hsort (modeLess ar) (modeLess_isOrdering ar) enumerated
  refine ⟨rfl, hp, ?_⟩
  exact List.Chain'.imp (fun x y h => (modeLess_eq_false_iff ar x y).1 h) hc

theorem refreshVideoModes_sorted_rearrangement_witness :
    SortSliceContract (@insertionSortFunc VidMode) ∧
    enumerateModes modes640x480 { sampleMonitor with modes := [] } [] = .ok modes640x480 ∧
    ((sampleMonitor.refreshVideoModes .bits64 insertionSortFunc
        (enumerateModes modes640x480)).2 = none ∧
      (sampleMonitor.refreshVideoModes .bits64 insertionSortFunc
        (enumerateModes modes640x480)).1.modes.Perm modes640x480 ∧
      (sampleMonitor.refreshVideoModes .bits64 insertionSortFunc
        (enumerateModes modes640x480)).1.modes.Chain'
          (fun x y => keyLe (sortKey .bits64 x) (sortKey .bits64 y))) :=
  ⟨insertionSortFunc_contract, rfl,
    refreshVideoModes_sorted_rearrangement .bits64 insertionSortFunc insertionSortFunc_contract
      (enumerateModes modes640x480) sampleMonitor modes640x480 rfl⟩

/-- The catalog of the example enumeration, sorted by insertion sort: the 16-bit
mode first, then the two 24-bit modes. -/
theorem refreshVideoModes_640x480 (ar : Arch) :
    (sampleMonitor.refreshVideoModes ar insertionSortFunc
        (enumerateModes modes640x480)).1.modes =
      [modeAt60 640 480 5 6 5, modeAt60 640 480 8 8 8, modeAt60 640 480 8 8 8] := by
  cases ar <;> rfl

/-- C4, as stated, fails. The routine that `sort.Slice` of Go 1.6 to 1.18 runs
on a short slice meets the contract of `sort.Slice`, and on an enumeration of
seven modes whose first two entries (640x480 with 16 bits split 5-6-5, then
6-5-5) have the same sort key it caches those two in the opposite order. -/
theorem refreshVideoModes_ties_reordered :
    SortSliceContract (@shellInsertionSortFunc VidMode) ∧
    sortKey .bits64 (modeAt60 640 480 5 6 5) = sortKey .bits64 (modeAt60 640 480 6 5 5) ∧
    sevenModes.filter (fun v => sortKey .bits64 v = sortKey .bits64 (modeAt60 640 480 5 6 5)) =
      [modeAt60 640 480 5 6 5, modeAt60 640 480 6 5 5] ∧
    (sampleMonitor.refreshVideoModes .bits64 shellInsertionSortFunc
        (enumerateModes sevenModes)).1.modes =
      [modeAt60 320 240 5 6 5, modeAt60 640 480 6 5 5, modeAt60 640 480 5 6 5,
       modeAt60 800 600 5 6 5, modeAt60 1024 768 5 6 5, modeAt60 1280 720 5 6 5,
       modeAt60 1920 1080 5 6 5] ∧
    (sampleMonitor.refreshVideoModes .bits64 shellInsertionSortFunc
        (enumerateModes sevenModes)).1.modes.filter
        (fun v => sortKey .bits64 v = sortKey .bits64 (modeAt60 640 480 5 6 5)) =
      [modeAt60 640 480 6 5 5, modeAt60 640 480 5 6 5] :=
  ⟨shellInsertionSortFunc_contract, by rfl, by rfl, by rfl, by rfl⟩

/-- C4, amended. Whatever order `sort.Slice` leaves among ties, the cached
modes of any one sort key are, with multiplicity, exactly the enumerated modes
of that key. -/
theorem refreshVideoModes_ties_kept (ar : Arch)
    (sortSlice : (VidMode → VidMode → Bool) → List VidMode → List VidMode)
    (hsort : SortSliceContract sortSlice)
    (platformAppendVideoModes : Monitor → List VidMode → Except Error (List VidMode))
    (m : Monitor) (enumerated : List VidMode)
    (henum : platformAppendVideoModes { m with modes := [] } [] = .ok enumerated)
    (k : Int × Int × Int × Int) :
    ((m.refreshVideoModes ar sortSlice platformAppendVideoModes).1.modes.filter
        (fun v => sortKey ar v = k)).Perm
      (enumerated.filter (fun v => sortKey ar v = k)) := by
  rw [refreshVideoModes_ok ar sortSlice platformAppendVideoModes m enumerated henum]
  exact ((hsort (modeLess ar) (modeLess_isOrdering ar) enumerated).1).filter _

theorem refreshVideoModes_ties_kept_witness :
    SortSliceContract (@shellInsertionSortFunc VidMode) ∧
    enumerateModes sevenModes { sampleMonitor with modes := [] } [] = .ok sevenModes ∧
    ((sampleMonitor.refreshVideoModes .bits64 shellInsertionSortFunc
        (enumerateModes sevenModes)).1.modes.filter
        (fun v => sortKey .bits64 v = sortKey .bits64 (modeAt60 640 480 5 6 5))).Perm
      (sevenModes.filter
        (fun v => sortKey .bits64 v = sortKey .bits64 (modeAt60 640 480 5 6 5))) :=
  ⟨shellInsertionSortFunc_contract, rfl,
    refreshVideoModes_ties_kept .bits64 shellInsertionSortFunc shellInsertionSortFunc_contract
      (enumerateModes sevenModes) sampleMonitor sevenModes rfl
      (sortKey .bits64 (modeAt60 640 480 5 6 5))⟩

/-! ## Window styles -/

/-- C5. A window with a full-screen monitor has exactly the style
`_WS_POPUP | _WS_CLIPSIBLINGS | _WS_CLIPCHILDREN`, whatever its decorated and
resizable flags: no caption, thick-frame, maximize-box, minimize-box or
system-menu bit is set. -/
theorem getWindowStyle_fullscreen (w : Window) (h : w.monitor ≠ none) :
    w.getWindowStyle = _WS_POPUP ||| _WS_CLIPSIBLINGS ||| _WS_CLIPCHILDREN ∧
    w.getWindowStyle &&& _WS_CAPTION = 0 ∧
    w.getWindowStyle &&& _WS_THICKFRAME = 0 ∧
    w.getWindowStyle &&& _WS_MAXIMIZEBOX = 0 ∧
    w.getWindowStyle &&& _WS_MINIMIZEBOX = 0 ∧
    w.getWindowStyle &&& _WS_SYSMENU = 0 := by
  have hs : w.getWindowStyle = _WS_CLIPSIBLINGS ||| _WS_CLIPCHILDREN ||| _WS_POPUP := by
    unfold Window.getWindowStyle
    simp only [if_pos h]
  rw [hs]
  decide

theorem getWindowStyle_fullscreen_witness :
    (sampleWindow (some 1) false 16 9).monitor ≠ none ∧
    ((sampleWindow (some 1) false 16 9).getWindowStyle =
        _WS_POPUP ||| _WS_CLIPSIBLINGS ||| _WS_CLIPCHILDREN ∧
      (sampleWindow (some 1) false 16 9).getWindowStyle &&& _WS_CAPTION = 0 ∧
      (sampleWindow (some 1) false 16 9).getWindowStyle &&& _WS_THICKFRAME = 0 ∧
      (sampleWindow (some 1) false 16 9).getWindowStyle &&& _WS_MAXIMIZEBOX = 0 ∧
      (sampleWindow (some 1) false 16 9).getWindowStyle &&& _WS_MINIMIZEBOX = 0 ∧
      (sampleWindow (some 1) false 16 9).getWindowStyle &&& _WS_SYSMENU = 0) :=
  ⟨by decide, getWindowStyle_fullscreen (sampleWindow (some 1) false 16 9) (by decide)⟩

/-- The style of a window without a full-screen monitor, by its two flags. -/
theorem getWindowStyle_windowed (w : Window) (h : w.monitor = none) :
    w.getWindowStyle =
      if w.decorated then
        if w.resizable then
          _WS_CLIPSIBLINGS ||| _WS_CLIPCHILDREN ||| (_WS_SYSMENU ||| _WS_MINIMIZEBOX) |||
            _WS_CAPTION ||| (_WS_MAXIMIZEBOX ||| _WS_THICKFRAME)
        else
          _WS_CLIPSIBLINGS ||| _WS_CLIPCHILDREN ||| (_WS_SYSMENU ||| _WS_MINIMIZEBOX) |||
            _WS_CAPTION
      else
        _WS_CLIPSIBLINGS ||| _WS_CLIPCHILDREN ||| (_WS_SYSMENU ||| _WS_MINIMIZEBOX) |||
          _WS_POPUP := by
  unfold Window.getWindowStyle
  simp only [h, ne_eq, not_true_eq_false, if_false]

/-- The bits of the three windowed styles, by the two flags. -/
theorem windowedStyle_bits (d r : Bool) :
    ((if d then
        if r then
          _WS_CLIPSIBLINGS ||| _WS_CLIPCHILDREN ||| (_WS_SYSMENU ||| _WS_MINIMIZEBOX) |||
            _WS_CAPTION ||| (_WS_MAXIMIZEBOX ||| _WS_THICKFRAME)
        else
          _WS_CLIPSIBLINGS ||| _WS_CLIPCHILDREN ||| (_WS_SYSMENU ||| _WS_MINIMIZEBOX) |||
            _WS_CAPTION
      else
        _WS_CLIPSIBLINGS ||| _WS_CLIPCHILDREN ||| (_WS_SYSMENU ||| _WS_MINIMIZEBOX) |||
          _WS_POPUP) &&& _WS_CAPTION = if d then _WS_CAPTION else 0) ∧
    ((if d then
        if r then
          _WS_CLIPSIBLINGS ||| _WS_CLIPCHILDREN ||| (_WS_SYSMENU ||| _WS_MINIMIZEBOX) |||
            _WS_CAPTION ||| (_WS_MAXIMIZEBOX ||| _WS_THICKFRAME)
        else
          _WS_CLIPSIBLINGS ||| _WS_CLIPCHILDREN ||| (_WS_SYSMENU ||| _WS_MINIMIZEBOX) |||
            _WS_CAPTION
      else
        _WS_CLIPSIBLINGS ||| _WS_CLIPCHILDREN ||| (_WS_SYSMENU ||| _WS_MINIMIZEBOX) |||
          _WS_POPUP) &&& _WS_POPUP = if d then 0 else _WS_POPUP) ∧
    ((if d then
        if r then
          _WS_CLIPSIBLINGS ||| _WS_CLIPCHILDREN ||| (_WS_SYSMENU ||| _WS_MINIMIZEBOX) |||
            _WS_CAPTION ||| (_WS_MAXIMIZEBOX ||| _WS_THICKFRAME)
        else
          _WS_CLIPSIBLINGS ||| _WS_CLIPCHILDREN ||| (_WS_SYSMENU ||| _WS_MINIMIZEBOX) |||
            _WS_CAPTION
      else
        _WS_CLIPSIBLINGS ||| _WS_CLIPCHILDREN ||| (_WS_SYSMENU ||| _WS_MINIMIZEBOX) |||
          _WS_POPUP) &&& _WS_MAXIMIZEBOX = if d && r then _WS_MAXIMIZEBOX else 0) ∧
    ((if d then
        if r then
          _WS_CLIPSIBLINGS ||| _WS_CLIPCHILDREN ||| (_WS_SYSMENU ||| _WS_MINIMIZEBOX) |||
            _WS_CAPTION ||| (_WS_MAXIMIZEBOX ||| _WS_THICKFRAME)
        else
          _WS_CLIPSIBLINGS ||| _WS_CLIPCHILDREN ||| (_WS_SYSMENU ||| _WS_MINIMIZEBOX) |||
            _WS_CAPTION
      else
        _WS_CLIPSIBLINGS ||| _WS_CLIPCHILDREN ||| (_WS_SYSMENU ||| _WS_MINIMIZEBOX) |||
          _WS_POPUP) &&& _WS_THICKFRAME = if d && r then _WS_THICKFRAME else 0) ∧
    (d = false →
      (if d then
        if r then
          _WS_CLIPSIBLINGS ||| _WS_CLIPCHILDREN ||| (_WS_SYSMENU ||| _WS_MINIMIZEBOX) |||
            _WS_CAPTION ||| (_WS_MAXIMIZEBOX ||| _WS_THICKFRAME)
        else
          _WS_CLIPSIBLINGS ||| _WS_CLIPCHILDREN ||| (_WS_SYSMENU ||| _WS_MINIMIZEBOX) |||
            _WS_CAPTION
      else
        _WS_CLIPSIBLINGS ||| _WS_CLIPCHILDREN ||| (_WS_SYSMENU ||| _WS_MINIMIZEBOX) |||
          _WS_POPUP) =
      (if d then
        if !r then
          _WS_CLIPSIBLINGS ||| _WS_CLIPCHILDREN ||| (_WS_SYSMENU ||| _WS_MINIMIZEBOX) |||
            _WS_CAPTION ||| (_WS_MAXIMIZEBOX ||| _WS_THICKFRAME)
        else
          _WS_CLIPSIBLINGS ||| _WS_CLIPCHILDREN ||| (_WS_SYSMENU ||| _WS_MINIMIZEBOX) |||
            _WS_CAPTION
      else
        _WS_CLIPSIBLINGS ||| _WS_CLIPCHILDREN ||| (_WS_SYSMENU ||| _WS_MINIMIZEBOX) |||
          _WS_POPUP)) := by
  cases d <;> cases r <;> decide

/-- C6. For a window without a full-screen monitor: all caption bits are set
when it is decorated and none when it is not; the popup bit is set exactly
when it is not decorated; the maximize-box and thick-frame bits are both set
when it is decorated and resizable and neither otherwise; and the style of an
undecorated window does not depend on its resizable flag. -/
theorem getWindowStyle_windowed_bits (w : Window) (h : w.monitor = none) :
    (w.getWindowStyle &&& _WS_CAPTION = if w.decorated then _WS_CAPTION else 0) ∧
    (w.getWindowStyle &&& _WS_POPUP = if w.decorated then 0 else _WS_POPUP) ∧
    (w.getWindowStyle &&& _WS_MAXIMIZEBOX =
      if w.decorated && w.resizable then _WS_MAXIMIZEBOX else 0) ∧
    (w.getWindowStyle &&& _WS_THICKFRAME =
      if w.decorated && w.resizable then _WS_THICKFRAME else 0) ∧
    (w.decorated = false →
      w.getWindowStyle = { w with resizable := !w.resizable }.getWindowStyle) := by
  rw [getWindowStyle_windowed w h,
    getWindowStyle_windowed { w with resizable := !w.resizable } h]
  exact windowedStyle_bits w.decorated w.resizable

theorem getWindowStyle_windowed_bits_witness :
    (sampleWindow none false 16 9).monitor = none ∧
    (((sampleWindow none false 16 9).getWindowStyle &&& _WS_CAPTION =
        if (sampleWindow none false 16 9).decorated then _WS_CAPTION else 0) ∧
      ((sampleWindow none false 16 9).getWindowStyle &&& _WS_POPUP =
        if (sampleWindow none false 16 9).decorated then 0 else _WS_POPUP) ∧
      ((sampleWindow none false 16 9).getWindowStyle &&& _WS_MAXIMIZEBOX =
        if (sampleWindow none false 16 9).decorated && (sampleWindow none false 16 9).resizable
        then _WS_MAXIMIZEBOX else 0) ∧
      ((sampleWindow none false 16 9).getWindowStyle &&& _WS_THICKFRAME =
        if (sampleWindow none false 16 9).decorated && (sampleWindow none false 16 9).resizable
        then _WS_THICKFRAME else 0) ∧
      ((sampleWindow none false 16 9).decorated = false →
        (sampleWindow none false 16 9).getWindowStyle =
          { sampleWindow none false 16 9 with
            resizable := !(sampleWindow none false 16 9).resizable }.getWindowStyle)) :=
  ⟨rfl, getWindowStyle_windowed_bits (sampleWindow none false 16 9) rfl⟩

/-- C7. The extended style is exactly `_WS_EX_APPWINDOW` for a window that is
not floating and exactly `_WS_EX_APPWINDOW | _WS_EX_TOPMOST` for a floating
one; it is a function of the floating flag alone. The function returns only
this value: the window is an argument it cannot change. -/
theorem getWindowExStyle_eq (w : Window) :
    (w.getWindowExStyle =
      if w.floating then _WS_EX_APPWINDOW ||| _WS_EX_TOPMOST else _WS_EX_APPWINDOW) ∧
    (w.getWindowExStyle = if w.floating then 0x00040008 else 0x00040000) ∧
    (∀ handle monitor decorated resizable numer denom,
      ({ handle := handle, monitor := monitor, decorated := decorated, resizable := resizable,
         floating := w.floating, numer := numer, denom := denom } : Window).getWindowExStyle =
        w.getWindowExStyle) := by
  unfold Window.getWindowExStyle
  cases w.floating <;> exact ⟨rfl, by decide, fun _ _ _ _ _ _ => rfl⟩

/-! ## The aspect-ratio constraint -/

theorem wrapInt32_wrapInt32 (x : Int) : wrapInt32 (wrapInt32 x) = wrapInt32 x := by
  unfold wrapInt32; omega

theorem wrapInt32_add_left (x y : Int) : wrapInt32 (wrapInt32 x + y) = wrapInt32 (x + y) := by
  unfold wrapInt32; omega

theorem wrapInt32_sub_left (x y : Int) : wrapInt32 (wrapInt32 x - y) = wrapInt32 (x - y) := by
  unfold wrapInt32; omega

theorem wrapInt32_of_isInt32 (x : Int) (h : IsInt32 x) : wrapInt32 x = x := by
  unfold IsInt32 at h; unfold wrapInt32; omega

/-- Both sizes `getFullWindowSize` returns are `int32` values. -/
theorem getFullWindowSize_int32 (p : Platform) (style exStyle : Nat)
    (contentWidth contentHeight : Int) (dpi : Nat) :
    wrapInt32 (getFullWindowSize p style exStyle contentWidth contentHeight dpi).1 =
      (getFullWindowSize p style exStyle contentWidth contentHeight dpi).1 ∧
    wrapInt32 (getFullWindowSize p style exStyle contentWidth contentHeight dpi).2.1 =
      (getFullWindowSize p style exStyle contentWidth contentHeight dpi).2.1 := by
  unfold getFullWindowSize
  simp only
  split
  · exact ⟨rfl, rfl⟩
  · exact ⟨wrapInt32_wrapInt32 _, wrapInt32_wrapInt32 _⟩

/-- With the geometry call successful, `applyAspectRatio` reports no error and
rewrites the rectangle by the edge alone. -/
theorem applyAspectRatio_of_overhead (p : Platform) (w : Window) (edge : Int) (area : _RECT)
    (h : (w.overhead p).2.2 = none) :
    w.applyAspectRatio p edge area =
      (if edge = _WMSZ_LEFT ∨ edge = _WMSZ_BOTTOMLEFT ∨ edge = _WMSZ_RIGHT ∨
          edge = _WMSZ_BOTTOMRIGHT then
        { area with bottom := wrapInt32 (area.top + (w.overhead p).2.1 +
            Float32.toInt32 p.unrepresentable (Float32.div (Float32.ofInt
              (wrapInt32 (area.right - area.left - (w.overhead p).1))) w.ratio)) }
      else if edge = _WMSZ_TOPLEFT ∨ edge = _WMSZ_TOPRIGHT then
        { area with top := wrapInt32 (area.bottom - (w.overhead p).2.1 -
            Float32.toInt32 p.unrepresentable (Float32.div (Float32.ofInt
              (wrapInt32 (area.right - area.left - (w.overhead p).1))) w.ratio)) }
      else if edge = _WMSZ_TOP ∨ edge = _WMSZ_BOTTOM then
        { area with right := wrapInt32 (area.left + (w.overhead p).1 +
            Float32.toInt32 p.unrepresentable (Float32.mul (Float32.ofInt
              (wrapInt32 (area.bottom - area.top - (w.overhead p).2.1))) w.ratio)) }
      else area, none) := by
  have hx := (getFullWindowSize_int32 p w.getWindowStyle w.getWindowExStyle 0 0
    (if p.getDpiForWindowAvailable then p.getDpiForWindow w.handle
      else _USER_DEFAULT_SCREEN_DPI)).1
  have hy := (getFullWindowSize_int32 p w.getWindowStyle w.getWindowExStyle 0 0
    (if p.getDpiForWindowAvailable then p.getDpiForWindow w.handle
      else _USER_DEFAULT_SCREEN_DPI)).2
  unfold Window.applyAspectRatio Window.ratio
  unfold Window.overhead at h ⊢
  dsimp only
  generalize getFullWindowSize p w.getWindowStyle w.getWindowExStyle 0 0
    (if p.getDpiForWindowAvailable then p.getDpiForWindow w.handle
      else _USER_DEFAULT_SCREEN_DPI) = r at h hx hy ⊢
  obtain ⟨xoff, yoff, e⟩ := r
  simp only at h hx hy
  subst h
  simp only [hx, hy, wrapInt32_add_left, wrapInt32_sub_left]
  split_ifs <;> rfl

/-- C8, as stated, fails: single precision is not exact arithmetic. For a
window of ratio 6:5 with overhead 16 by 39, dragging the right edge of the
rectangle (0, 0, 1240, 800), whose client width is 1224, sets `bottom` to
39 + 1019, while 1224 / (6/5) = 1020 exactly: `float32(6) / float32(5)` is
rounded up to 1.2000000476837158, and the quotient of 1224 by it, just under
1020, is rounded to the `float32` 1019.99993896484375. -/
theorem applyAspectRatio_inexact :
    (sampleWindow none false 6 5).overhead samplePlatform = (16, 39, none) ∧
    (sampleWindow none false 6 5).ratio = .finite false 10066330 (-23) ∧
    Float32.div (Float32.ofInt 1224) (sampleWindow none false 6 5).ratio =
      .finite false 16711679 (-14) ∧
    ((sampleWindow none false 6 5).applyAspectRatio samplePlatform _WMSZ_RIGHT
      (rectAtOrigin 1240 800)).1 = rectAtOrigin 1240 1058 ∧
    exactAspectRect (sampleWindow none false 6 5) 16 39 _WMSZ_RIGHT (rectAtOrigin 1240 800) =
      rectAtOrigin 1240 1059 :=
  ⟨by rfl, by rfl, by rfl, by rfl, by rfl⟩

/-- C8, amended. With the overhead obtained from `getFullWindowSize` at zero
client size and `ratio` the single-precision quotient
`float32(numer) / float32(denom)`: for the edges left, bottom-left, right,
bottom-right, `bottom` becomes `top + overheadHeight + q`; for top-left and
top-right, `top` becomes `bottom - overheadHeight - q`, where `q` is the
single-precision quotient of the client width `right - left - overheadWidth`
by `ratio`, truncated toward zero; for top and bottom, `right` becomes
`left + overheadWidth` plus the single-precision product of the client height
`bottom - top - overheadHeight` and `ratio`, truncated toward zero. The integer
sums are `int32` sums. -/
theorem applyAspectRatio_single_precision (p : Platform) (w : Window) (edge : Int)
    (area : _RECT) (h : (w.overhead p).2.2 = none) :
    ((edge = _WMSZ_LEFT ∨ edge = _WMSZ_BOTTOMLEFT ∨ edge = _WMSZ_RIGHT ∨
        edge = _WMSZ_BOTTOMRIGHT) →
      (w.applyAspectRatio p edge area).1.bottom =
        wrapInt32 (area.top + (w.overhead p).2.1 +
          Float32.toInt32 p.unrepresentable (Float32.div (Float32.ofInt
            (wrapInt32 (area.right - area.left - (w.overhead p).1))) w.ratio))) ∧
    ((edge = _WMSZ_TOPLEFT ∨ edge = _WMSZ_TOPRIGHT) →
      (w.applyAspectRatio p edge area).1.top =
        wrapInt32 (area.bottom - (w.overhead p).2.1 -
          Float32.toInt32 p.unrepresentable (Float32.div (Float32.ofInt
            (wrapInt32 (area.right - area.left - (w.overhead p).1))) w.ratio))) ∧
    ((edge = _WMSZ_TOP ∨ edge = _WMSZ_BOTTOM) →
      (w.applyAspectRatio p edge area).1.right =
        wrapInt32 (area.left + (w.overhead p).1 +
          Float32.toInt32 p.unrepresentable (Float32.mul (Float32.ofInt
            (wrapInt32 (area.bottom - area.top - (w.overhead p).2.1))) w.ratio))) := by
  rw [applyAspectRatio_of_overhead p w edge area h]
  refine ⟨?_, ?_, ?_⟩
  · intro he
    rw [if_pos he]
  · intro he
    rcases he with rfl | rfl <;> rfl
  · intro he
    rcases he with rfl | rfl <;> rfl

theorem applyAspectRatio_single_precision_witness :
    ((sampleWindow none false 16 9).overhead samplePlatform).2.2 = none ∧
    (((_WMSZ_RIGHT = _WMSZ_LEFT ∨ _WMSZ_RIGHT = _WMSZ_BOTTOMLEFT ∨ _WMSZ_RIGHT = _WMSZ_RIGHT ∨
        _WMSZ_RIGHT = _WMSZ_BOTTOMRIGHT) →
      ((sampleWindow none false 16 9).applyAspectRatio samplePlatform _WMSZ_RIGHT
          (rectAtOrigin 1616 1000)).1.bottom =
        wrapInt32 ((rectAtOrigin 1616 1000).top +
          ((sampleWindow none false 16 9).overhead samplePlatform).2.1 +
          Float32.toInt32 samplePlatform.unrepresentable (Float32.div (Float32.ofInt
            (wrapInt32 ((rectAtOrigin 1616 1000).right - (rectAtOrigin 1616 1000).left -
              ((sampleWindow none false 16 9).overhead samplePlatform).1)))
            (sampleWindow none false 16 9).ratio))) ∧
    ((_WMSZ_RIGHT = _WMSZ_TOPLEFT ∨ _WMSZ_RIGHT = _WMSZ_TOPRIGHT) →
      ((sampleWindow none false 16 9).applyAspectRatio samplePlatform _WMSZ_RIGHT
          (rectAtOrigin 1616 1000)).1.top =
        wrapInt32 ((rectAtOrigin 1616 1000).bottom -
          ((sampleWindow none false 16 9).overhead samplePlatform).2.1 -
          Float32.toInt32 samplePlatform.unrepresentable (Float32.div (Float32.ofInt
            (wrapInt32 ((rectAtOrigin 1616 1000).right - (rectAtOrigin 1616 1000).left -
              ((sampleWindow none false 16 9).overhead samplePlatform).1)))
            (sampleWindow none false 16 9).ratio))) ∧
    ((_WMSZ_RIGHT = _WMSZ_TOP ∨ _WMSZ_RIGHT = _WMSZ_BOTTOM) →
      ((sampleWindow none false 16 9).applyAspectRatio samplePlatform _WMSZ_RIGHT
          (rectAtOrigin 1616 1000)).1.right =
        wrapInt32 ((rectAtOrigin 1616 1000).left +
          ((sampleWindow none false 16 9).overhead samplePlatform).1 +
          Float32.toInt32 samplePlatform.unrepresentable (Float32.mul (Float32.ofInt
            (wrapInt32 ((rectAtOrigin 1616 1000).bottom - (rectAtOrigin 1616 1000).top -
              ((sampleWindow none false 16 9).overhead samplePlatform).2.1)))
            (sampleWindow none false 16 9).ratio)))) :=
  ⟨by rfl, applyAspectRatio_single_precision samplePlatform (sampleWindow none false 16 9)
    _WMSZ_RIGHT (rectAtOrigin 1616 1000) (by rfl)⟩

/-- C9. When the geometry call succeeds, `applyAspectRatio` reports no error and
changes at most one coordinate: only `bottom` for the edges left, bottom-left,
right, bottom-right; only `top` for top-left and top-right; only `right` for
top and bottom; never `left`; and for any other edge identifier the rectangle
is returned as proposed. -/
theorem applyAspectRatio_one_coordinate (p : Platform) (w : Window) (edge : Int)
    (area : _RECT) (h : (w.overhead p).2.2 = none) :
    (w.applyAspectRatio p edge area).2 = none ∧
    (w.applyAspectRatio p edge area).1.left = area.left ∧
    ((edge = _WMSZ_LEFT ∨ edge = _WMSZ_BOTTOMLEFT ∨ edge = _WMSZ_RIGHT ∨
        edge = _WMSZ_BOTTOMRIGHT) →
      (w.applyAspectRatio p edge area).1.top = area.top ∧
      (w.applyAspectRatio p edge area).1.right = area.right) ∧
    ((edge = _WMSZ_TOPLEFT ∨ edge = _WMSZ_TOPRIGHT) →
      (w.applyAspectRatio p edge area).1.right = area.right ∧
      (w.applyAspectRatio p edge area).1.bottom = area.bottom) ∧
    ((edge = _WMSZ_TOP ∨ edge = _WMSZ_BOTTOM) →
      (w.applyAspectRatio p edge area).1.top = area.top ∧
      (w.applyAspectRatio p edge area).1.bottom = area.bottom) ∧
    (edge ≠ _WMSZ_LEFT → edge ≠ _WMSZ_BOTTOMLEFT → edge ≠ _WMSZ_RIGHT →
      edge ≠ _WMSZ_BOTTOMRIGHT → edge ≠ _WMSZ_TOPLEFT → edge ≠ _WMSZ_TOPRIGHT →
      edge ≠ _WMSZ_TOP → edge ≠ _WMSZ_BOTTOM →
      (w.applyAspectRatio p edge area).1 = area) := by
  rw [applyAspectRatio_of_overhead p w edge area h]
  refine ⟨rfl, ?_, ?_, ?_, ?_, ?_⟩
  · simp only
    split_ifs <;> rfl
  · intro he
    rw [if_pos he]
    exact ⟨rfl, rfl⟩
  · intro he
    rcases he with rfl | rfl <;> exact ⟨rfl, rfl⟩
  · intro he
    rcases he with rfl | rfl <;> exact ⟨rfl, rfl⟩
  · intro h1 h2 h3 h4 h5 h6 h7 h8
    simp only [h1, h2, h3, h4, h5, h6, h7, h8, or_self, if_false]

theorem applyAspectRatio_one_coordinate_witness :
    ((sampleWindow none false 16 9).overhead samplePlatform).2.2 = none ∧
    (((sampleWindow none false 16 9).applyAspectRatio samplePlatform _WMSZ_TOPLEFT
        (rectAtOrigin 1616 1000)).2 = none ∧
      ((sampleWindow none false 16 9).applyAspectRatio samplePlatform _WMSZ_TOPLEFT
        (rectAtOrigin 1616 1000)).1.left = (rectAtOrigin 1616 1000).left ∧
      ((_WMSZ_TOPLEFT = _WMSZ_LEFT ∨ _WMSZ_TOPLEFT = _WMSZ_BOTTOMLEFT ∨
          _WMSZ_TOPLEFT = _WMSZ_RIGHT ∨ _WMSZ_TOPLEFT = _WMSZ_BOTTOMRIGHT) →
        ((sampleWindow none false 16 9).applyAspectRatio samplePlatform _WMSZ_TOPLEFT
          (rectAtOrigin 1616 1000)).1.top = (rectAtOrigin 1616 1000).top ∧
        ((sampleWindow none false 16 9).applyAspectRatio samplePlatform _WMSZ_TOPLEFT
          (rectAtOrigin 1616 1000)).1.right = (rectAtOrigin 1616 1000).right) ∧
      ((_WMSZ_TOPLEFT = _WMSZ_TOPLEFT ∨ _WMSZ_TOPLEFT = _WMSZ_TOPRIGHT) →
        ((sampleWindow none false 16 9).applyAspectRatio samplePlatform _WMSZ_TOPLEFT
          (rectAtOrigin 1616 1000)).1.right = (rectAtOrigin 1616 1000).right ∧
        ((sampleWindow none false 16 9).applyAspectRatio samplePlatform _WMSZ_TOPLEFT
          (rectAtOrigin 1616 1000)).1.bottom = (rectAtOrigin 1616 1000).bottom) ∧
      ((_WMSZ_TOPLEFT = _WMSZ_TOP ∨ _WMSZ_TOPLEFT = _WMSZ_BOTTOM) →
        ((sampleWindow none false 16 9).applyAspectRatio samplePlatform _WMSZ_TOPLEFT
          (rectAtOrigin 1616 1000)).1.top = (rectAtOrigin 1616 1000).top ∧
        ((sampleWindow none false 16 9).applyAspectRatio samplePlatform _WMSZ_TOPLEFT
          (rectAtOrigin 1616 1000)).1.bottom = (rectAtOrigin 1616 1000).bottom) ∧
      (_WMSZ_TOPLEFT ≠ _WMSZ_LEFT → _WMSZ_TOPLEFT ≠ _WMSZ_BOTTOMLEFT →
        _WMSZ_TOPLEFT ≠ _WMSZ_RIGHT → _WMSZ_TOPLEFT ≠ _WMSZ_BOTTOMRIGHT →
        _WMSZ_TOPLEFT ≠ _WMSZ_TOPLEFT → _WMSZ_TOPLEFT ≠ _WMSZ_TOPRIGHT →
        _WMSZ_TOPLEFT ≠ _WMSZ_TOP → _WMSZ_TOPLEFT ≠ _WMSZ_BOTTOM →
        ((sampleWindow none false 16 9).applyAspectRatio samplePlatform _WMSZ_TOPLEFT
          (rectAtOrigin 1616 1000)).1 = rectAtOrigin 1616 1000)) :=
  ⟨by rfl, applyAspectRatio_one_coordinate samplePlatform (sampleWindow none false 16 9)
    _WMSZ_TOPLEFT (rectAtOrigin 1616 1000) (by rfl)⟩

/-- The quotient of 1600 by the single-precision 16/9 truncates to 900, and the
product of 900 and the single-precision 16/9 truncates to 1600. -/
theorem ratio_16_9 (u : Float32 → Int) :
    Float32.toInt32 u (Float32.div (Float32.ofInt 1600)
      (Float32.div (Float32.ofInt 16) (Float32.ofInt 9))) = 900 ∧
    Float32.toInt32 u (Float32.mul (Float32.ofInt 900)
      (Float32.div (Float32.ofInt 16) (Float32.ofInt 9))) = 1600 :=
  ⟨by rfl, by rfl⟩

/-- C10, as stated, fails: dragging the bottom edge rewrites `right`, not
`bottom`. For a 16:9 window with overhead 16 by 39 and the proposed rectangle
(0, 0, 1616, 1039), of client width 1600 and client height 1000, the result is
(0, 0, 1793, 1039): the height stays 1039, not 900 + 39, and the width changes. -/
theorem applyAspectRatio_bottom_edge_keeps_height :
    (sampleWindow none false 16 9).overhead samplePlatform = (16, 39, none) ∧
    (rectAtOrigin 1616 1039).right - (rectAtOrigin 1616 1039).left - 16 = 1600 ∧
    ((sampleWindow none false 16 9).applyAspectRatio samplePlatform _WMSZ_BOTTOM
      (rectAtOrigin 1616 1039)).1 = rectAtOrigin 1793 1039 ∧
    ((sampleWindow none false 16 9).applyAspectRatio samplePlatform _WMSZ_BOTTOM
        (rectAtOrigin 1616 1039)).1.bottom -
      ((sampleWindow none false 16 9).applyAspectRatio samplePlatform _WMSZ_BOTTOM
        (rectAtOrigin 1616 1039)).1.top ≠ 900 + 39 ∧
    ((sampleWindow none false 16 9).applyAspectRatio samplePlatform _WMSZ_BOTTOM
      (rectAtOrigin 1616 1039)).1.right ≠ (rectAtOrigin 1616 1039).right :=
  ⟨by rfl, by rfl, by rfl, by decide, by decide⟩

/-- C10, amended. For a window of ratio 16:9 whose geometry call succeeds:
when the right edge is dragged with a proposed client width of 1600 the
height `bottom - top` becomes 900 plus the overhead height (as long as that
bottom is an `int32`) with `left`, `top` and `right` as proposed; when the
bottom edge is dragged with a proposed client height of 900 the width
`right - left` becomes 1600 plus the overhead width (as long as that right is
an `int32`) with `left`, `top` and `bottom` as proposed. -/
theorem applyAspectRatio_16_9 (p : Platform) (w : Window) (area : _RECT)
    (hn : w.numer = 16) (hd : w.denom = 9) (h : (w.overhead p).2.2 = none) :
    (wrapInt32 (area.right - area.left - (w.overhead p).1) = 1600 →
      IsInt32 (area.top + (w.overhead p).2.1 + 900) →
      (w.applyAspectRatio p _WMSZ_RIGHT area).1.bottom -
          (w.applyAspectRatio p _WMSZ_RIGHT area).1.top = 900 + (w.overhead p).2.1 ∧
        (w.applyAspectRatio p _WMSZ_RIGHT area).1.left = area.left ∧
        (w.applyAspectRatio p _WMSZ_RIGHT area).1.top = area.top ∧
        (w.applyAspectRatio p _WMSZ_RIGHT area).1.right = area.right) ∧
    (wrapInt32 (area.bottom - area.top - (w.overhead p).2.1) = 900 →
      IsInt32 (area.left + (w.overhead p).1 + 1600) →
      (w.applyAspectRatio p _WMSZ_BOTTOM area).1.right -
          (w.applyAspectRatio p _WMSZ_BOTTOM area).1.left = 1600 + (w.overhead p).1 ∧
        (w.applyAspectRatio p _WMSZ_BOTTOM area).1.left = area.left ∧
        (w.applyAspectRatio p _WMSZ_BOTTOM area).1.top = area.top ∧
        (w.applyAspectRatio p _WMSZ_BOTTOM area).1.bottom = area.bottom) := by
  have hr : w.ratio = Float32.div (Float32.ofInt 16) (Float32.ofInt 9) := by
    unfold Window.ratio; rw [hn, hd]
  constructor
  · intro hw hfit
    have hb : (w.applyAspectRatio p _WMSZ_RIGHT area).1 =
        { area with bottom := wrapInt32 (area.top + (w.overhead p).2.1 + 900) } := by
      rw [applyAspectRatio_of_overhead p w _WMSZ_RIGHT area h, hw, hr, (ratio_16_9 _).1]
      rfl
    rw [hb, wrapInt32_of_isInt32 _ hfit]
    refine ⟨?_, rfl, rfl, rfl⟩
    simp only
    omega
  · intro hh hfit
    have hb : (w.applyAspectRatio p _WMSZ_BOTTOM area).1 =
        { area with right := wrapInt32 (area.left + (w.overhead p).1 + 1600) } := by
      rw [applyAspectRatio_of_overhead p w _WMSZ_BOTTOM area h, hh, hr, (ratio_16_9 _).2]
      rfl
    rw [hb, wrapInt32_of_isInt32 _ hfit]
    refine ⟨?_, rfl, rfl, rfl⟩
    simp only
    omega

theorem applyAspectRatio_16_9_witness :
    (sampleWindow none false 16 9).numer = 16 ∧ (sampleWindow none false 16 9).denom = 9 ∧
    ((sampleWindow none false 16 9).overhead samplePlatform).2.2 = none ∧
    wrapInt32 ((rectAtOrigin 1616 1039).right - (rectAtOrigin 1616 1039).left -
      ((sampleWindow none false 16 9).overhead samplePlatform).1) = 1600 ∧
    IsInt32 ((rectAtOrigin 1616 1039).top +
      ((sampleWindow none false 16 9).overhead samplePlatform).2.1 + 900) ∧
    ((sampleWindow none false 16 9).applyAspectRatio samplePlatform _WMSZ_RIGHT
          (rectAtOrigin 1616 1039)).1.bottom -
        ((sampleWindow none false 16 9).applyAspectRatio samplePlatform _WMSZ_RIGHT
          (rectAtOrigin 1616 1039)).1.top =
      900 + ((sampleWindow none false 16 9).overhead samplePlatform).2.1 ∧
    ((sampleWindow none false 16 9).applyAspectRatio samplePlatform _WMSZ_RIGHT
      (rectAtOrigin 1616 1039)).1.left = (rectAtOrigin 1616 1039).left ∧
    ((sampleWindow none false 16 9).applyAspectRatio samplePlatform _WMSZ_RIGHT
      (rectAtOrigin 1616 1039)).1.top = (rectAtOrigin 1616 1039).top ∧
    ((sampleWindow none false 16 9).applyAspectRatio samplePlatform _WMSZ_RIGHT
      (rectAtOrigin 1616 1039)).1.right = (rectAtOrigin 1616 1039).right :=
  ⟨rfl, rfl, by rfl, by rfl, by decide,
    (applyAspectRatio_16_9 samplePlatform (sampleWindow none false 16 9)
      (rectAtOrigin 1616 1039) rfl rfl (by rfl)).1 (by rfl) (by decide)⟩

/-- With the geometry call failing, `applyAspectRatio` returns that error and
leaves the rectangle as proposed. -/
theorem applyAspectRatio_of_error (p : Platform) (w : Window) (edge : Int) (area : _RECT)
    (err : Error) (h : (w.overhead p).2.2 = some err) :
    w.applyAspectRatio p edge area = (area, some err) := by
  unfold Window.applyAspectRatio
  unfold Window.overhead at h
  dsimp only
  generalize getFullWindowSize p w.getWindowStyle w.getWindowExStyle 0 0
    (if p.getDpiForWindowAvailable then p.getDpiForWindow w.handle
      else _USER_DEFAULT_SCREEN_DPI) = r at h ⊢
  obtain ⟨xoff, yoff, e⟩ := r
  simp only at h
  subst h
  rfl

/-- C11, as stated, fails: `applyAspectRatio` does not look at whether the
ratio is unconstrained. For a window whose `numer` and `denom` are both `-1`
(the don't-care value of GLFW) with overhead 16 by 39, dragging the right edge
of the rectangle (0, 0, 1240, 800) sets `bottom` to 39 + 1224: the ratio is
`float32(-1) / float32(-1) = 1`. With only the denominator unset (16 and `-1`)
the ratio is -16 and `bottom` becomes 39 - 76. -/
theorem applyAspectRatio_unconstrained_rewrites :
    (sampleWindow none false (-1) (-1)).ratio = .finite false 8388608 (-23) ∧
    ((sampleWindow none false (-1) (-1)).applyAspectRatio samplePlatform _WMSZ_RIGHT
      (rectAtOrigin 1240 800)).1 = rectAtOrigin 1240 1263 ∧
    ((sampleWindow none false (-1) (-1)).applyAspectRatio samplePlatform _WMSZ_RIGHT
      (rectAtOrigin 1240 800)).1 ≠ rectAtOrigin 1240 800 ∧
    ((sampleWindow none false 16 (-1)).applyAspectRatio samplePlatform _WMSZ_RIGHT
      (rectAtOrigin 1240 800)).1 = rectAtOrigin 1240 (-37) :=
  ⟨by rfl, by rfl, by decide, by rfl⟩

/-- C11, amended. `applyAspectRatio` has no test for an unconstrained ratio:
for every window, whatever `numer` and `denom` hold, a failing geometry call
leaves the rectangle as proposed and is reported, and a successful one is
followed by the rewriting of `bottom` (edges left, bottom-left, right,
bottom-right), of `top` (top-left, top-right) or of `right` (top, bottom) with
`ratio = float32(numer) / float32(denom)`, any other edge identifier leaving
the rectangle as proposed; so a window whose `numer` and `denom` are both `-1`
is adjusted exactly as a window of ratio 1:1. -/
theorem applyAspectRatio_no_unconstrained_test (p : Platform) (w : Window) (edge : Int)
    (area : _RECT) :
    (∀ err, (w.overhead p).2.2 = some err → w.applyAspectRatio p edge area = (area, some err)) ∧
    ((w.overhead p).2.2 = none →
      w.applyAspectRatio p edge area =
        (if edge = _WMSZ_LEFT ∨ edge = _WMSZ_BOTTOMLEFT ∨ edge = _WMSZ_RIGHT ∨
            edge = _WMSZ_BOTTOMRIGHT then
          { area with bottom := wrapInt32 (area.top + (w.overhead p).2.1 +
              Float32.toInt32 p.unrepresentable (Float32.div (Float32.ofInt
                (wrapInt32 (area.right - area.left - (w.overhead p).1)))
                (Float32.div (Float32.ofInt w.numer) (Float32.ofInt w.denom)))) }
        else if edge = _WMSZ_TOPLEFT ∨ edge = _WMSZ_TOPRIGHT then
          { area with top := wrapInt32 (area.bottom - (w.overhead p).2.1 -
              Float32.toInt32 p.unrepresentable (Float32.div (Float32.ofInt
                (wrapInt32 (area.right - area.left - (w.overhead p).1)))
                (Float32.div (Float32.ofInt w.numer) (Float32.ofInt w.denom)))) }
        else if edge = _WMSZ_TOP ∨ edge = _WMSZ_BOTTOM then
          { area with right := wrapInt32 (area.left + (w.overhead p).1 +
              Float32.toInt32 p.unrepresentable (Float32.mul (Float32.ofInt
                (wrapInt32 (area.bottom - area.top - (w.overhead p).2.1)))
                (Float32.div (Float32.ofInt w.numer) (Float32.ofInt w.denom)))) }
        else area, none)) ∧
    (w.numer = -1 → w.denom = -1 →
      w.applyAspectRatio p edge area =
        { w with numer := 1, denom := 1 }.applyAspectRatio p edge area) := by
  refine ⟨fun err h => applyAspectRatio_of_error p w edge area err h, ?_, ?_⟩
  · intro h
    exact applyAspectRatio_of_overhead p w edge area h
  · intro hn hd
    unfold Window.applyAspectRatio
    rw [hn, hd]
    rfl

theorem applyAspectRatio_no_unconstrained_test_witness :
    ((sampleWindow none false (-1) (-1)).overhead samplePlatform).2.2 = none ∧
    (sampleWindow none false (-1) (-1)).numer = -1 ∧
    (sampleWindow none false (-1) (-1)).denom = -1 ∧
    (sampleWindow none false (-1) (-1)).applyAspectRatio samplePlatform _WMSZ_RIGHT
      (rectAtOrigin 1240 800) = (rectAtOrigin 1240 1263, none) ∧
    (sampleWindow none false (-1) (-1)).applyAspectRatio samplePlatform _WMSZ_RIGHT
        (rectAtOrigin 1240 800) =
      { sampleWindow none false (-1) (-1) with numer := 1, denom := 1 }.applyAspectRatio
        samplePlatform _WMSZ_RIGHT (rectAtOrigin 1240 800) :=
  ⟨by rfl, by rfl, by rfl,
    ((applyAspectRatio_no_unconstrained_test samplePlatform (sampleWindow none false (-1) (-1))
      _WMSZ_RIGHT (rectAtOrigin 1240 800)).2.1 (by rfl)).trans (by rfl),
    (applyAspectRatio_no_unconstrained_test samplePlatform (sampleWindow none false (-1) (-1))
      _WMSZ_RIGHT (rectAtOrigin 1240 800)).2.2 (by rfl) (by rfl)⟩

/-- With the geometry call failing nothing is rewritten, also for a window of
unset ratio: the rectangle comes back as proposed, with the error. -/
theorem applyAspectRatio_unconstrained_error :
    (sampleWindow none false (-1) (-1)).applyAspectRatio failingPlatform _WMSZ_RIGHT
      (rectAtOrigin 1240 800) =
        (rectAtOrigin 1240 800, some "glfwwin: AdjustWindowRectExForDpi failed") := by
  rfl

/-! ## The full window size -/

/-- C12. For a client size representable in 32 bits `getFullWindowSize` hands
the rectangle (0, 0, contentWidth, contentHeight) to one adjustment, the
DPI-aware one with the given DPI when it is available and the other one
otherwise, and nothing else of the platform enters the result: a success
yields the `int32` differences `right - left` and `bottom - top` of the
adjusted rectangle and no error, a failure yields that error with sizes 0, 0. -/
theorem getFullWindowSize_one_adjustment (p : Platform) (style exStyle : Nat)
    (contentWidth contentHeight : Int) (dpi : Nat)
    (hw : IsInt32 contentWidth) (hh : IsInt32 contentHeight) :
    getFullWindowSize p style exStyle contentWidth contentHeight dpi =
      match (if p.adjustWindowRectExForDpiAvailable then
          p.adjustWindowRectExForDpi
            { left := 0, top := 0, right := contentWidth, bottom := contentHeight }
            style false exStyle dpi
        else
          p.adjustWindowRectEx
            { left := 0, top := 0, right := contentWidth, bottom := contentHeight }
            style false exStyle) with
      | .ok rect =>
        (wrapInt32 (rect.right - rect.left), wrapInt32 (rect.bottom - rect.top), none)
      | .error err => (0, 0, some err) := by
  unfold getFullWindowSize
  rw [wrapInt32_of_isInt32 _ hw, wrapInt32_of_isInt32 _ hh]
  dsimp only
  split <;> split <;> simp_all

theorem getFullWindowSize_one_adjustment_witness :
    IsInt32 1600 ∧ IsInt32 900 ∧
    getFullWindowSize samplePlatform 0x86000000 0x00040000 1600 900 96 =
      match (if samplePlatform.adjustWindowRectExForDpiAvailable then
          samplePlatform.adjustWindowRectExForDpi
            { left := 0, top := 0, right := 1600, bottom := 900 }
            0x86000000 false 0x00040000 96
        else
          samplePlatform.adjustWindowRectEx
            { left := 0, top := 0, right := 1600, bottom := 900 }
            0x86000000 false 0x00040000) with
      | .ok rect =>
        (wrapInt32 (rect.right - rect.left), wrapInt32 (rect.bottom - rect.top), none)
      | .error err => (0, 0, some err) :=
  ⟨by decide, by decide,
    getFullWindowSize_one_adjustment samplePlatform 0x86000000 0x00040000 1600 900 96
      (by decide) (by decide)⟩

/-- The worked example of the full window size: client 1600 by 900 with the
frame of 16 by 39 gives 1616 by 939; a failing adjustment gives its error and
sizes 0, 0. -/
theorem getFullWindowSize_1600x900 :
    getFullWindowSize samplePlatform 0x86000000 0x00040000 1600 900 96 = (1616, 939, none) ∧
    getFullWindowSize failingPlatform 0x86000000 0x00040000 1600 900 96 =
      (0, 0, some "glfwwin: AdjustWindowRectExForDpi failed") :=
  ⟨by rfl, by rfl⟩

/-! ## Nearest image -/

/-- Loop invariant of `chooseImage`: once a candidate is held, the loop ends
holding the first candidate of least difference. -/
theorem foldl_chooseImageStep_best (a : Arch) (width height : Int)
    (l pre : List Image) (r : Image) (mid : List Image)
    (hpre : ∀ x ∈ pre, currDiff a width height r < currDiff a width height x)
    (hmid : ∀ x ∈ mid, currDiff a width height r ≤ currDiff a width height x) :
    ∃ pre' r' post', pre ++ r :: mid ++ l = pre' ++ r' :: post' ∧
      (l.foldl (chooseImageStep a width height) (some r, currDiff a width height r)).1 =
        some r' ∧
      currDiff a width height r' ≤ currDiff a width height r ∧
      (∀ x ∈ pre', currDiff a width height r' < currDiff a width height x) ∧
      (∀ x ∈ post', currDiff a width height r' ≤ currDiff a width height x) := by
  induction l generalizing pre r mid with
  | nil => exact ⟨pre, r, mid, by simp, rfl, le_refl _, hpre, hmid⟩
  | cons v l ih =>
    rw [List.foldl_cons]
    unfold chooseImageStep
    dsimp only
    by_cases hlt : currDiff a width height v < currDiff a width height r
    · rw [if_pos hlt]
      obtain ⟨pre', r', post', heq, hcl, hle, h1, h2⟩ := ih (pre ++ r :: mid) v [] (by
        intro x hx
        rcases List.mem_append.1 hx with hx | hx
        · have := hpre x hx
          omega
        · rcases List.mem_cons.1 hx with hx | hx
          · subst hx; exact hlt
          · have := hmid x hx
            omega) (by simp)
      exact ⟨pre', r', post', by rw [← heq]; simp, hcl, by omega, h1, h2⟩
    · rw [if_neg hlt]
      obtain ⟨pre', r', post', heq, hcl, hle, h1, h2⟩ := ih pre r (mid ++ [v]) hpre (by
        intro x hx
        rcases List.mem_append.1 hx with hx | hx
        · exact hmid x hx
        · rw [List.mem_singleton] at hx; subst hx; omega)
      exact ⟨pre', r', post', by rw [← heq]; simp, hcl, hle, h1, h2⟩

/-- From the initial `leastDiff = math.MaxUint32` the loop of `chooseImage`
passes over every candidate whose difference is not below that value. -/
theorem foldl_chooseImageStep_init (a : Arch) (width height : Int)
    (l skipped : List Image)
    (hskip : ∀ x ∈ skipped, MaxUint32 ≤ currDiff a width height x) :
    ((∀ x ∈ l, MaxUint32 ≤ currDiff a width height x) ∧
      (l.foldl (chooseImageStep a width height) (none, MaxUint32)).1 = none) ∨
    ∃ pre r post, skipped ++ l = pre ++ r :: post ∧
      (l.foldl (chooseImageStep a width height) (none, MaxUint32)).1 = some r ∧
      currDiff a width height r < MaxUint32 ∧
      (∀ x ∈ pre, currDiff a width height r < currDiff a width height x) ∧
      (∀ x ∈ post, currDiff a width height r ≤ currDiff a width height x) := by
  induction l generalizing skipped with
  | nil => exact Or.inl ⟨by simp, rfl⟩
  | cons v l ih =>
    rw [List.foldl_cons]
    unfold chooseImageStep
    dsimp only
    by_cases hlt : currDiff a width height v < MaxUint32
    · rw [if_pos hlt]
      right
      obtain ⟨pre', r', post', heq, hcl, hle, h1, h2⟩ :=
        foldl_chooseImageStep_best a width height l skipped v [] (by
          intro x hx
          have := hskip x hx
          omega) (by simp)
      exact ⟨pre', r', post', by rw [← heq]; simp, hcl, by omega, h1, h2⟩
    · rw [if_neg hlt]
      rcases ih (skipped ++ [v]) (by
        intro x hx
        rcases List.mem_append.1 hx with hx | hx
        · exact hskip x hx
        · rw [List.mem_singleton] at hx; subst hx; omega) with ⟨hall, hnone⟩ | h
      · left
        refine ⟨?_, hnone⟩
        intro x hx
        rcases List.mem_cons.1 hx with hx | hx
        · subst hx; omega
        · exact hall x hx
      · right
        obtain ⟨pre', r', post', heq, hcl, hle, h1, h2⟩ := h
        exact ⟨pre', r', post', by rw [← heq]; simp, hcl, hle, h1, h2⟩

/-- Where some candidate's difference is below `math.MaxUint32`, `chooseImage`
returns the first candidate of least difference: no candidate has a smaller
difference and no earlier candidate an equal one. -/
theorem chooseImage_first_least (a : Arch) (images : List Image) (width height : Int)
    (h : ∃ x ∈ images, currDiff a width height x < MaxUint32) :
    ∃ pre r post, images = pre ++ r :: post ∧
      chooseImage a images width height = some r ∧
      (∀ x ∈ pre, currDiff a width height r < currDiff a width height x) ∧
      (∀ x ∈ post, currDiff a width height r ≤ currDiff a width height x) := by
  rcases foldl_chooseImageStep_init a width height images [] (by simp) with ⟨hall, _⟩ | h'
  · obtain ⟨x, hx, hlt⟩ := h
    have := hall x hx
    omega
  · obtain ⟨pre, r, post, heq, hcl, _, h1, h2⟩ := h'
    exact ⟨pre, r, post, by simpa using heq, hcl, h1, h2⟩

/-- Where `int` has 32 bits every difference is below `math.MaxUint32`. -/
theorem currDiff_lt_bits32 (width height : Int) (image : Image) :
    currDiff .bits32 width height image < MaxUint32 := by
  have h := abs_le .bits32 _ (wrapInt_isInt .bits32
    (wrapInt .bits32 (image.Width * image.Height) - wrapInt .bits32 (width * height)))
  unfold currDiff MaxUint32
  simp only [Arch.uintBits] at h
  omega

/-- Where no candidate's difference is below `math.MaxUint32`, `chooseImage`
returns nil. -/
theorem chooseImage_none (a : Arch) (images : List Image) (width height : Int)
    (h : ∀ x ∈ images, MaxUint32 ≤ currDiff a width height x) :
    chooseImage a images width height = none := by
  rcases foldl_chooseImageStep_init a width height images [] (by simp) with
    ⟨_, hnone⟩ | ⟨pre, r, post, heq, _, hlt, _, _⟩
  · exact hnone
  · have hr : r ∈ images := by
      have : r ∈ [] ++ images := by rw [heq]; simp
      simpa using this
    have := h r hr
    omega

/-- C13, at a failing input. With 64-bit `int`, a single 16 by 16 candidate and
the target 65536 by 65537: the area difference 4295032576 is not below the
initial `leastDiff = math.MaxUint32 = 4294967295`, so no candidate is taken and
`chooseImage` returns nil for a non-empty list. The worked tie (areas 90 and
110 against 100) returns the first candidate. -/
theorem chooseImage_returns_nil :
    currDiff .bits64 65536 65537 (blankImage 16 16) = 4295032576 ∧
    chooseImage .bits64 [blankImage 16 16] 65536 65537 = none ∧
    chooseImage .bits64 [blankImage 9 10, blankImage 11 10] 10 10 = some (blankImage 9 10) ∧
    chooseImage .bits64 [blankImage 11 10, blankImage 9 10] 10 10 = some (blankImage 11 10) :=
  ⟨by rfl, by rfl, by rfl, by rfl⟩

/-! ## Icon creation -/

/-- An iteration of the copy loop whose last write falls outside a slice of
non-negative length ends in a panic, whatever the bytes. -/
theorem copyPixel_panics (a : Arch) (source : List Nat) (len : Int) (bits : List Nat) (i : Nat)
    (h0 : 0 ≤ len) (h : len ≤ 4 * i + 3) (hfit : 4 * (i : Int) + 3 < 2 ^ a.uintBits) :
    ∃ p, copyPixel a source len bits i = .error p := by
  unfold copyPixel
  repeat' (split <;> try exact ⟨_, rfl⟩)
  unfold storeByte
  rw [if_neg (by cases a <;> simp only [wrapUint, Arch.uintBits] at * <;> omega)]
  exact ⟨_, rfl⟩

/-- The copy loop ends in a panic as soon as one of its iterations has its last
write outside the slice. -/
theorem copyPixelsFrom_panics (a : Arch) (source : List Nat) (len : Int) (is : List Nat)
    (bits : List Nat) (h0 : 0 ≤ len)
    (h : ∃ i ∈ is, len ≤ 4 * (i : Int) + 3 ∧ 4 * (i : Int) + 3 < 2 ^ a.uintBits) :
    ∃ p, copyPixelsFrom a source len bits is = .error p := by
  induction is generalizing bits with
  | nil => obtain ⟨i, hi, _⟩ := h; exact absurd hi (List.not_mem_nil i)
  | cons j js ih =>
    unfold copyPixelsFrom
    split
    · exact ⟨_, rfl⟩
    · rename_i bits' hok
      obtain ⟨i, hi, hle, hfit⟩ := h
      rcases List.mem_cons.1 hi with rfl | hi
      · obtain ⟨p, hp⟩ := copyPixel_panics a source len bits i h0 hle hfit
        rw [hp] at hok
        exact Except.noConfusion hok
      · exact ih bits' ⟨i, hi, hle, hfit⟩

/-- For a slice header of a length `len` that is an `int`, not negative and at
most `4 * (len(source)/4) - 1`, and a source of at least four bytes, the copy
loop ends in a panic: the iteration `len / 4` writes outside the slice. -/
theorem copyPixels_panics (a : Arch) (source : List Nat) (len : Int) (bits : List Nat)
    (hn : 0 < source.length / 4) (h0 : 0 ≤ len) (hfit : IsInt a len)
    (h : len ≤ 4 * ((source.length / 4 : Nat) : Int) - 1) :
    ∃ p, copyPixels a source len bits = .error p := by
  unfold copyPixels
  refine copyPixelsFrom_panics a source len _ bits h0 ⟨(len / 4).toNat, ?_, ?_, ?_⟩
  · rw [List.mem_range]; omega
  · omega
  · cases a <;> simp only [IsInt, Arch.uintBits] at * <;> omega

/-- For every image of at least one pixel whose buffer has length
`Width*Height*4`, once the device context and the two bitmaps are obtained,
`createIcon` ends in a panic: the slice over the colour bits is given the
length `Width*Height`, a quarter of what the loop writes. It releases what it
holds and never reaches `_CreateIconIndirect`. -/
theorem createIcon_panics (ar : Arch) (gdi : Gdi) (image : Image) (xhot yhot : Int)
    (icon : Bool) (dc color mask : Nat) (targetPtr : List Nat)
    (hdc : gdi.getDC 0 = .ok dc)
    (hcolor : gdi.createDIBSection dc (iconHeader ar image) _DIB_RGB_COLORS 0 0 =
      .ok (color, targetPtr))
    (hmask : gdi.createBitmap (wrapInt32 image.Width) (wrapInt32 image.Height) 1 1 = .ok mask)
    (hpos : 1 ≤ image.Width * image.Height) (hfit : IsInt ar (image.Width * image.Height))
    (hpix : (image.Pixels.length : Int) = image.Width * image.Height * 4) :
    ∃ p, createIcon ar gdi image xhot yhot icon =
      { calls := [.GetDC 0, .CreateDIBSection dc (iconHeader ar image),
          .CreateBitmap (wrapInt32 image.Width) (wrapInt32 image.Height),
          .DeleteObject mask, .DeleteObject color, .ReleaseDC 0 dc],
        result := .error p } := by
  obtain ⟨p, hp⟩ := copyPixels_panics ar image.Pixels
    (wrapInt ar (image.Width * image.Height)) targetPtr (by omega)
    (by rw [wrapInt_of_isInt ar _ hfit]; omega) (wrapInt_isInt ar _)
    (by rw [wrapInt_of_isInt ar _ hfit]; omega)
  refine ⟨p, ?_⟩
  unfold createIcon
  simp only [hdc, hcolor, hmask, hp]

/-- C14, at a failing input. The image of one pixel has a buffer of 1*1*4
bytes and every call into the OS succeeds, yet `createIcon` neither fills the
colour bitmap nor returns the icon handle: the second write of the first
iteration, `target[1]`, is outside the slice of length `Width*Height = 1`, and
the function ends in the panic "index out of range [1] with length 1" after
deleting the two bitmaps and releasing the device context. -/
theorem createIcon_one_pixel_panics (ar : Arch) :
    (onePixelImage.Pixels.length : Int) = onePixelImage.Width * onePixelImage.Height * 4 ∧
    createIcon ar sampleGdi onePixelImage 0 0 true =
      { calls := [.GetDC 0, .CreateDIBSection 11 (iconHeader ar onePixelImage),
          .CreateBitmap 1 1, .DeleteObject 22, .DeleteObject 21, .ReleaseDC 0 11],
        result := .error (.indexOutOfRange 1 1) } := by
  cases ar <;> exact ⟨by rfl, by rfl⟩

/-- C15, as stated, fails: the deferred deletions run on every path. With every
call into the OS successful and nothing to copy (the empty image, or a 16 by
16 image with no pixel data attached) `createIcon` returns the icon handle 31
with no error, and its last three calls delete the mask bitmap 22, delete the
colour bitmap 21 and release the device context 11. -/
theorem createIcon_success_deletes_bitmaps :
    createIcon .bits64 sampleGdi (blankImage 0 0) 0 0 true =
      { calls := [.GetDC 0, .CreateDIBSection 11 (iconHeader .bits64 (blankImage 0 0)),
          .CreateBitmap 0 0, .CreateIconIndirect (iconInfo 0 0 true 22 21) [],
          .DeleteObject 22, .DeleteObject 21, .ReleaseDC 0 11],
        result := .ok (31, none) } ∧
    (createIcon .bits64 sampleGdi (blankImage 16 16) 0 0 true).result = .ok (31, none) ∧
    (createIcon .bits64 sampleGdi (blankImage 16 16) 0 0 true).calls.drop 4 =
      [.DeleteObject 22, .DeleteObject 21, .ReleaseDC 0 11] :=
  ⟨by rfl, by rfl, by rfl⟩

/-- With a negative `Width*Height` the slice header has a negative length and
the unsigned bounds check lets every write through: for the image of width -1
and height 1 with four pixel bytes the loop swaps red and blue into the
colour bits and `createIcon` returns the icon handle. -/
theorem createIcon_negative_area (ar : Arch) :
    createIcon ar sampleGdi { Width := -1, Height := 1, Pixels := [255, 128, 0, 255] } 0 0 true =
      { calls := [.GetDC 0,
          .CreateDIBSection 11
            (iconHeader ar { Width := -1, Height := 1, Pixels := [255, 128, 0, 255] }),
          .CreateBitmap (-1) 1,
          .CreateIconIndirect (iconInfo 0 0 true 22 21) [0, 128, 255, 255],
          .DeleteObject 22, .DeleteObject 21, .ReleaseDC 0 11],
        result := .ok (31, none) } := by
  cases ar <;> rfl

/-- C15, amended. `createIcon` releases exactly what it has acquired on every
exit path, success included. Its calls into the OS are, in full: `_GetDC`
alone if that fails; `_GetDC`, `_CreateDIBSection`, `_ReleaseDC` if the colour
bitmap cannot be created; `_GetDC`, `_CreateDIBSection`, `_CreateBitmap`,
`_DeleteObject(color)`, `_ReleaseDC` if the mask bitmap cannot be created; and
with all three acquired `_GetDC`, `_CreateDIBSection`, `_CreateBitmap`, then
`_CreateIconIndirect` unless the copy loop panicked, then
`_DeleteObject(mask)`, `_DeleteObject(color)`, `_ReleaseDC`, whether the
function panics, returns an error or returns the icon handle. -/
theorem createIcon_releases_on_every_path (ar : Arch) (gdi : Gdi) (image : Image)
    (xhot yhot : Int) (icon : Bool) :
    (∀ err, gdi.getDC 0 = .error err →
      createIcon ar gdi image xhot yhot icon =
        { calls := [.GetDC 0], result := .ok (0, some err) }) ∧
    (∀ dc err, gdi.getDC 0 = .ok dc →
      gdi.createDIBSection dc (iconHeader ar image) _DIB_RGB_COLORS 0 0 = .error err →
      createIcon ar gdi image xhot yhot icon =
        { calls := [.GetDC 0, .CreateDIBSection dc (iconHeader ar image), .ReleaseDC 0 dc],
          result := .ok (0, some err) }) ∧
    (∀ dc color targetPtr err, gdi.getDC 0 = .ok dc →
      gdi.createDIBSection dc (iconHeader ar image) _DIB_RGB_COLORS 0 0 =
        .ok (color, targetPtr) →
      gdi.createBitmap (wrapInt32 image.Width) (wrapInt32 image.Height) 1 1 = .error err →
      createIcon ar gdi image xhot yhot icon =
        { calls := [.GetDC 0, .CreateDIBSection dc (iconHeader ar image),
            .CreateBitmap (wrapInt32 image.Width) (wrapInt32 image.Height),
            .DeleteObject color, .ReleaseDC 0 dc],
          result := .ok (0, some err) }) ∧
    (∀ dc color targetPtr mask, gdi.getDC 0 = .ok dc →
      gdi.createDIBSection dc (iconHeader ar image) _DIB_RGB_COLORS 0 0 =
        .ok (color, targetPtr) →
      gdi.createBitmap (wrapInt32 image.Width) (wrapInt32 image.Height) 1 1 = .ok mask →
      (∃ p, copyPixels ar image.Pixels (wrapInt ar (image.Width * image.Height)) targetPtr =
          .error p ∧
        createIcon ar gdi image xhot yhot icon =
          { calls := [.GetDC 0, .CreateDIBSection dc (iconHeader ar image),
              .CreateBitmap (wrapInt32 image.Width) (wrapInt32 image.Height),
              .DeleteObject mask, .DeleteObject color, .ReleaseDC 0 dc],
            result := .error p }) ∨
      (∃ target err,
        copyPixels ar image.Pixels (wrapInt ar (image.Width * image.Height)) targetPtr =
          .ok target ∧
        gdi.createIconIndirect (iconInfo xhot yhot icon mask color) target = .error err ∧
        createIcon ar gdi image xhot yhot icon =
          { calls := [.GetDC 0, .CreateDIBSection dc (iconHeader ar image),
              .CreateBitmap (wrapInt32 image.Width) (wrapInt32 image.Height),
              .CreateIconIndirect (iconInfo xhot yhot icon mask color) target,
              .DeleteObject mask, .DeleteObject color, .ReleaseDC 0 dc],
            result := .ok (0, some err) }) ∨
      (∃ target handle,
        copyPixels ar image.Pixels (wrapInt ar (image.Width * image.Height)) targetPtr =
          .ok target ∧
        gdi.createIconIndirect (iconInfo xhot yhot icon mask color) target = .ok handle ∧
        createIcon ar gdi image xhot yhot icon =
          { calls := [.GetDC 0, .CreateDIBSection dc (iconHeader ar image),
              .CreateBitmap (wrapInt32 image.Width) (wrapInt32 image.Height),
              .CreateIconIndirect (iconInfo xhot yhot icon mask color) target,
              .DeleteObject mask, .DeleteObject color, .ReleaseDC 0 dc],
            result := .ok (handle, none) })) := by
  refine ⟨?_, ?_, ?_, ?_⟩
  · intro err h
    unfold createIcon
    simp only [h]
  · intro dc err h1 h2
    unfold createIcon
    simp only [h1, h2]
  · intro dc color targetPtr err h1 h2 h3
    unfold createIcon
    simp only [h1, h2, h3]
  · intro dc color targetPtr mask h1 h2 h3
    unfold createIcon
    simp only [h1, h2, h3]
    cases hc : copyPixels ar image.Pixels (wrapInt ar (image.Width * image.Height))
        targetPtr with
    | error p => exact Or.inl ⟨p, rfl, rfl⟩
    | ok target =>
      cases hi : gdi.createIconIndirect (iconInfo xhot yhot icon mask color) target with
      | error err => exact Or.inr (Or.inl ⟨target, err, rfl, hi, by simp only [hi]⟩)
      | ok handle => exact Or.inr (Or.inr ⟨target, handle, rfl, hi, by simp only [hi]⟩)

theorem createIcon_releases_on_every_path_witness :
    sampleGdi.getDC 0 = .ok 11 ∧
    sampleGdi.createDIBSection 11 (iconHeader .bits64 (blankImage 0 0)) _DIB_RGB_COLORS 0 0 =
      .ok (21, []) ∧
    sampleGdi.createBitmap (wrapInt32 (blankImage 0 0).Width) (wrapInt32 (blankImage 0 0).Height)
      1 1 = .ok 22 ∧
    ((∃ p, copyPixels .bits64 (blankImage 0 0).Pixels
          (wrapInt .bits64 ((blankImage 0 0).Width * (blankImage 0 0).Height)) [] = .error p ∧
        createIcon .bits64 sampleGdi (blankImage 0 0) 0 0 true =
          { calls := [.GetDC 0, .CreateDIBSection 11 (iconHeader .bits64 (blankImage 0 0)),
              .CreateBitmap (wrapInt32 (blankImage 0 0).Width)
                (wrapInt32 (blankImage 0 0).Height),
              .DeleteObject 22, .DeleteObject 21, .ReleaseDC 0 11],
            result := .error p }) ∨
      (∃ target err,
        copyPixels .bits64 (blankImage 0 0).Pixels
          (wrapInt .bits64 ((blankImage 0 0).Width * (blankImage 0 0).Height)) [] =
          .ok target ∧
        sampleGdi.createIconIndirect (iconInfo 0 0 true 22 21) target = .error err ∧
        createIcon .bits64 sampleGdi (blankImage 0 0) 0 0 true =
          { calls := [.GetDC 0, .CreateDIBSection 11 (iconHeader .bits64 (blankImage 0 0)),
              .CreateBitmap (wrapInt32 (blankImage 0 0).Width)
                (wrapInt32 (blankImage 0 0).Height),
              .CreateIconIndirect (iconInfo 0 0 true 22 21) target,
              .DeleteObject 22, .DeleteObject 21, .ReleaseDC 0 11],
            result := .ok (0, some err) }) ∨
      (∃ target handle,
        copyPixels .bits64 (blankImage 0 0).Pixels
          (wrapInt .bits64 ((blankImage 0 0).Width * (blankImage 0 0).Height)) [] =
          .ok target ∧
        sampleGdi.createIconIndirect (iconInfo 0 0 true 22 21) target = .ok handle ∧
        createIcon .bits64 sampleGdi (blankImage 0 0) 0 0 true =
          { calls := [.GetDC 0, .CreateDIBSection 11 (iconHeader .bits64 (blankImage 0 0)),
              .CreateBitmap (wrapInt32 (blankImage 0 0).Width)
                (wrapInt32 (blankImage 0 0).Height),
              .CreateIconIndirect (iconInfo 0 0 true 22 21) target,
              .DeleteObject 22, .DeleteObject 21, .ReleaseDC 0 11],
            result := .ok (handle, none) })) :=
  ⟨by rfl, by rfl, by rfl,
    (createIcon_releases_on_every_path .bits64 sampleGdi (blankImage 0 0) 0 0 true).2.2.2
      11 21 [] 22 (by rfl) (by rfl) (by rfl)⟩

/-- The failure paths of `createIcon` on an OS that fails at each step in turn:
the calls made are exactly the acquisitions so far and their releases. -/
theorem createIcon_failure_paths :
    createIcon .bits64 { sampleGdi with getDC := fun _ => .error "glfwwin: GetDC failed" }
        onePixelImage 0 0 true =
      { calls := [.GetDC 0], result := .ok (0, some "glfwwin: GetDC failed") } ∧
    createIcon .bits64
        { sampleGdi with
          createDIBSection := fun _ _ _ _ _ => .error "glfwwin: CreateDIBSection failed" }
        onePixelImage 0 0 true =
      { calls := [.GetDC 0, .CreateDIBSection 11 (iconHeader .bits64 onePixelImage),
          .ReleaseDC 0 11],
        result := .ok (0, some "glfwwin: CreateDIBSection failed") } ∧
    createIcon .bits64
        { sampleGdi with createBitmap := fun _ _ _ _ => .error "glfwwin: CreateBitmap failed" }
        onePixelImage 0 0 true =
      { calls := [.GetDC 0, .CreateDIBSection 11 (iconHeader .bits64 onePixelImage),
          .CreateBitmap 1 1, .DeleteObject 21, .ReleaseDC 0 11],
        result := .ok (0, some "glfwwin: CreateBitmap failed") } ∧
    createIcon .bits64
        { sampleGdi with
          createIconIndirect := fun _ _ => .error "glfwwin: CreateIconIndirect failed" }
        (blankImage 0 0) 0 0 true =
      { calls := [.GetDC 0, .CreateDIBSection 11 (iconHeader .bits64 (blankImage 0 0)),
          .CreateBitmap 0 0, .CreateIconIndirect (iconInfo 0 0 true 22 21) [],
          .DeleteObject 22, .DeleteObject 21, .ReleaseDC 0 11],
        result := .ok (0, some "glfwwin: CreateIconIndirect failed") } :=
  ⟨by rfl, by rfl, by rfl, by rfl⟩

/-! ## The monitor registry -/

/-- The three statements for `_GLFW_INSERT_FIRST` put the monitor in front. -/
theorem insertFirst_eq (monitors : List (Option Nat)) (monitor : Option Nat) :
    insertFirst monitors monitor = monitor :: monitors := by
  cases monitors with
  | nil => rfl
  | cons a t =>
    simp [insertFirst, copySlice]

/-- The removal loop of `inputMonitor`, entered at index `pre.length` with no
match before it, removes the first occurrence of the monitor. -/
theorem removeMonitorFrom_eq_erase (monitor : Option Nat) (monitors rest pre : List (Option Nat))
    (hsplit : monitors = pre ++ rest) (hpre : monitor ∉ pre) :
    removeMonitorFrom monitor monitors rest pre.length = monitors.erase monitor := by
  induction rest generalizing pre with
  | nil =>
    subst hsplit
    simp only [removeMonitorFrom, List.append_nil]
    exact (List.erase_of_not_mem hpre).symm
  | cons m rest ih =>
    unfold removeMonitorFrom
    by_cases hm : m = monitor
    · rw [if_pos hm]
      subst hsplit
      subst hm
      rw [List.erase_append_right _ hpre, List.erase_cons_head]
      simp [copySlice, List.take_append_eq_append_take]
      rw [List.take_of_length_le (by omega), List.take_of_length_le (by omega)]
    · rw [if_neg hm]
      have := ih (pre ++ [m]) (by simp [hsplit]) (by
        simp only [List.mem_append, List.mem_singleton, not_or]
        exact ⟨hpre, fun h => hm h.symm⟩)
      simpa using this

/-- The first of the four platform calls panics, so the body for a window
full-screen on the monitor ends there with the window as it was. -/
theorem releaseFullscreen_panics (window : Window) :
    releaseFullscreen window =
      (window, some (.message "platformGetWindowSize is not implemented")) := rfl

/-- With no window full-screen on the monitor the loop over the windows
changes nothing and ends normally. -/
theorem releaseFullscreenWindows_of_none (monitor : Option Nat) (windows : List Window)
    (h : ∀ w ∈ windows, w.monitor ≠ monitor) :
    releaseFullscreenWindows monitor windows = (windows, none) := by
  induction windows with
  | nil => rfl
  | cons w rest ih =>
    unfold releaseFullscreenWindows
    rw [if_neg (h w (List.mem_cons_self _ _)),
      ih (fun x hx => h x (List.mem_cons_of_mem _ hx))]

/-- With a window full-screen on the monitor the loop over the windows ends in
the panic of `platformGetWindowSize`, the windows as they were. -/
theorem releaseFullscreenWindows_of_some (monitor : Option Nat) (windows : List Window)
    (h : ∃ w ∈ windows, w.monitor = monitor) :
    releaseFullscreenWindows monitor windows =
      (windows, some (.message "platformGetWindowSize is not implemented")) := by
  induction windows with
  | nil => simp at h
  | cons w rest ih =>
    unfold releaseFullscreenWindows
    by_cases hw : w.monitor = monitor
    · rw [if_pos hw, releaseFullscreen_panics]
    · rw [if_neg hw]
      obtain ⟨x, hx, hxm⟩ := h
      rcases List.mem_cons.1 hx with hx | hx
      · subst hx; exact absurd hxm hw
      · rw [ih ⟨x, hx, hxm⟩]

/-- A connect event with `_GLFW_INSERT_FIRST`, in full. -/
theorem inputMonitor_connect_first (c : Constants) (monitor : Option Nat) (g : Library) :
    inputMonitor c monitor c.Connected c._GLFW_INSERT_FIRST g =
      { state := { g with monitors := monitor :: g.monitors }
        calls := match g.monitorCallback with
          | some callback =>
            [{ callback := callback, monitor := monitor, action := c.Connected,
               state := { g with monitors := monitor :: g.monitors } }]
          | none => []
        panic := none } := by
  unfold inputMonitor
  simp only [if_true, insertFirst_eq]
  cases g.monitorCallback <;> rfl

/-- A connect event with `_GLFW_INSERT_LAST`, in full. -/
theorem inputMonitor_connect_last (c : Constants) (monitor : Option Nat) (g : Library) :
    inputMonitor c monitor c.Connected c._GLFW_INSERT_LAST g =
      { state := { g with monitors := g.monitors ++ [monitor] }
        calls := match g.monitorCallback with
          | some callback =>
            [{ callback := callback, monitor := monitor, action := c.Connected,
               state := { g with monitors := g.monitors ++ [monitor] } }]
          | none => []
        panic := none } := by
  unfold inputMonitor
  simp only [if_true, if_neg (Ne.symm c.insert_first_ne_insert_last)]
  cases g.monitorCallback <;> rfl

/-- A connect event with a placement that is neither constant, in full: the
registry stays as it is and the callback is called. -/
theorem inputMonitor_connect_other (c : Constants) (monitor : Option Nat) (placement : Int)
    (g : Library) (h1 : placement ≠ c._GLFW_INSERT_FIRST) (h2 : placement ≠ c._GLFW_INSERT_LAST) :
    inputMonitor c monitor c.Connected placement g =
      { state := g
        calls := match g.monitorCallback with
          | some callback =>
            [{ callback := callback, monitor := monitor, action := c.Connected, state := g }]
          | none => []
        panic := none } := by
  unfold inputMonitor
  simp only [if_true, if_neg h1, if_neg h2]
  cases g.monitorCallback <;> rfl

/-- An event that is neither a connect nor a disconnect, in full. -/
theorem inputMonitor_other (c : Constants) (monitor : Option Nat) (action placement : Int)
    (g : Library) (h1 : action ≠ c.Connected) (h2 : action ≠ c.Disconnected) :
    inputMonitor c monitor action placement g =
      { state := g
        calls := match g.monitorCallback with
          | some callback =>
            [{ callback := callback, monitor := monitor, action := action, state := g }]
          | none => []
        panic := none } := by
  unfold inputMonitor
  simp only [if_neg h1, if_neg h2]
  cases g.monitorCallback <;> rfl

/-- A disconnect event for a monitor on which no window is full-screen, in
full. -/
theorem inputMonitor_disconnect_of_none (c : Constants) (monitor : Option Nat)
    (placement : Int) (g : Library) (h : ∀ w ∈ g.windows, w.monitor ≠ monitor) :
    inputMonitor c monitor c.Disconnected placement g =
      { state := { g with monitors := g.monitors.erase monitor }
        calls := match g.monitorCallback with
          | some callback =>
            [{ callback := callback, monitor := monitor, action := c.Disconnected,
               state := { g with monitors := g.monitors.erase monitor } }]
          | none => []
        panic := none } := by
  unfold inputMonitor
  simp only [if_neg (Ne.symm c.connected_ne_disconnected), if_true,
    releaseFullscreenWindows_of_none monitor g.windows h]
  have hr : removeMonitorFrom monitor g.monitors g.monitors 0 = g.monitors.erase monitor :=
    removeMonitorFrom_eq_erase monitor g.monitors g.monitors [] rfl (by simp)
  rw [hr]
  cases g.monitorCallback <;> rfl

/-- A disconnect event for a monitor on which a window is full-screen, in
full: the panic of `platformGetWindowSize`, nothing changed, no callback. -/
theorem inputMonitor_disconnect_of_some (c : Constants) (monitor : Option Nat)
    (placement : Int) (g : Library) (h : ∃ w ∈ g.windows, w.monitor = monitor) :
    inputMonitor c monitor c.Disconnected placement g =
      { state := g, calls := [],
        panic := some (.message "platformGetWindowSize is not implemented") } := by
  unfold inputMonitor
  simp only [if_neg (Ne.symm c.connected_ne_disconnected), if_true,
    releaseFullscreenWindows_of_some monitor g.windows h]

/-- What one event does to the callback slot and which calls it makes: the
slot stays; a run that returns has called the stored callback once with the
event's monitor and action and the state as updated, or nothing for a nil
slot; a run that panics is a disconnect of a monitor with a full-screen
window, changes nothing and calls nothing. -/
theorem inputMonitor_calls (c : Constants) (monitor : Option Nat) (action placement : Int)
    (g : Library) :
    (inputMonitor c monitor action placement g).state.monitorCallback = g.monitorCallback ∧
    (inputMonitor c monitor action placement g).state.windows = g.windows ∧
    (((inputMonitor c monitor action placement g).panic = none ∧
        (inputMonitor c monitor action placement g).calls =
          match g.monitorCallback with
          | some callback =>
            [{ callback := callback, monitor := monitor, action := action,
               state := (inputMonitor c monitor action placement g).state }]
          | none => []) ∨
      ((inputMonitor c monitor action placement g).panic =
          some (.message "platformGetWindowSize is not implemented") ∧
        (inputMonitor c monitor action placement g).calls = [] ∧
        (inputMonitor c monitor action placement g).state = g ∧
        action = c.Disconnected ∧ ∃ w ∈ g.windows, w.monitor = monitor)) := by
  by_cases hc : action = c.Connected
  · subst hc
    by_cases h1 : placement = c._GLFW_INSERT_FIRST
    · subst h1
      rw [inputMonitor_connect_first]
      exact ⟨rfl, rfl, Or.inl ⟨rfl, rfl⟩⟩
    · by_cases h2 : placement = c._GLFW_INSERT_LAST
      · subst h2
        rw [inputMonitor_connect_last]
        exact ⟨rfl, rfl, Or.inl ⟨rfl, rfl⟩⟩
      · rw [inputMonitor_connect_other c monitor placement g h1 h2]
        exact ⟨rfl, rfl, Or.inl ⟨rfl, rfl⟩⟩
  · by_cases hd : action = c.Disconnected
    · subst hd
      by_cases hw : ∃ w ∈ g.windows, w.monitor = monitor
      · rw [inputMonitor_disconnect_of_some c monitor placement g hw]
        exact ⟨rfl, rfl, Or.inr ⟨rfl, rfl, rfl, rfl, hw⟩⟩
      · rw [inputMonitor_disconnect_of_none c monitor placement g (by
          intro w hw1 hw2
          exact hw ⟨w, hw1, hw2⟩)]
        exact ⟨rfl, rfl, Or.inl ⟨rfl, rfl⟩⟩
    · rw [inputMonitor_other c monitor action placement g hc hd]
      exact ⟨rfl, rfl, Or.inl ⟨rfl, rfl⟩⟩

/-- One event keeps the registry and the windows consistent. -/
theorem inputMonitor_consistent (c : Constants) (monitor : Option Nat)
    (action placement : Int) (g : Library) (h : g.Consistent) :
    (inputMonitor c monitor action placement g).state.Consistent := by
  by_cases hc : action = c.Connected
  · subst hc
    by_cases h1 : placement = c._GLFW_INSERT_FIRST
    · subst h1
      rw [inputMonitor_connect_first]
      intro w hw hne
      exact List.mem_cons_of_mem _ (h w hw hne)
    · by_cases h2 : placement = c._GLFW_INSERT_LAST
      · subst h2
        rw [inputMonitor_connect_last]
        intro w hw hne
        exact List.mem_append_left _ (h w hw hne)
      · rw [inputMonitor_connect_other c monitor placement g h1 h2]
        exact h
  · by_cases hd : action = c.Disconnected
    · subst hd
      by_cases hw : ∃ w ∈ g.windows, w.monitor = monitor
      · rw [inputMonitor_disconnect_of_some c monitor placement g hw]
        exact h
      · have hno : ∀ w ∈ g.windows, w.monitor ≠ monitor := by
          intro w hw1 hw2
          exact hw ⟨w, hw1, hw2⟩
        rw [inputMonitor_disconnect_of_none c monitor placement g hno]
        intro w hw1 hne
        exact (List.mem_erase_of_ne (hno w hw1)).2 (h w hw1 hne)
    · rw [inputMonitor_other c monitor action placement g hc hd]
      exact h

/-- Every call of the callback made by one event sees the state the event
leaves. -/
theorem inputMonitor_call_state (c : Constants) (monitor : Option Nat)
    (action placement : Int) (g : Library) :
    ∀ call ∈ (inputMonitor c monitor action placement g).calls,
      call.state = (inputMonitor c monitor action placement g).state ∧
      some call.callback = g.monitorCallback ∧
      call.monitor = monitor ∧ call.action = action := by
  intro call hcall
  obtain ⟨_, _, ⟨_, hcalls⟩ | ⟨_, hcalls, _⟩⟩ := inputMonitor_calls c monitor action placement g
  · rw [hcalls] at hcall
    cases hcb : g.monitorCallback with
    | none => rw [hcb] at hcall; simp at hcall
    | some cb =>
      rw [hcb] at hcall
      simp only [List.mem_singleton] at hcall
      subst hcall
      exact ⟨rfl, rfl, rfl, rfl⟩
  · rw [hcalls] at hcall
    simp at hcall

/-- A sequence of events, one step unfolded. -/
theorem inputMonitorEvents_cons (c : Constants) (e : MonitorEvent) (es : List MonitorEvent)
    (g : Library) :
    inputMonitorEvents c (e :: es) g =
      match (inputMonitor c e.monitor e.action e.placement g).panic with
      | some _ => inputMonitor c e.monitor e.action e.placement g
      | none =>
        { state := (inputMonitorEvents c es
            (inputMonitor c e.monitor e.action e.placement g).state).state
          calls := (inputMonitor c e.monitor e.action e.placement g).calls ++
            (inputMonitorEvents c es
              (inputMonitor c e.monitor e.action e.placement g).state).calls
          panic := (inputMonitorEvents c es
            (inputMonitor c e.monitor e.action e.placement g).state).panic } := rfl

/-- A sequence of events keeps the registry and the windows consistent, in
the state it ends in and in the state every call of the callback sees. -/
theorem inputMonitorEvents_keeps_consistent (c : Constants) (events : List MonitorEvent)
    (g : Library) (h : g.Consistent) :
    (inputMonitorEvents c events g).state.Consistent ∧
    ∀ call ∈ (inputMonitorEvents c events g).calls, call.state.Consistent := by
  induction events generalizing g with
  | nil => exact ⟨h, by simp [inputMonitorEvents]⟩
  | cons e es ih =>
    have h1 := inputMonitor_consistent c e.monitor e.action e.placement g h
    have h2 := inputMonitor_call_state c e.monitor e.action e.placement g
    rw [inputMonitorEvents_cons]
    cases hp : (inputMonitor c e.monitor e.action e.placement g).panic with
    | some p =>
      refine ⟨h1, ?_⟩
      intro call hcall
      rw [(h2 call hcall).1]
      exact h1
    | none =>
      obtain ⟨ih1, ih2⟩ := ih _ h1
      refine ⟨ih1, ?_⟩
      intro call hcall
      rcases List.mem_append.1 hcall with hcall | hcall
      · rw [(h2 call hcall).1]
        exact h1
      · exact ih2 call hcall

/-- The callback slot over a sequence of events: it stays as it is, every call
is of the callback it holds, a nil slot gives no call, and a sequence that
ends without panic has called once per event, in order, with the event's
monitor and action. -/
theorem inputMonitorEvents_calls (c : Constants) (events : List MonitorEvent) (g : Library) :
    (inputMonitorEvents c events g).state.monitorCallback = g.monitorCallback ∧
    (∀ call ∈ (inputMonitorEvents c events g).calls,
      some call.callback = g.monitorCallback) ∧
    (g.monitorCallback = none → (inputMonitorEvents c events g).calls = []) ∧
    ((inputMonitorEvents c events g).panic = none → g.monitorCallback ≠ none →
      (inputMonitorEvents c events g).calls.map (fun call => (call.monitor, call.action)) =
        events.map (fun e => (e.monitor, e.action))) := by
  induction events generalizing g with
  | nil => exact ⟨rfl, by simp [inputMonitorEvents], fun _ => rfl, fun _ _ => rfl⟩
  | cons e es ih =>
    obtain ⟨hslot, _, hcases⟩ := inputMonitor_calls c e.monitor e.action e.placement g
    have h2 := inputMonitor_call_state c e.monitor e.action e.placement g
    obtain ⟨ih1, ih2, ih3, ih4⟩ := ih (inputMonitor c e.monitor e.action e.placement g).state
    rw [hslot] at ih1 ih2 ih3 ih4
    rw [inputMonitorEvents_cons]
    rcases hcases with ⟨hp, hcalls⟩ | ⟨hp, hcalls, _⟩
    · rw [hp]
      dsimp only
      refine ⟨ih1, ?_, ?_, ?_⟩
      · intro call hcall
        rcases List.mem_append.1 hcall with hcall | hcall
        · exact (h2 call hcall).2.1
        · exact ih2 call hcall
      · intro hnone
        rw [ih3 hnone, hcalls, hnone]
        rfl
      · intro hpl hne
        rw [List.map_append, ih4 hpl hne, hcalls]
        cases hcb : g.monitorCallback with
        | none => exact absurd hcb hne
        | some cb => rfl
    · rw [hp]
      dsimp only
      refine ⟨hslot, ?_, ?_, ?_⟩
      · intro call hcall
        exact (h2 call hcall).2.1
      · intro _
        exact hcalls
      · intro hpl
        rw [hp] at hpl
        exact absurd hpl (by simp)

/-! ## Connect and disconnect events -/

/-- C16. A connect event makes the registry `monitor :: L` for
`_GLFW_INSERT_FIRST` and `L ++ [monitor]` for `_GLFW_INSERT_LAST`, `L` being
the registry before; in both cases the length grows by one, `L` is kept as a
sublist (so in its order), the run ends without panic and the windows are
untouched. -/
theorem inputMonitor_connect_registry (c : Constants) (monitor : Option Nat) (g : Library) :
    (inputMonitor c monitor c.Connected c._GLFW_INSERT_FIRST g).state.monitors =
      monitor :: g.monitors ∧
    (inputMonitor c monitor c.Connected c._GLFW_INSERT_LAST g).state.monitors =
      g.monitors ++ [monitor] ∧
    (inputMonitor c monitor c.Connected c._GLFW_INSERT_FIRST g).state.monitors.length =
      g.monitors.length + 1 ∧
    (inputMonitor c monitor c.Connected c._GLFW_INSERT_LAST g).state.monitors.length =
      g.monitors.length + 1 ∧
    List.Sublist g.monitors
      (inputMonitor c monitor c.Connected c._GLFW_INSERT_FIRST g).state.monitors ∧
    List.Sublist g.monitors
      (inputMonitor c monitor c.Connected c._GLFW_INSERT_LAST g).state.monitors ∧
    (inputMonitor c monitor c.Connected c._GLFW_INSERT_FIRST g).panic = none ∧
    (inputMonitor c monitor c.Connected c._GLFW_INSERT_LAST g).panic = none ∧
    (inputMonitor c monitor c.Connected c._GLFW_INSERT_FIRST g).state.windows = g.windows ∧
    (inputMonitor c monitor c.Connected c._GLFW_INSERT_LAST g).state.windows = g.windows := by
  rw [inputMonitor_connect_first, inputMonitor_connect_last]
  refine ⟨rfl, rfl, by simp, by simp, ?_, ?_, rfl, rfl, rfl, rfl⟩
  · exact List.sublist_cons_self _ _
  · exact List.sublist_append_left _ _

/-- The worked connect events: monitor 4 joining the registry 1, 2, 3 at the
front and at the back. -/
theorem inputMonitor_connect_examples :
    (inputMonitor glfwConstants (some 4) glfwConstants.Connected
      glfwConstants._GLFW_INSERT_FIRST sampleLibrary).state.monitors =
        [some 4, some 1, some 2, some 3] ∧
    (inputMonitor glfwConstants (some 4) glfwConstants.Connected
      glfwConstants._GLFW_INSERT_LAST sampleLibrary).state.monitors =
        [some 1, some 2, some 3, some 4] :=
  ⟨by rfl, by rfl⟩

/-- C17. A disconnect event for a monitor on which no window is full-screen
ends without panic and makes the registry `L.erase monitor`, `L` being the
registry before: where `L = pre ++ monitor :: post` with no `monitor` in
`pre`, the registry becomes `pre ++ post`, and where `monitor` does not occur
in `L` the registry stays `L`. The windows are untouched. -/
theorem inputMonitor_disconnect_registry (c : Constants) (monitor : Option Nat) (placement : Int)
    (g : Library) (h : ∀ w ∈ g.windows, w.monitor ≠ monitor) :
    (inputMonitor c monitor c.Disconnected placement g).panic = none ∧
    (inputMonitor c monitor c.Disconnected placement g).state.monitors =
      g.monitors.erase monitor ∧
    (∀ pre post, g.monitors = pre ++ monitor :: post → monitor ∉ pre →
      (inputMonitor c monitor c.Disconnected placement g).state.monitors = pre ++ post) ∧
    (monitor ∉ g.monitors →
      (inputMonitor c monitor c.Disconnected placement g).state.monitors = g.monitors) ∧
    (inputMonitor c monitor c.Disconnected placement g).state.windows = g.windows := by
  rw [inputMonitor_disconnect_of_none c monitor placement g h]
  refine ⟨rfl, rfl, ?_, ?_, rfl⟩
  · intro pre post hsplit hpre
    show g.monitors.erase monitor = pre ++ post
    rw [hsplit, List.erase_append_right _ hpre, List.erase_cons_head]
  · intro hnot
    exact List.erase_of_not_mem hnot

theorem inputMonitor_disconnect_registry_witness :
    (∀ w ∈ duplicateLibrary.windows, w.monitor ≠ some 2) ∧
    (inputMonitor glfwConstants (some 2) glfwConstants.Disconnected 0 duplicateLibrary).panic =
      none ∧
    (inputMonitor glfwConstants (some 2) glfwConstants.Disconnected 0
      duplicateLibrary).state.monitors = [some 1, some 3, some 2] :=
  ⟨by decide,
    (inputMonitor_disconnect_registry glfwConstants (some 2) 0 duplicateLibrary (by decide)).1,
    (inputMonitor_disconnect_registry glfwConstants (some 2) 0 duplicateLibrary (by decide)).2.1⟩

/-- C18, at a failing input. Two windows, one decorated and one not, are
full-screen on monitor 2 of the registry 1, 2, 3. The disconnect event of
monitor 2 ends in the panic of `platformGetWindowSize` at the first window:
both windows still have monitor 2 as their full-screen monitor, the registry
still holds monitor 2, and the callback is not called. The same holds with
the undecorated window alone. -/
theorem inputMonitor_disconnect_fullscreen_panics :
    fullscreenLibrary.windows.map (fun w => (w.decorated, w.monitor)) =
      [(true, some 2), (false, some 2)] ∧
    inputMonitor glfwConstants (some 2) glfwConstants.Disconnected 0 fullscreenLibrary =
      { state := fullscreenLibrary, calls := [],
        panic := some (.message "platformGetWindowSize is not implemented") } ∧
    (inputMonitor glfwConstants (some 2) glfwConstants.Disconnected 0
      fullscreenLibrary).state.windows.map (fun w => w.monitor) = [some 2, some 2] ∧
    (inputMonitor glfwConstants (some 2) glfwConstants.Disconnected 0
      fullscreenLibrary).state.monitors = [some 1, some 2, some 3] ∧
    inputMonitor glfwConstants (some 2) glfwConstants.Disconnected 0
        { fullscreenLibrary with windows := fullscreenLibrary.windows.drop 1 } =
      { state := { fullscreenLibrary with windows := fullscreenLibrary.windows.drop 1 },
        calls := [], panic := some (.message "platformGetWindowSize is not implemented") } :=
  ⟨by rfl, by rfl, by rfl, by rfl, by rfl⟩

/-- C19. Starting from a state in which every window's non-nil monitor
reference is in the registry, after any sequence of events handled by
`inputMonitor` every window's non-nil monitor reference is in the registry,
both in the state the sequence ends in (after the last event, or where an
event panicked) and in the state seen by each call of the callback.
`inputMonitorWindow` writes the `window` field of a monitor and no other, so
neither the registry nor a window's monitor reference. -/
theorem inputMonitorEvents_consistent (c : Constants) (events : List MonitorEvent)
    (g : Library) (h : g.Consistent) :
    (inputMonitorEvents c events g).state.Consistent ∧
    (∀ call ∈ (inputMonitorEvents c events g).calls, call.state.Consistent) ∧
    (∀ (m : Monitor) (window : Option Nat),
      (m.inputMonitorWindow window).window = window ∧
      (m.inputMonitorWindow window).handle = m.handle ∧
      (m.inputMonitorWindow window).name = m.name ∧
      (m.inputMonitorWindow window).widthMM = m.widthMM ∧
      (m.inputMonitorWindow window).heightMM = m.heightMM ∧
      (m.inputMonitorWindow window).modes = m.modes ∧
      (m.inputMonitorWindow window).currentMode = m.currentMode) :=
  ⟨(inputMonitorEvents_keeps_consistent c events g h).1,
    (inputMonitorEvents_keeps_consistent c events g h).2,
    fun _ _ => ⟨rfl, rfl, rfl, rfl, rfl, rfl, rfl⟩⟩

theorem inputMonitorEvents_consistent_witness :
    duplicateLibrary.Consistent ∧
    (inputMonitorEvents glfwConstants
      [{ monitor := some 4, action := glfwConstants.Connected,
         placement := glfwConstants._GLFW_INSERT_FIRST },
       { monitor := some 2, action := glfwConstants.Disconnected, placement := 0 },
       { monitor := some 3, action := glfwConstants.Disconnected, placement := 0 }]
      duplicateLibrary).state.Consistent :=
  ⟨by decide,
    (inputMonitorEvents_consistent glfwConstants
      [{ monitor := some 4, action := glfwConstants.Connected,
         placement := glfwConstants._GLFW_INSERT_FIRST },
       { monitor := some 2, action := glfwConstants.Disconnected, placement := 0 },
       { monitor := some 3, action := glfwConstants.Disconnected, placement := 0 }]
      duplicateLibrary (by decide)).1⟩

/-- The worked sequence on the state with monitor 2 registered twice and a
window full-screen on monitor 3: connecting 4 in front and disconnecting 2
call the callback 5 with the registry as updated; disconnecting 3 panics,
with the registry then 4, 1, 3, 2 and no third call. -/
theorem inputMonitorEvents_example :
    (inputMonitorEvents glfwConstants
      [{ monitor := some 4, action := glfwConstants.Connected,
         placement := glfwConstants._GLFW_INSERT_FIRST },
       { monitor := some 2, action := glfwConstants.Disconnected, placement := 0 },
       { monitor := some 3, action := glfwConstants.Disconnected, placement := 0 }]
      duplicateLibrary).state.monitors = [some 4, some 1, some 3, some 2] ∧
    (inputMonitorEvents glfwConstants
      [{ monitor := some 4, action := glfwConstants.Connected,
         placement := glfwConstants._GLFW_INSERT_FIRST },
       { monitor := some 2, action := glfwConstants.Disconnected, placement := 0 },
       { monitor := some 3, action := glfwConstants.Disconnected, placement := 0 }]
      duplicateLibrary).calls.map
        (fun call => (call.callback, call.monitor, call.action, call.state.monitors)) =
      [(5, some 4, glfwConstants.Connected, [some 4, some 1, some 2, some 3, some 2]),
       (5, some 2, glfwConstants.Disconnected, [some 4, some 1, some 3, some 2])] ∧
    (inputMonitorEvents glfwConstants
      [{ monitor := some 4, action := glfwConstants.Connected,
         placement := glfwConstants._GLFW_INSERT_FIRST },
       { monitor := some 2, action := glfwConstants.Disconnected, placement := 0 },
       { monitor := some 3, action := glfwConstants.Disconnected, placement := 0 }]
      duplicateLibrary).panic = some (.message "platformGetWindowSize is not implemented") :=
  ⟨by rfl, by rfl, by rfl⟩

/-- The subscription slot on the events that reach the end of `inputMonitor`.
In an initialized state `SetMonitorCallback cbfun` returns the
callback held before and stores `cbfun`. From then on the slot stays `cbfun`
through every event. An event that `inputMonitor` handles to its end calls
`cbfun`, if not nil, exactly once, with the event's monitor and action and
the state as updated by the event, and nothing if `cbfun` is nil; every call
made over a sequence of events is of `cbfun`, never of the callback held
before; a sequence that ends without panic has made one call per event, in
the order of the events. An event does not reach the callback only where
`inputMonitor` panics, which is a disconnect of a monitor on which a window
is full-screen. -/
theorem SetMonitorCallback_single_slot (c : Constants) (cbfun : Option Nat) (g : Library)
    (h : g.initialized = true) :
    SetMonitorCallback cbfun g =
      .ok (g.monitorCallback, { g with monitorCallback := cbfun }) ∧
    (∀ monitor action placement,
      (inputMonitor c monitor action placement
        { g with monitorCallback := cbfun }).state.monitorCallback = cbfun ∧
      (((inputMonitor c monitor action placement
            { g with monitorCallback := cbfun }).panic = none ∧
          (inputMonitor c monitor action placement
            { g with monitorCallback := cbfun }).calls =
            match cbfun with
            | some callback =>
              [{ callback := callback, monitor := monitor, action := action,
                 state := (inputMonitor c monitor action placement
                   { g with monitorCallback := cbfun }).state }]
            | none => []) ∨
        ((inputMonitor c monitor action placement
            { g with monitorCallback := cbfun }).panic ≠ none ∧
          (inputMonitor c monitor action placement
            { g with monitorCallback := cbfun }).calls = [] ∧
          action = c.Disconnected ∧ ∃ w ∈ g.windows, w.monitor = monitor))) ∧
    (∀ events,
      (inputMonitorEvents c events
        { g with monitorCallback := cbfun }).state.monitorCallback = cbfun ∧
      (∀ call ∈ (inputMonitorEvents c events { g with monitorCallback := cbfun }).calls,
        some call.callback = cbfun) ∧
      (cbfun = none →
        (inputMonitorEvents c events { g with monitorCallback := cbfun }).calls = []) ∧
      ((inputMonitorEvents c events { g with monitorCallback := cbfun }).panic = none →
        cbfun ≠ none →
        (inputMonitorEvents c events { g with monitorCallback := cbfun }).calls.map
            (fun call => (call.monitor, call.action)) =
          events.map (fun e => (e.monitor, e.action)))) := by
  refine ⟨?_, ?_, ?_⟩
  · unfold SetMonitorCallback
    rw [h]
    rfl
  · intro monitor action placement
    obtain ⟨hslot, _, hcases⟩ :=
      inputMonitor_calls c monitor action placement { g with monitorCallback := cbfun }
    refine ⟨hslot, ?_⟩
    rcases hcases with ⟨hp, hcalls⟩ | ⟨hp, hcalls, _, hact, hw⟩
    · exact Or.inl ⟨hp, hcalls⟩
    · exact Or.inr ⟨by rw [hp]; simp, hcalls, hact, hw⟩
  · intro events
    exact inputMonitorEvents_calls c events { g with monitorCallback := cbfun }

theorem SetMonitorCallback_single_slot_witness :
    sampleLibrary.initialized = true ∧
    SetMonitorCallback (some 6) sampleLibrary =
      .ok (some 5, { sampleLibrary with monitorCallback := some 6 }) :=
  ⟨by rfl, (SetMonitorCallback_single_slot glfwConstants (some 6) sampleLibrary (by rfl)).1⟩

/-- C20, at a failing input. In the initialized state with the monitors 1, 2,
3, two windows full-screen on monitor 2 and callback 5 subscribed,
`SetMonitorCallback` stores callback 6 and returns callback 5. The next
monitor event, the disconnect of monitor 2, invokes no callback at all:
`inputMonitor` panics in `platformGetWindowSize` before it reaches the call,
with the slot still holding callback 6 and the registry still holding monitor
2. A connect event in the same state does invoke callback 6 once. -/
theorem SetMonitorCallback_callback_not_invoked :
    fullscreenLibrary.initialized = true ∧
    SetMonitorCallback (some 6) fullscreenLibrary =
      .ok (some 5, { fullscreenLibrary with monitorCallback := some 6 }) ∧
    inputMonitor glfwConstants (some 2) glfwConstants.Disconnected 0
        { fullscreenLibrary with monitorCallback := some 6 } =
      { state := { fullscreenLibrary with monitorCallback := some 6 }, calls := [],
        panic := some (.message "platformGetWindowSize is not implemented") } ∧
    (inputMonitor glfwConstants (some 2) glfwConstants.Disconnected 0
      { fullscreenLibrary with monitorCallback := some 6 }).state.monitorCallback = some 6 ∧
    (inputMonitor glfwConstants (some 2) glfwConstants.Disconnected 0
      { fullscreenLibrary with monitorCallback := some 6 }).state.monitors =
        [some 1, some 2, some 3] ∧
    (inputMonitor glfwConstants (some 4) glfwConstants.Connected
      glfwConstants._GLFW_INSERT_LAST
      { fullscreenLibrary with monitorCallback := some 6 }).calls.map
        (fun call => (call.callback, call.monitor, call.action, call.state.monitors)) =
      [(6, some 4, glfwConstants.Connected, [some 1, some 2, some 3, some 4])] :=
  ⟨by rfl, by rfl, by rfl, by rfl, by rfl, by rfl⟩

/-- The worked subscription: callback 6 replaces callback 5, and the next
connect event calls 6 once with the monitor, the action and the registry as
updated; with a nil callback stored nothing is called; before initialization
`SetMonitorCallback` panics. -/
theorem SetMonitorCallback_example :
    SetMonitorCallback (some 6) sampleLibrary =
      .ok (some 5, { sampleLibrary with monitorCallback := some 6 }) ∧
    (inputMonitor glfwConstants (some 4) glfwConstants.Connected
      glfwConstants._GLFW_INSERT_LAST { sampleLibrary with monitorCallback := some 6 }).calls =
      [{ callback := 6, monitor := some 4, action := glfwConstants.Connected,
         state := { sampleLibrary with
           monitors := [some 1, some 2, some 3, some 4], monitorCallback := some 6 } }] ∧
    (inputMonitor glfwConstants (some 4) glfwConstants.Connected
      glfwConstants._GLFW_INSERT_LAST { sampleLibrary with monitorCallback := none }).calls =
      [] ∧
    SetMonitorCallback (some 6) { sampleLibrary with initialized := false } =
      .error .NotInitialized :=
  ⟨by rfl, by rfl, by rfl, by rfl⟩

/-! ## Bits per pixel -/

/-- For a non-negative `int` other than 32, `splitBPP` gives each channel a
third of the bits, rounded down, and hands the remainder to green first and
then to red. -/
theorem splitBPP_eq (a : Arch) (bpp : Int) (h0 : 0 ≤ bpp) (hfit : IsInt a bpp)
    (h32 : bpp ≠ 32) :
    splitBPP a bpp =
      (bpp / 3 + (if bpp % 3 = 2 then 1 else 0), bpp / 3 + (if 1 ≤ bpp % 3 then 1 else 0),
        bpp / 3) := by
  unfold splitBPP
  simp only [if_neg h32, Int.tdiv_eq_ediv h0 (by decide : (0 : Int) ≤ 3)]
  have h1 : wrapInt a (bpp / 3 * 3) = bpp / 3 * 3 :=
    wrapInt_of_isInt a _ (by cases a <;> simp only [IsInt, Arch.uintBits] at * <;> omega)
  have h2 : wrapInt a (bpp - bpp / 3 * 3) = bpp % 3 := by
    rw [wrapInt_of_isInt a _ (by cases a <;> simp only [IsInt, Arch.uintBits] at * <;> omega)]
    omega
  have h3 : wrapInt a (bpp / 3 + 1) = bpp / 3 + 1 :=
    wrapInt_of_isInt a _ (by cases a <;> simp only [IsInt, Arch.uintBits] at * <;> omega)
  rw [h1, h2, h3]
  by_cases hd1 : 1 ≤ bpp % 3 <;> by_cases hd2 : bpp % 3 = 2 <;>
    simp [hd1, hd2]

/-- C25. For every `int` value `bpp ≥ 0` other than 32, `splitBPP` returns
`(red, green, blue)` with `red + green + blue = bpp`, `green ≥ red ≥ blue` and
`green - blue ≤ 1`; and `splitBPP 32` and `splitBPP 24` are both `(8, 8, 8)`. -/
theorem splitBPP_balanced (a : Arch) (bpp : Int) (h0 : 0 ≤ bpp) (hfit : IsInt a bpp)
    (h32 : bpp ≠ 32) :
    (splitBPP a bpp).1 + (splitBPP a bpp).2.1 + (splitBPP a bpp).2.2 = bpp ∧
    (splitBPP a bpp).2.1 ≥ (splitBPP a bpp).1 ∧
    (splitBPP a bpp).1 ≥ (splitBPP a bpp).2.2 ∧
    (splitBPP a bpp).2.1 - (splitBPP a bpp).2.2 ≤ 1 ∧
    splitBPP a 32 = (8, 8, 8) ∧ splitBPP a 24 = (8, 8, 8) := by
  rw [splitBPP_eq a bpp h0 hfit h32]
  refine ⟨?_, ?_, ?_, ?_, by cases a <;> rfl, by cases a <;> rfl⟩ <;> dsimp only <;>
    split_ifs <;> omega

theorem splitBPP_balanced_witness :
    (0 : Int) ≤ 16 ∧ IsInt .bits64 16 ∧ (16 : Int) ≠ 32 ∧
    (splitBPP .bits64 16).1 + (splitBPP .bits64 16).2.1 + (splitBPP .bits64 16).2.2 = 16 ∧
    (splitBPP .bits64 16).2.1 ≥ (splitBPP .bits64 16).1 ∧
    (splitBPP .bits64 16).1 ≥ (splitBPP .bits64 16).2.2 ∧
    (splitBPP .bits64 16).2.1 - (splitBPP .bits64 16).2.2 ≤ 1 ∧
    splitBPP .bits64 32 = (8, 8, 8) ∧ splitBPP .bits64 24 = (8, 8, 8) :=
  ⟨by decide, by decide, by decide,
    splitBPP_balanced .bits64 16 (by decide) (by decide) (by decide)⟩

/-- The worked splits: 16 bits give 5-6-5, 15 give 5-5-5, 8 give 3-3-2 and 0
gives 0-0-0. -/
theorem splitBPP_examples (a : Arch) :
    splitBPP a 16 = (5, 6, 5) ∧ splitBPP a 15 = (5, 5, 5) ∧ splitBPP a 8 = (3, 3, 2) ∧
    splitBPP a 0 = (0, 0, 0) := by
  cases a <;> exact ⟨by rfl, by rfl, by rfl, by rfl⟩

/-! ## Equality of video modes and ties of the catalog sort -/

/-- What `equals` compares: the sum of the colour bits as the code adds them,
the width, the height and the refresh rate. -/
theorem equals_iff (ar : Arch) (v w : VidMode) :
    v.equals ar w = true ↔
      wrapInt ar (wrapInt ar (v.RedBits + v.GreenBits) + v.BlueBits) =
        wrapInt ar (wrapInt ar (w.RedBits + w.GreenBits) + w.BlueBits) ∧
      v.Width = w.Width ∧ v.Height = w.Height ∧ v.RefreshRate = w.RefreshRate := by
  unfold VidMode.equals
  split_ifs <;> simp_all

/-- The comparison closure of the catalog sort places neither of two modes
before the other exactly when their sort keys agree. -/
theorem modeLess_tie_iff (ar : Arch) (a b : VidMode) :
    (modeLess ar a b = false ∧ modeLess ar b a = false) ↔ sortKey ar a = sortKey ar b := by
  rw [modeLess_eq_false_iff, modeLess_eq_false_iff]
  unfold keyLe sortKey
  simp only [Prod.mk.injEq]
  omega

/-- C23. For two video modes whose areas `Width*Height` do not overflow, the
second of positive width, the comparison closure of the catalog sort places
neither before the other if and only if `equals` holds of them; and `equals`
is reflexive, symmetric and transitive. Of the four positivity conditions only
the one width is needed. -/
theorem modeLess_tie_iff_equals (ar : Arch) (a b : VidMode) (hb : 0 < b.Width)
    (hfa : IsInt ar (a.Width * a.Height)) (hfb : IsInt ar (b.Width * b.Height)) :
    ((modeLess ar a b = false ∧ modeLess ar b a = false) ↔ a.equals ar b = true) ∧
    (∀ v : VidMode, v.equals ar v = true) ∧
    (∀ v w : VidMode, v.equals ar w = true → w.equals ar v = true) ∧
    (∀ u v w : VidMode, u.equals ar v = true → v.equals ar w = true →
      u.equals ar w = true) := by
  refine ⟨?_, ?_, ?_, ?_⟩
  · rw [modeLess_tie_iff, equals_iff]
    unfold sortKey
    rw [wrapInt_of_isInt ar _ hfa, wrapInt_of_isInt ar _ hfb]
    simp only [Prod.mk.injEq]
    constructor
    · rintro ⟨h1, h2, h3, h4⟩
      refine ⟨h1, h3, ?_, h4⟩
      rw [h3] at h2
      exact Int.eq_of_mul_eq_mul_left (ne_of_gt hb) h2
    · rintro ⟨h1, h2, h3, h4⟩
      exact ⟨h1, by rw [h2, h3], h2, h4⟩
  · intro v
    rw [equals_iff]
    exact ⟨rfl, rfl, rfl, rfl⟩
  · intro v w
    rw [equals_iff, equals_iff]
    rintro ⟨h1, h2, h3, h4⟩
    exact ⟨h1.symm, h2.symm, h3.symm, h4.symm⟩
  · intro u v w
    rw [equals_iff, equals_iff, equals_iff]
    rintro ⟨h1, h2, h3, h4⟩ ⟨k1, k2, k3, k4⟩
    exact ⟨h1.trans k1, h2.trans k2, h3.trans k3, h4.trans k4⟩

theorem modeLess_tie_iff_equals_witness :
    (0 : Int) < (modeAt60 640 480 6 5 5).Width ∧
    IsInt .bits64 ((modeAt60 640 480 5 6 5).Width * (modeAt60 640 480 5 6 5).Height) ∧
    IsInt .bits64 ((modeAt60 640 480 6 5 5).Width * (modeAt60 640 480 6 5 5).Height) ∧
    ((modeLess .bits64 (modeAt60 640 480 5 6 5) (modeAt60 640 480 6 5 5) = false ∧
        modeLess .bits64 (modeAt60 640 480 6 5 5) (modeAt60 640 480 5 6 5) = false) ↔
      (modeAt60 640 480 5 6 5).equals .bits64 (modeAt60 640 480 6 5 5) = true) :=
  ⟨by decide, by decide, by decide,
    (modeLess_tie_iff_equals .bits64 (modeAt60 640 480 5 6 5) (modeAt60 640 480 6 5 5)
      (by decide) (by decide) (by decide)).1⟩

/-- The worked ties: 5-6-5 and 6-5-5 at 640 by 480 are equal and tie in the
sort; 640 by 480 and 800 by 600 at the same depth are neither. Without a
positive width the two notions part: the modes 0 by 1 and 0 by 2 tie in the
sort and are not equal. -/
theorem modeLess_tie_examples :
    (modeAt60 640 480 5 6 5).equals .bits64 (modeAt60 640 480 6 5 5) = true ∧
    modeLess .bits64 (modeAt60 640 480 5 6 5) (modeAt60 640 480 6 5 5) = false ∧
    modeLess .bits64 (modeAt60 640 480 6 5 5) (modeAt60 640 480 5 6 5) = false ∧
    (modeAt60 640 480 8 8 8).equals .bits64 (modeAt60 800 600 8 8 8) = false ∧
    modeLess .bits64 (modeAt60 640 480 8 8 8) (modeAt60 800 600 8 8 8) = true ∧
    (modeAt60 0 1 8 8 8).equals .bits64 (modeAt60 0 2 8 8 8) = false ∧
    modeLess .bits64 (modeAt60 0 1 8 8 8) (modeAt60 0 2 8 8 8) = false ∧
    modeLess .bits64 (modeAt60 0 2 8 8 8) (modeAt60 0 1 8 8 8) = false :=
  ⟨by rfl, by rfl, by rfl, by rfl, by rfl, by rfl, by rfl, by rfl⟩

/-! ## The pixel copy of `createIcon` -/

/-- C22, at a failing input. The image of two by two pixels has a buffer of
2*2*4 = 16 bytes, so the copy loop runs for `i = 0, 1, 2, 3`; the target slice
has the length `Width*Height = 4`. The iteration `i = 1` writes `target[4]`,
which is outside the slice: the loop ends in the panic "index out of range [4]
with length 4", and so does `createIcon`. -/
theorem copyPixels_index_out_of_range (ar : Arch) :
    1 ≤ fourPixelImage.Width * fourPixelImage.Height ∧
    (fourPixelImage.Pixels.length : Int) = fourPixelImage.Width * fourPixelImage.Height * 4 ∧
    1 < fourPixelImage.Pixels.length / 4 ∧
    ¬ ((4 : Int) * 1 < fourPixelImage.Width * fourPixelImage.Height) ∧
    copyPixels ar fourPixelImage.Pixels
      (wrapInt ar (fourPixelImage.Width * fourPixelImage.Height))
      (List.replicate 16 0) = .error (.indexOutOfRange 4 4) ∧
    (createIcon ar sampleGdi fourPixelImage 0 0 true).result = .error (.indexOutOfRange 4 4) := by
  cases ar <;> exact ⟨by decide, by rfl, by decide, by decide, by rfl, by rfl⟩

/-! ## A connect event followed by a disconnect event -/

/-- C24. For a registry that does not hold the monitor, with no window
full-screen on it, a connect event for the monitor with `_GLFW_INSERT_FIRST`
or `_GLFW_INSERT_LAST` followed by a disconnect event for it ends without panic
and leaves the registry, and the whole state, as it was before the two
events. -/
theorem inputMonitor_connect_then_disconnect (c : Constants) (monitor : Option Nat)
    (placement : Int) (g : Library) (hnot : monitor ∉ g.monitors)
    (hw : ∀ w ∈ g.windows, w.monitor ≠ monitor) :
    (inputMonitor c monitor c.Connected c._GLFW_INSERT_FIRST g).panic = none ∧
    (inputMonitor c monitor c.Disconnected placement
      (inputMonitor c monitor c.Connected c._GLFW_INSERT_FIRST g).state).panic = none ∧
    (inputMonitor c monitor c.Disconnected placement
      (inputMonitor c monitor c.Connected c._GLFW_INSERT_FIRST g).state).state.monitors =
        g.monitors ∧
    (inputMonitor c monitor c.Disconnected placement
      (inputMonitor c monitor c.Connected c._GLFW_INSERT_FIRST g).state).state = g ∧
    (inputMonitor c monitor c.Connected c._GLFW_INSERT_LAST g).panic = none ∧
    (inputMonitor c monitor c.Disconnected placement
      (inputMonitor c monitor c.Connected c._GLFW_INSERT_LAST g).state).panic = none ∧
    (inputMonitor c monitor c.Disconnected placement
      (inputMonitor c monitor c.Connected c._GLFW_INSERT_LAST g).state).state.monitors =
        g.monitors ∧
    (inputMonitor c monitor c.Disconnected placement
      (inputMonitor c monitor c.Connected c._GLFW_INSERT_LAST g).state).state = g := by
  rw [inputMonitor_connect_first, inputMonitor_connect_last]
  dsimp only
  rw [inputMonitor_disconnect_of_none c monitor placement
      { g with monitors := monitor :: g.monitors } hw,
    inputMonitor_disconnect_of_none c monitor placement
      { g with monitors := g.monitors ++ [monitor] } hw]
  dsimp only
  have h1 : (monitor :: g.monitors).erase monitor = g.monitors := List.erase_cons_head _ _
  have h2 : (g.monitors ++ [monitor]).erase monitor = g.monitors := by
    rw [List.erase_append_right _ hnot, List.erase_cons_head, List.append_nil]
  rw [h1, h2]
  exact ⟨rfl, rfl, rfl, rfl, rfl, rfl, rfl, rfl⟩

theorem inputMonitor_connect_then_disconnect_witness :
    some 4 ∉ duplicateLibrary.monitors ∧
    (∀ w ∈ duplicateLibrary.windows, w.monitor ≠ some 4) ∧
    (inputMonitor glfwConstants (some 4) glfwConstants.Disconnected 0
      (inputMonitor glfwConstants (some 4) glfwConstants.Connected
        glfwConstants._GLFW_INSERT_LAST duplicateLibrary).state).state = duplicateLibrary :=
  ⟨by decide, by decide,
    (inputMonitor_connect_then_disconnect glfwConstants (some 4) 0 duplicateLibrary
      (by decide) (by decide)).2.2.2.2.2.2.2⟩

/-- Where the registry already holds the monitor the round trip with
`_GLFW_INSERT_LAST` need not restore it: from the registry 1, 2, 3, connecting 1
at the back and disconnecting it leaves 2, 3, 1. -/
theorem inputMonitor_reconnect_present_reorders :
    (inputMonitor glfwConstants (some 1) glfwConstants.Disconnected 0
      (inputMonitor glfwConstants (some 1) glfwConstants.Connected
        glfwConstants._GLFW_INSERT_LAST sampleLibrary).state).state.monitors =
      [some 2, some 3, some 1] := by
  rfl

/-! ## The public monitor functions before and after initialization -/

/-- C21. While `_glfw.initialized` is false each of `GetMonitors`,
`GetPrimaryMonitor`, the seven `Monitor` getters and `SetMonitorCallback` ends
in `panic(NotInitialized)`: no value is returned, no state is produced, and the
platform is not consulted. Once it is true `GetMonitors` returns the registry
as it is, and `GetPrimaryMonitor` returns nil for the empty registry and the
element at index 0 otherwise. -/
theorem monitor_api_initialized (p : MonitorPlatform) (g : Library) (m : Monitor)
    (cbfun : Option Nat) :
    (g.initialized = false →
      GetMonitors g = .error .NotInitialized ∧
      GetPrimaryMonitor g = .error .NotInitialized ∧
      m.GetPos p g = .error .NotInitialized ∧
      m.GetWorkarea p g = .error .NotInitialized ∧
      m.GetPhysicalSize g = .error .NotInitialized ∧
      m.GetContentScale p g = .error .NotInitialized ∧
      m.GetName g = .error .NotInitialized ∧
      m.GetVideoModes g = .error .NotInitialized ∧
      m.GetVideoMode g = .error .NotInitialized ∧
      SetMonitorCallback cbfun g = .error .NotInitialized) ∧
    (g.initialized = true →
      GetMonitors g = .ok g.monitors ∧
      (g.monitors = [] → GetPrimaryMonitor g = .ok none) ∧
      (∀ first rest, g.monitors = first :: rest → GetPrimaryMonitor g = .ok first)) := by
  constructor
  · intro h
    unfold GetMonitors GetPrimaryMonitor Monitor.GetPos Monitor.GetWorkarea
      Monitor.GetPhysicalSize Monitor.GetContentScale Monitor.GetName Monitor.GetVideoModes
      Monitor.GetVideoMode SetMonitorCallback
    rw [h]
    exact ⟨rfl, rfl, rfl, rfl, rfl, rfl, rfl, rfl, rfl, rfl⟩
  · intro h
    unfold GetMonitors GetPrimaryMonitor
    rw [h]
    refine ⟨rfl, ?_, ?_⟩
    · intro he
      rw [he]
      rfl
    · intro first rest he
      rw [he]
      rfl

theorem monitor_api_initialized_witness :
    ({ sampleLibrary with initialized := false } : Library).initialized = false ∧
    GetMonitors { sampleLibrary with initialized := false } = .error .NotInitialized ∧
    sampleLibrary.initialized = true ∧
    GetMonitors sampleLibrary = .ok [some 1, some 2, some 3] :=
  ⟨by rfl,
    ((monitor_api_initialized sampleMonitorPlatform { sampleLibrary with initialized := false }
      sampleMonitor none).1 (by rfl)).1,
    by rfl,
    ((monitor_api_initialized sampleMonitorPlatform sampleLibrary sampleMonitor none).2
      (by rfl)).1⟩

/-- The worked calls: on the registry 1, 2, 3 the primary monitor is 1, on the
empty registry it is nil; the getters of an initialized state return the
monitor's attributes and what the platform reports. -/
theorem monitor_api_examples :
    GetPrimaryMonitor sampleLibrary = .ok (some 1) ∧
    GetPrimaryMonitor { sampleLibrary with monitors := [] } = .ok none ∧
    sampleMonitor.GetPos sampleMonitorPlatform sampleLibrary = .ok (0, 0) ∧
    sampleMonitor.GetWorkarea sampleMonitorPlatform sampleLibrary = .ok (0, 0, 1920, 1040) ∧
    sampleMonitor.GetPhysicalSize sampleLibrary =
      .ok (sampleMonitor.widthMM, sampleMonitor.heightMM) ∧
    sampleMonitor.GetName sampleLibrary = .ok sampleMonitor.name :=
  ⟨by rfl, by rfl, by rfl, by rfl, by rfl, by rfl⟩

end Glfwwin
